import Mathlib

/-!
# libewf: section, pool and handle functions

A shallow embedding of `src/libewf/libewf_ltree_section.c`,
`src/libewf/libewf_file_io_pool.c`, `src/libewf/libewf_segment_file_handle.c`
and of the setters and the header value dispatch of
`src/ewftools/info_handle.c`.

Conventions of the embedding.

* A byte buffer is a `List Nat` whose elements are the values of its `uint8_t`
  cells (naturals below 256).
* A pointer that the C code tests against `NULL` is an `Option`: `none` is
  `NULL`, `some v` is a valid pointer to a cell holding `v`.
* A function with output arguments returns a record holding its return value
  and the state of every cell it may write after the call.
* `errors` lists the `libcerror_error_set` calls the embedded function itself
  makes, oldest first, as (domain, code) pairs.
* `size_t` and `size64_t` are 64 bit wide; arithmetic that can wrap carries an
  explicit `% 2 ^ 64`.
* An `off64_t` or `ssize_t` is an `Int`; the sums the source forms of them
  (a data offset plus the header size, write counts) are taken not to overflow.
-/

namespace Libewf

/-! ## Error values -/

/-- The `LIBCERROR_ERROR_DOMAIN_*` values the embedded functions use. -/
inductive libcerror_domain
  | ARGUMENTS
  | INPUT
  | IO_DOMAIN
  | MEMORY
  | RUNTIME
  deriving DecidableEq, Repr

/-- The `LIBCERROR_*_ERROR_*` codes the embedded functions use. -/
inductive libcerror_code
  | INVALID_VALUE
  | VALUE_OUT_OF_BOUNDS
  | VALUE_EXCEEDS_MAXIMUM
  | VALUE_TOO_SMALL
  | UNSUPPORTED_VALUE
  | CHECKSUM_MISMATCH
  | GET_FAILED
  | SET_FAILED
  | INITIALIZE_FAILED
  | READ_FAILED
  | WRITE_FAILED
  | VALUE_ALREADY_SET
  | INSUFFICIENT
  | COPY_FAILED
  | PRINT_FAILED
  | FINALIZE_FAILED
  deriving DecidableEq, Repr

/-- One `libcerror_error_set` call: its domain and its code. The older source
files call the same library liberror. -/
abbrev libcerror_error_t := libcerror_domain × libcerror_code

/-! ## Platform constants -/

/-- `SSIZE_MAX` of a platform with a 64 bit `ssize_t`. -/
def SSIZE_MAX : Nat := 2 ^ 63 - 1

/-- `UINT32_MAX`. -/
def UINT32_MAX : Nat := 2 ^ 32 - 1

/-- The number of values of a `size_t` (and of a `size64_t`). -/
def SIZE_MODULUS : Nat := 2 ^ 64

/-! ## The ltree header

`ewf_ltree.h`, which declares `ewf_ltree_header_t`, is not among the source
files. The width of each field is the width `libewf_ltree_section.c` itself
uses for it, and the fields are taken in the order in which the source prints
them (`integrity hash`, `data size`, `checksum`, `unknown1`); all of them are
`uint8_t` arrays, so the structure has no padding. -/

/-- Width of `integrity_hash`: `libhmac_md5_calculate( .., integrity_hash, 16, .. )`
and `libcnotify_print_data( integrity_hash, 16, 0 )`. -/
def ewf_ltree_header_integrity_hash_size : Nat := 16

/-- Width of `data_size`: it is read with
`byte_stream_copy_to_uint64_little_endian`. -/
def ewf_ltree_header_data_size_size : Nat := 8

/-- Width of `checksum`: it is read and written with the `uint32` byte stream
copies. -/
def ewf_ltree_header_checksum_size : Nat := 4

/-- Width of `unknown1`: `libcnotify_print_data( unknown1, 20, 0 )`. -/
def ewf_ltree_header_unknown1_size : Nat := 20

/-- Offset of `integrity_hash` in `ewf_ltree_header_t`. -/
def ewf_ltree_header_integrity_hash_offset : Nat := 0

/-- Offset of `data_size` in `ewf_ltree_header_t`. -/
def ewf_ltree_header_data_size_offset : Nat :=
  ewf_ltree_header_integrity_hash_offset + ewf_ltree_header_integrity_hash_size

/-- Offset of `checksum` in `ewf_ltree_header_t`. -/
def ewf_ltree_header_checksum_offset : Nat :=
  ewf_ltree_header_data_size_offset + ewf_ltree_header_data_size_size

/-- Offset of `unknown1` in `ewf_ltree_header_t`. -/
def ewf_ltree_header_unknown1_offset : Nat :=
  ewf_ltree_header_checksum_offset + ewf_ltree_header_checksum_size

/-- The value of `sizeof( ewf_ltree_header_t )`. -/
def sizeof_ewf_ltree_header_t : Nat :=
  ewf_ltree_header_unknown1_offset + ewf_ltree_header_unknown1_size

/-! ## Byte stream copies (`byte_stream.h`) -/

/-- The macro `byte_stream_copy_to_uint32_little_endian( byte_stream, value )`
applied to the bytes at `offset` of `data`. -/
def byte_stream_copy_to_uint32_little_endian (data : List Nat) (offset : Nat) : Nat :=
  ((((((data.getD (offset + 3) 0) <<< 8) ||| data.getD (offset + 2) 0) <<< 8)
    ||| data.getD (offset + 1) 0) <<< 8) ||| data.getD offset 0

/-- The macro `byte_stream_copy_to_uint64_little_endian( byte_stream, value )`
applied to the bytes at `offset` of `data`. -/
def byte_stream_copy_to_uint64_little_endian (data : List Nat) (offset : Nat) : Nat :=
  ((((((((((((((data.getD (offset + 7) 0) <<< 8) ||| data.getD (offset + 6) 0) <<< 8)
    ||| data.getD (offset + 5) 0) <<< 8) ||| data.getD (offset + 4) 0) <<< 8)
    ||| data.getD (offset + 3) 0) <<< 8) ||| data.getD (offset + 2) 0) <<< 8)
    ||| data.getD (offset + 1) 0) <<< 8) ||| data.getD offset 0

/-- The macro `byte_stream_copy_from_uint32_little_endian( byte_stream, value )`
storing at `offset` of `data`: four single byte stores. -/
def byte_stream_copy_from_uint32_little_endian (data : List Nat) (offset : Nat)
    (value : Nat) : List Nat :=
  (((data.set offset (value &&& 0xff)).set (offset + 1) ((value >>> 8) &&& 0xff)).set
    (offset + 2) ((value >>> 16) &&& 0xff)).set (offset + 3) ((value >>> 24) &&& 0xff)

/-- The call `memory_set( buffer, 0, size )`: the first `size` bytes of the
buffer become zero. `memory_set` yields its first argument, which is not `NULL`
where the source calls it, so the error branch after the call is never taken. -/
def memory_set_zero (buffer : List Nat) (size : Nat) : List Nat :=
  List.replicate (min size buffer.length) 0 ++ buffer.drop size

/-! ## Adler-32 -/

/-- One byte of the Adler-32 sum on the pair (lower word, upper word). -/
def adler32_step (words : Nat × Nat) (byte : Nat) : Nat × Nat :=
  ((words.1 + byte) % 0xfff1, (words.2 + (words.1 + byte) % 0xfff1) % 0xfff1)

/-- Modelled from the spec: `libewf_checksum.c` is not among the source files;
the spec treats Adler-32 as a pure function with its known contract. This is the
Adler-32 of `buffer` continued from `initial_value`. -/
def adler32 (buffer : List Nat) (initial_value : Nat) : Nat :=
  let words := buffer.foldl adler32_step
    (initial_value &&& 0xffff, (initial_value >>> 16) &&& 0xffff)
  (words.2 <<< 16) ||| words.1

/-- Modelled from the spec: `libewf_checksum_calculate_adler32` of
`libewf_checksum.c`, which is not among the source files. It fails on a `NULL`
buffer and on a size above `SSIZE_MAX`, and otherwise yields the Adler-32 of
the first `size` bytes. -/
def libewf_checksum_calculate_adler32 (buffer : Option (List Nat)) (size : Nat)
    (initial_value : Nat) : Option Nat :=
  match buffer with
  | none => none
  | some bytes =>
    if size > SSIZE_MAX then none
    else some (adler32 (bytes.take size) initial_value)

/-! ## libewf_ltree_section_read_header_data -/

/-- What a call of `libewf_ltree_section_read_header_data` leaves behind. -/
structure read_header_data_result where
  /-- The return value -/
  result : Int
  /-- The buffer behind `data` after the call -/
  data : Option (List Nat)
  /-- The cell behind `single_files_data_size` after the call -/
  single_files_data_size : Option Nat
  /-- The errors set by the call -/
  errors : List libcerror_error_t
  deriving DecidableEq, Repr

/-- Reads a version 1 ltree header.
Returns 1 if successful or -1 on error. -/
def libewf_ltree_section_read_header_data (data : Option (List Nat)) (data_size : Nat)
    (single_files_data_size : Option Nat) : read_header_data_result :=
  match data with
  | none =>
    ⟨-1, data, single_files_data_size,
      [(libcerror_domain.ARGUMENTS, libcerror_code.INVALID_VALUE)]⟩
  | some bytes =>
    if data_size < sizeof_ewf_ltree_header_t ∨ data_size > SSIZE_MAX then
      ⟨-1, data, single_files_data_size,
        [(libcerror_domain.ARGUMENTS, libcerror_code.VALUE_OUT_OF_BOUNDS)]⟩
    else
      match single_files_data_size with
      | none =>
        ⟨-1, data, single_files_data_size,
          [(libcerror_domain.ARGUMENTS, libcerror_code.INVALID_VALUE)]⟩
      | some _ =>
        let safe_single_files_data_size :=
          byte_stream_copy_to_uint64_little_endian bytes ewf_ltree_header_data_size_offset
        let stored_checksum :=
          byte_stream_copy_to_uint32_little_endian bytes ewf_ltree_header_checksum_offset
        let cleared :=
          byte_stream_copy_from_uint32_little_endian bytes ewf_ltree_header_checksum_offset 0
        match libewf_checksum_calculate_adler32 (some cleared) sizeof_ewf_ltree_header_t 1 with
        | none =>
          ⟨-1, some cleared, single_files_data_size,
            [(libcerror_domain.RUNTIME, libcerror_code.SET_FAILED)]⟩
        | some calculated_checksum =>
          if stored_checksum ≠ calculated_checksum then
            ⟨-1, some cleared, single_files_data_size,
              [(libcerror_domain.INPUT, libcerror_code.CHECKSUM_MISMATCH)]⟩
          else
            ⟨1, some cleared, some safe_single_files_data_size, []⟩

/-! ## Collaborators of the section functions

`libewf_section_descriptor.c`, `libewf_section.c`, `libewf_data_stream.c`,
`libewf_definitions.h`, `ewf_section.h` and the libraries libbfio, libfdata and
libhmac are not among the source files. What the ltree functions need of them
is kept in `section_env`; every theorem about the ltree functions holds for
every `section_env`. A collaborator that fails is taken to leave its arguments
as they were, and the errors it sets itself are not recorded. -/

/-- Modelled from the spec: `libewf_definitions.h` is not among the source
files; the encrypted flag of the data flags is bit 1. -/
def LIBEWF_SECTION_DATA_FLAGS_IS_ENCRYPTED : Nat := 0x00000002

/-- Modelled from the spec: `ewf_section.h` is not among the source files; the
version 1 section descriptor is 76 bytes long. -/
def sizeof_ewf_section_descriptor_v1_t : Nat := 76

/-- Modelled from the spec: `libewf_section_descriptor.h` is not among the
source files. The attributes of a section descriptor: type code, file offsets,
sizes and data flags; `data_flags` and `data_size` are the two fields the ltree
functions access themselves. -/
structure libewf_section_descriptor_t where
  /-- The section type code -/
  type : Nat
  /-- The section type string -/
  type_string : List Nat
  /-- The data flags, a `uint32_t` -/
  data_flags : Nat
  /-- The file offset where the section starts -/
  start_offset : Int
  /-- The file offset where the section ends -/
  end_offset : Int
  /-- The section size, a `size64_t` -/
  size : Nat
  /-- The section data size, a `size64_t` -/
  data_size : Nat
  /-- The section padding size, a `uint32_t` -/
  padding_size : Nat
  deriving DecidableEq, Repr

/-- The io handle: the ltree functions only pass it on. -/
structure libewf_io_handle_t where
  /-- Tells io handles apart -/
  identifier : Nat
  deriving DecidableEq, Repr

/-- A data stream of one segment, as `libewf_data_stream_initialize_from_section`
is asked to create it: the pool entry, the offset and the size of the segment. -/
structure libfdata_stream_t where
  /-- The file io pool entry of the segment -/
  file_io_pool_entry : Int
  /-- The offset of the segment -/
  offset : Int
  /-- The size of the segment -/
  size : Nat
  deriving DecidableEq, Repr

/-- A call made on the file io pool. -/
inductive pool_event
  | read_buffer (file_io_pool_entry : Int) (offset : Int) (size : Nat)
  | write_descriptor (file_io_pool_entry : Int)
      (section_descriptor : libewf_section_descriptor_t) (format_version : Nat)
  | write_data (file_io_pool_entry : Int)
      (section_descriptor : libewf_section_descriptor_t) (data : List Nat)
  deriving DecidableEq, Repr

/-- The file io pool, seen through the calls made on it, oldest first. What a
call yields is decided by the `section_env`, which is given the pool and so the
whole history. -/
structure libbfio_pool_t where
  /-- The calls made on the pool so far -/
  events : List pool_event
  deriving DecidableEq, Repr

/-- The behaviour of the functions and constants the ltree section functions
use and that are not among the source files. -/
structure section_env where
  /-- The value of `sizeof( ewf_section_descriptor_v2_t )` -/
  sizeof_ewf_section_descriptor_v2_t : Nat
  /-- The value of `LIBEWF_SECTION_TYPE_SINGLE_FILES_DATA` -/
  LIBEWF_SECTION_TYPE_SINGLE_FILES_DATA : Nat
  /-- The value of `LIBEWF_SECTION_DATA_FLAGS_HAS_INTEGRITY_HASH` -/
  LIBEWF_SECTION_DATA_FLAGS_HAS_INTEGRITY_HASH : Nat
  /-- `libewf_section_descriptor_get_data_offset`: the data offset for a
  descriptor and a format version, `none` when it does not return 1 -/
  section_descriptor_get_data_offset : libewf_section_descriptor_t → Nat → Option Int
  /-- `libewf_section_descriptor_set`: the descriptor after the call for (descriptor,
  type, type string, type string length, offset, size, data size, padding size),
  `none` when it does not return 1 -/
  section_descriptor_set : libewf_section_descriptor_t → Nat → List Nat → Nat → Int →
    Nat → Nat → Nat → Option libewf_section_descriptor_t
  /-- `libewf_section_descriptor_write_file_io_pool`: the write count and the
  descriptor after the call for (pool, descriptor, pool entry, format version) -/
  section_descriptor_write : libbfio_pool_t → libewf_section_descriptor_t → Int → Nat →
    Int × libewf_section_descriptor_t
  /-- `libewf_section_write_data`: the write count and the descriptor after the
  call for (pool, descriptor, io handle, pool entry, section data) -/
  section_write_data : libbfio_pool_t → libewf_section_descriptor_t →
    Option libewf_io_handle_t → Int → List Nat → Int × libewf_section_descriptor_t
  /-- What the pool holds for (pool, pool entry, offset, size): the bytes a read
  delivers, `none` when the read fails -/
  pool_read : libbfio_pool_t → Int → Int → Nat → Option (List Nat)
  /-- Whether creating a stream for (pool entry, offset, size) fails -/
  data_stream_initialize_fails : Int → Int → Nat → Bool
  /-- `libhmac_md5_calculate`: the digest of a buffer, `none` when it does not
  return 1 -/
  md5_calculate : List Nat → Option (List Nat)

/-- The call `libbfio_pool_read_buffer_at_offset( pool, entry, buffer, size,
offset )`: the read count, the buffer after the call and the pool after the
call. At most `size` bytes are stored at the start of the buffer. -/
def libbfio_pool_read_buffer_at_offset (env : section_env) (file_io_pool : libbfio_pool_t)
    (file_io_pool_entry : Int) (buffer : List Nat) (size : Nat) (offset : Int) :
    Int × List Nat × libbfio_pool_t :=
  let pool_after : libbfio_pool_t :=
    ⟨file_io_pool.events ++ [pool_event.read_buffer file_io_pool_entry offset size]⟩
  match env.pool_read file_io_pool file_io_pool_entry offset size with
  | none => (-1, buffer, pool_after)
  | some bytes =>
    (((bytes.take size).length : Nat), bytes.take size ++ buffer.drop (bytes.take size).length,
      pool_after)

/-- Modelled from the spec: `libewf_data_stream.c` is not among the source
files. On success the created stream is the one segment (pool entry, offset,
size) of the call. -/
def libewf_data_stream_initialize_from_section (env : section_env)
    (file_io_pool_entry : Int) (offset : Int) (size : Nat) : Option libfdata_stream_t :=
  if env.data_stream_initialize_fails file_io_pool_entry offset size then none
  else some ⟨file_io_pool_entry, offset, size⟩

/-! ## libewf_ltree_section_read_file_io_pool -/

/-- What a call of `libewf_ltree_section_read_file_io_pool` leaves behind. -/
structure read_file_io_pool_result where
  /-- The return value: the number of bytes read or -1 -/
  result : Int
  /-- The argument `data_stream` after the call: `none` when the argument is
  `NULL`, otherwise the content of the cell it points to -/
  data_stream : Option (Option libfdata_stream_t)
  /-- The file io pool after the call -/
  file_io_pool : libbfio_pool_t
  /-- The errors set by the call -/
  errors : List libcerror_error_t
  deriving DecidableEq, Repr

/-- The end of `libewf_ltree_section_read_file_io_pool`, from the call of
`libewf_data_stream_initialize_from_section` on, which both format versions
reach. -/
def read_file_io_pool_create_stream (env : section_env) (file_io_pool : libbfio_pool_t)
    (file_io_pool_entry : Int) (data_stream : Option (Option libfdata_stream_t))
    (read_count : Int) (data_offset : Int) (data_size : Nat) : read_file_io_pool_result :=
  match libewf_data_stream_initialize_from_section env file_io_pool_entry data_offset
      data_size with
  | none =>
    ⟨-1, data_stream, file_io_pool,
      [(libcerror_domain.RUNTIME, libcerror_code.INITIALIZE_FAILED)]⟩
  | some safe_data_stream =>
    ⟨read_count, some (some safe_data_stream), file_io_pool, []⟩

/-- Reads a version 1 ltree section or version 2 singles files data section.
Returns the number of bytes read or -1 on error. -/
def libewf_ltree_section_read_file_io_pool (env : section_env)
    (section_descriptor : Option libewf_section_descriptor_t)
    (_io_handle : Option libewf_io_handle_t) (file_io_pool : libbfio_pool_t)
    (file_io_pool_entry : Int) (format_version : Nat)
    (data_stream : Option (Option libfdata_stream_t)) : read_file_io_pool_result :=
  match section_descriptor with
  | none =>
    ⟨-1, data_stream, file_io_pool,
      [(libcerror_domain.ARGUMENTS, libcerror_code.INVALID_VALUE)]⟩
  | some descriptor =>
    if descriptor.data_flags &&& LIBEWF_SECTION_DATA_FLAGS_IS_ENCRYPTED ≠ 0 then
      ⟨-1, data_stream, file_io_pool,
        [(libcerror_domain.RUNTIME, libcerror_code.UNSUPPORTED_VALUE)]⟩
    else if format_version ≠ 1 ∧ format_version ≠ 2 then
      ⟨-1, data_stream, file_io_pool,
        [(libcerror_domain.ARGUMENTS, libcerror_code.UNSUPPORTED_VALUE)]⟩
    else
      match data_stream with
      | none =>
        ⟨-1, data_stream, file_io_pool,
          [(libcerror_domain.ARGUMENTS, libcerror_code.INVALID_VALUE)]⟩
      | some _ =>
        match env.section_descriptor_get_data_offset descriptor format_version with
        | none =>
          ⟨-1, data_stream, file_io_pool,
            [(libcerror_domain.RUNTIME, libcerror_code.GET_FAILED)]⟩
        | some data_offset =>
          let data_size := descriptor.data_size
          if format_version = 1 then
            if data_size < sizeof_ewf_ltree_header_t then
              ⟨-1, data_stream, file_io_pool,
                [(libcerror_domain.RUNTIME, libcerror_code.VALUE_OUT_OF_BOUNDS)]⟩
            else
              let read := libbfio_pool_read_buffer_at_offset env file_io_pool
                file_io_pool_entry (List.replicate sizeof_ewf_ltree_header_t 0)
                sizeof_ewf_ltree_header_t data_offset
              if read.1 ≠ (sizeof_ewf_ltree_header_t : Int) then
                ⟨-1, data_stream, read.2.2,
                  [(libcerror_domain.IO_DOMAIN, libcerror_code.READ_FAILED)]⟩
              else
                let header := libewf_ltree_section_read_header_data (some read.2.1)
                  sizeof_ewf_ltree_header_t (some 0)
                if header.result ≠ 1 then
                  ⟨-1, data_stream, read.2.2,
                    header.errors ++ [(libcerror_domain.IO_DOMAIN, libcerror_code.READ_FAILED)]⟩
                else
                  let single_files_data_size := header.single_files_data_size.getD 0
                  let header_end_offset := data_offset + (sizeof_ewf_ltree_header_t : Int)
                  let remaining_data_size :=
                    (data_size + (SIZE_MODULUS - sizeof_ewf_ltree_header_t)) % SIZE_MODULUS
                  if single_files_data_size > remaining_data_size then
                    ⟨-1, data_stream, read.2.2,
                      [(libcerror_domain.RUNTIME, libcerror_code.VALUE_OUT_OF_BOUNDS)]⟩
                  else
                    read_file_io_pool_create_stream env read.2.2 file_io_pool_entry
                      data_stream read.1 header_end_offset single_files_data_size
          else
            read_file_io_pool_create_stream env file_io_pool file_io_pool_entry
              data_stream 0 data_offset data_size

/-! ## libewf_ltree_section_write_file_io_pool -/

/-- A `uint8_t *` argument that is not `NULL`: its address and the bytes of the
buffer it points to. -/
structure uint8_buffer where
  /-- The address the pointer holds -/
  address : Nat
  /-- The bytes stored from that address on -/
  bytes : List Nat
  deriving DecidableEq, Repr

/-- Stores `source` at `offset` of `buffer`, the way `libhmac_md5_calculate`
stores the digest in the hash buffer it is given. -/
def memory_copy (buffer : List Nat) (offset : Nat) (source : List Nat) : List Nat :=
  buffer.take offset ++ source ++ buffer.drop (offset + source.length)

/-- What a call of `libewf_ltree_section_write_file_io_pool` leaves behind. -/
structure write_file_io_pool_result where
  /-- The return value: the number of bytes written or -1 -/
  result : Int
  /-- The section descriptor after the call -/
  section_descriptor : Option libewf_section_descriptor_t
  /-- The bytes of the `section_data` buffer as the function itself leaves them -/
  section_data : Option (List Nat)
  /-- The file io pool after the call -/
  file_io_pool : libbfio_pool_t
  /-- The errors set by the call -/
  errors : List libcerror_error_t
  deriving DecidableEq, Repr

/-- The call `libewf_section_descriptor_write_file_io_pool( section_descriptor,
file_io_pool, file_io_pool_entry, format_version, error )`: the write count, the
descriptor after the call and the pool after the call. -/
def libewf_section_descriptor_write_file_io_pool (env : section_env)
    (section_descriptor : libewf_section_descriptor_t) (file_io_pool : libbfio_pool_t)
    (file_io_pool_entry : Int) (format_version : Nat) :
    Int × libewf_section_descriptor_t × libbfio_pool_t :=
  ((env.section_descriptor_write file_io_pool section_descriptor file_io_pool_entry
      format_version).1,
    (env.section_descriptor_write file_io_pool section_descriptor file_io_pool_entry
      format_version).2,
    ⟨file_io_pool.events ++
      [pool_event.write_descriptor file_io_pool_entry section_descriptor format_version]⟩)

/-- The call `libewf_section_write_data( section_descriptor, io_handle,
file_io_pool, file_io_pool_entry, section_data, section_data_size, error )`: the
write count, the descriptor after the call and the pool after the call. The
data handed over are the first `section_data_size` bytes of the buffer. -/
def libewf_section_write_data (env : section_env)
    (section_descriptor : libewf_section_descriptor_t) (io_handle : Option libewf_io_handle_t)
    (file_io_pool : libbfio_pool_t) (file_io_pool_entry : Int) (section_data : List Nat)
    (section_data_size : Nat) : Int × libewf_section_descriptor_t × libbfio_pool_t :=
  ((env.section_write_data file_io_pool section_descriptor
      io_handle file_io_pool_entry (section_data.take section_data_size)).1,
    (env.section_write_data file_io_pool section_descriptor
      io_handle file_io_pool_entry (section_data.take section_data_size)).2,
    ⟨file_io_pool.events ++
      [pool_event.write_data file_io_pool_entry section_descriptor
        (section_data.take section_data_size)]⟩)

/-- The end of `libewf_ltree_section_write_file_io_pool`, from the call of
`libewf_section_write_data` on, which both format versions reach.
`descriptor` is the section descriptor and `bytes` the section data at that
point. -/
def write_file_io_pool_write_data (env : section_env)
    (descriptor : libewf_section_descriptor_t) (io_handle : Option libewf_io_handle_t)
    (file_io_pool : libbfio_pool_t) (file_io_pool_entry : Int) (format_version : Nat)
    (bytes : List Nat) (section_descriptor_data_size : Nat)
    (required_section_data_size : Nat) (total_write_count : Int) :
    write_file_io_pool_result :=
  let written := libewf_section_write_data env descriptor io_handle file_io_pool
    file_io_pool_entry bytes required_section_data_size
  if written.1 = -1 then
    ⟨-1, some written.2.1, some bytes, written.2.2,
      [(libcerror_domain.IO_DOMAIN, libcerror_code.WRITE_FAILED)]⟩
  else if format_version = 2 then
    let trailer := libewf_section_descriptor_write_file_io_pool env written.2.1 written.2.2
      file_io_pool_entry format_version
    if trailer.1 ≠ (section_descriptor_data_size : Int) then
      ⟨-1, some trailer.2.1, some bytes, trailer.2.2,
        [(libcerror_domain.IO_DOMAIN, libcerror_code.WRITE_FAILED)]⟩
    else
      ⟨total_write_count + written.1 + trailer.1, some trailer.2.1, some bytes,
        trailer.2.2, []⟩
  else
    ⟨total_write_count + written.1, some written.2.1, some bytes, written.2.2, []⟩

/-- The version 1 branch of `libewf_ltree_section_write_file_io_pool` between
the write of the section descriptor and the write of the section data: the
checks on the single files data and the construction of the ltree header in
the first bytes of the section data. Yields the bytes of the section data
buffer when the branch is left and the error set, if any. -/
def write_file_io_pool_ltree_header (env : section_env) (section_data : uint8_buffer)
    (section_data_size : Nat) (single_files_data : Nat) (single_files_data_size : Nat)
    (ltree_header_data_size : Nat) : List Nat × Option libcerror_error_t :=
  if section_data.address + ltree_header_data_size ≠ single_files_data then
    (section_data.bytes, some (libcerror_domain.RUNTIME, libcerror_code.VALUE_OUT_OF_BOUNDS))
  else if single_files_data_size > UINT32_MAX then
    (section_data.bytes,
      some (libcerror_domain.ARGUMENTS, libcerror_code.VALUE_EXCEEDS_MAXIMUM))
  else if section_data_size < ltree_header_data_size then
    (section_data.bytes, some (libcerror_domain.RUNTIME, libcerror_code.VALUE_OUT_OF_BOUNDS))
  else
    let cleared := memory_set_zero section_data.bytes ltree_header_data_size
    match env.md5_calculate
        ((cleared.drop ltree_header_data_size).take single_files_data_size) with
    | none => (cleared, some (libcerror_domain.RUNTIME, libcerror_code.SET_FAILED))
    | some integrity_hash =>
      let hashed := memory_copy cleared ewf_ltree_header_integrity_hash_offset integrity_hash
      let sized := byte_stream_copy_from_uint32_little_endian hashed
        ewf_ltree_header_data_size_offset single_files_data_size
      match libewf_checksum_calculate_adler32 (some sized) ltree_header_data_size 1 with
      | none => (sized, some (libcerror_domain.RUNTIME, libcerror_code.SET_FAILED))
      | some calculated_checksum =>
        (byte_stream_copy_from_uint32_little_endian sized
          ewf_ltree_header_checksum_offset calculated_checksum, none)

/-- Writes a version 1 ltree section or version 2 singles files data section.
Returns the number of bytes written or -1 on error.

`single_files_data` is the address the pointer holds (`none` for `NULL`); the
function compares it with `section_data + ltree_header_data_size` and, once
they are equal, reads the single files data from the section data buffer. -/
def libewf_ltree_section_write_file_io_pool (env : section_env)
    (section_descriptor : Option libewf_section_descriptor_t)
    (io_handle : Option libewf_io_handle_t) (file_io_pool : libbfio_pool_t)
    (file_io_pool_entry : Int) (format_version : Nat) (section_offset : Int)
    (section_data : Option uint8_buffer) (section_data_size : Nat)
    (single_files_data : Option Nat) (single_files_data_size : Nat) :
    write_file_io_pool_result :=
  let unchanged (error : libcerror_error_t) : write_file_io_pool_result :=
    ⟨-1, section_descriptor, section_data.map uint8_buffer.bytes, file_io_pool, [error]⟩
  match section_descriptor with
  | none => unchanged (libcerror_domain.ARGUMENTS, libcerror_code.INVALID_VALUE)
  | some descriptor =>
    if format_version ≠ 1 ∧ format_version ≠ 2 then
      unchanged (libcerror_domain.ARGUMENTS, libcerror_code.UNSUPPORTED_VALUE)
    else
      let section_descriptor_data_size :=
        if format_version = 1 then sizeof_ewf_section_descriptor_v1_t
        else env.sizeof_ewf_section_descriptor_v2_t
      let ltree_header_data_size :=
        if format_version = 1 then sizeof_ewf_ltree_header_t else 0
      match section_data with
      | none => unchanged (libcerror_domain.ARGUMENTS, libcerror_code.INVALID_VALUE)
      | some buffer =>
        if section_data_size > SSIZE_MAX then
          unchanged (libcerror_domain.ARGUMENTS, libcerror_code.VALUE_EXCEEDS_MAXIMUM)
        else
          match single_files_data with
          | none => unchanged (libcerror_domain.ARGUMENTS, libcerror_code.INVALID_VALUE)
          | some single_files_data_address =>
            let required_section_data_size :=
              (ltree_header_data_size + single_files_data_size) % SIZE_MODULUS
            if required_section_data_size > section_data_size then
              unchanged (libcerror_domain.ARGUMENTS, libcerror_code.VALUE_TOO_SMALL)
            else if single_files_data_size > SSIZE_MAX then
              unchanged (libcerror_domain.ARGUMENTS, libcerror_code.VALUE_EXCEEDS_MAXIMUM)
            else
              match env.section_descriptor_set descriptor
                  env.LIBEWF_SECTION_TYPE_SINGLE_FILES_DATA [0x6c, 0x74, 0x72, 0x65, 0x65] 5
                  section_offset
                  ((section_descriptor_data_size + required_section_data_size) % SIZE_MODULUS)
                  required_section_data_size 0 with
              | none => unchanged (libcerror_domain.RUNTIME, libcerror_code.SET_FAILED)
              | some descriptor_set =>
                if format_version = 1 then
                  let leader := libewf_section_descriptor_write_file_io_pool env
                    descriptor_set file_io_pool file_io_pool_entry format_version
                  if leader.1 ≠ (section_descriptor_data_size : Int) then
                    ⟨-1, some leader.2.1, some buffer.bytes, leader.2.2,
                      [(libcerror_domain.IO_DOMAIN, libcerror_code.WRITE_FAILED)]⟩
                  else
                    let header := write_file_io_pool_ltree_header env buffer
                      section_data_size single_files_data_address single_files_data_size
                      ltree_header_data_size
                    match header.2 with
                    | some error =>
                      ⟨-1, some leader.2.1, some header.1, leader.2.2, [error]⟩
                    | none =>
                      write_file_io_pool_write_data env leader.2.1 io_handle leader.2.2
                        file_io_pool_entry format_version header.1
                        section_descriptor_data_size required_section_data_size leader.1
                else
                  write_file_io_pool_write_data env
                    { descriptor_set with
                      data_flags := descriptor_set.data_flags |||
                        env.LIBEWF_SECTION_DATA_FLAGS_HAS_INTEGRITY_HASH }
                    io_handle file_io_pool file_io_pool_entry format_version buffer.bytes
                    section_descriptor_data_size required_section_data_size 0

/-! ## libewf_file_io_pool.c

`libewf_file_io_pool.h` and `libewf_common.c` are not among the source files.
The fields of the two structures are the ones the source accesses; the sizes
of the structures and the behaviour of the allocator are kept in
`file_io_pool_env`. An allocated array of handles is the list of its entries:
a block of `size` bytes holds `size / LIBEWF_FILE_IO_HANDLE_SIZE` of them. The
source stores into the entries `[iterator, amount)` without a test on the size
of the block; a store past the end of the block, after which the behaviour of
the program is undefined, is an outcome of its own. -/

/-- What a call that stores into the array of handles comes to: it completes
with a value, or it stores past the end of the block the array lives in; the
index is that of the first entry stored past the block. -/
inductive file_io_pool_outcome (α : Type)
  | completes (value : α)
  | stores_past_block (index : Nat)
  deriving DecidableEq, Repr

/-- One entry of the pool: `LIBEWF_FILE_IO_HANDLE`. -/
structure LIBEWF_FILE_IO_HANDLE where
  /-- The filename, `none` for `NULL` -/
  filename : Option (List Nat)
  /-- The file descriptor -/
  file_descriptor : Int
  /-- The file offset -/
  file_offset : Int
  /-- The flags -/
  flags : Int
  deriving DecidableEq, Repr

/-- The pool: `LIBEWF_FILE_IO_POOL`. -/
structure LIBEWF_FILE_IO_POOL where
  /-- The array of handles -/
  handle : List LIBEWF_FILE_IO_HANDLE
  /-- The amount of handles in the pool -/
  amount : Nat
  /-- The amount of open files -/
  open_files : Nat
  deriving DecidableEq, Repr

/-- The constants and the allocator the pool functions use. -/
structure file_io_pool_env where
  /-- The value of `LIBEWF_FILE_IO_POOL_SIZE` -/
  LIBEWF_FILE_IO_POOL_SIZE : Nat
  /-- The value of `LIBEWF_FILE_IO_HANDLE_SIZE` -/
  LIBEWF_FILE_IO_HANDLE_SIZE : Nat
  /-- Whether `libewf_common_alloc` of that many bytes yields `NULL` -/
  alloc_fails : Nat → Bool
  /-- Whether `libewf_common_realloc` to that many bytes yields `NULL` -/
  realloc_fails : Nat → Bool
  /-- What an entry of a fresh block holds before it is written -/
  uninitialised : Nat → LIBEWF_FILE_IO_HANDLE

/-- The call `libewf_common_realloc( handle, size )`: the new block keeps the
entries of the old one as far as it reaches. -/
def libewf_common_realloc_handles (env : file_io_pool_env)
    (handle : List LIBEWF_FILE_IO_HANDLE) (size : Nat) : Option (List LIBEWF_FILE_IO_HANDLE) :=
  if env.realloc_fails size then none
  else some ((List.range (size / env.LIBEWF_FILE_IO_HANDLE_SIZE)).map
    (fun index => handle.getD index (env.uninitialised index)))

/-- The loop `for( ; iterator < amount; iterator++ )` of the pool functions, run
for `count` rounds from `iterator`: each round stores filename `NULL`, file
descriptor -1, file offset 0 and flags 0 in the entry at `iterator`, which lies
past the block when the block has no such entry. -/
def file_io_pool_clear_handles (handle : List LIBEWF_FILE_IO_HANDLE) (iterator : Nat) :
    Nat → file_io_pool_outcome (List LIBEWF_FILE_IO_HANDLE)
  | 0 => file_io_pool_outcome.completes handle
  | count + 1 =>
    if iterator < handle.length then
      file_io_pool_clear_handles (handle.set iterator ⟨none, -1, 0, 0⟩) (iterator + 1) count
    else file_io_pool_outcome.stores_past_block iterator

/-- Reallocates memory for the file io pool entries.
Returns 1 if successful, or -1 on error. The second component is the pool
after the call. -/
def libewf_file_io_pool_realloc (env : file_io_pool_env)
    (file_io_pool : Option LIBEWF_FILE_IO_POOL) (amount : Nat) :
    file_io_pool_outcome (Int × Option LIBEWF_FILE_IO_POOL) :=
  match file_io_pool with
  | none => file_io_pool_outcome.completes (-1, none)
  | some pool =>
    if pool.amount ≥ amount then file_io_pool_outcome.completes (-1, some pool)
    else
      match libewf_common_realloc_handles env pool.handle
          ((amount * env.LIBEWF_FILE_IO_HANDLE_SIZE) % SIZE_MODULUS) with
      | none => file_io_pool_outcome.completes (-1, some pool)
      | some reallocation =>
        match file_io_pool_clear_handles reallocation pool.amount
            (amount - pool.amount) with
        | file_io_pool_outcome.stores_past_block index =>
          file_io_pool_outcome.stores_past_block index
        | file_io_pool_outcome.completes cleared =>
          file_io_pool_outcome.completes
            (1, some { pool with handle := cleared, amount := amount })

/-! ## libewf_segment_file_handle.c

`libewf_segment_file_handle.h`, `libewf_list_type.c` and
`libewf_section_list.c` are not among the source files. The source accesses
two fields of the handle, `file_io_pool_entry` and `section_list`; the bytes of
all its other fields are kept together. A list is known by its address and its
elements; what the list functions do is kept in `segment_file_handle_env`. -/

/-- A list of section values: `libewf_list_t`. An element is the bytes of its
value. -/
structure libewf_list_t where
  /-- The address of the list, which tells two lists apart -/
  address : Nat
  /-- The values of the elements, first element first -/
  elements : List (List Nat)
  deriving DecidableEq, Repr

/-- The segment file handle: `libewf_segment_file_handle_t`. -/
structure libewf_segment_file_handle_t where
  /-- The file io pool entry -/
  file_io_pool_entry : Int
  /-- The list of all the sections, `none` for `NULL` -/
  section_list : Option libewf_list_t
  /-- The bytes of the fields the source does not access -/
  other_fields : List Nat
  deriving DecidableEq, Repr

/-- The allocator and the list functions the segment file handle functions
use. -/
structure segment_file_handle_env where
  /-- The number of bytes of the fields the source does not access -/
  other_fields_size : Nat
  /-- Whether the allocation of a segment file handle yields `NULL` -/
  memory_allocate_fails : Bool
  /-- `libewf_list_initialize` on a pointer holding `NULL`: the new list, `none`
  when it does not return 1 -/
  list_create : Option libewf_list_t
  /-- `libewf_list_clone` on a destination holding `NULL` with the section list
  value functions: the destination list for a source list, `none` when it
  does not return 1. The source list is left as it is. -/
  list_clone : Option libewf_list_t → Option (Option libewf_list_t)

/-- What a call of `libewf_segment_file_handle_initialize` leaves behind. -/
structure segment_file_handle_initialize_result where
  /-- The return value -/
  result : Int
  /-- The argument `segment_file_handle` after the call: `none` when the
  argument is `NULL`, otherwise the content of the cell it points to -/
  segment_file_handle : Option (Option libewf_segment_file_handle_t)
  /-- The errors set by the call -/
  errors : List libcerror_error_t
  deriving DecidableEq, Repr

/-- Initialize the segment file handle.
Returns 1 if successful or -1 on error. -/
def libewf_segment_file_handle_initialize (env : segment_file_handle_env)
    (segment_file_handle : Option (Option libewf_segment_file_handle_t))
    (file_io_pool_entry : Int) : segment_file_handle_initialize_result :=
  match segment_file_handle with
  | none => ⟨-1, none, [(libcerror_domain.ARGUMENTS, libcerror_code.INVALID_VALUE)]⟩
  | some (some _) => ⟨1, segment_file_handle, []⟩
  | some none =>
    if env.memory_allocate_fails then
      ⟨-1, some none, [(libcerror_domain.MEMORY, libcerror_code.INSUFFICIENT)]⟩
    else
      match env.list_create with
      | none =>
        ⟨-1, some none, [(libcerror_domain.RUNTIME, libcerror_code.INITIALIZE_FAILED)]⟩
      | some section_list =>
        ⟨1, some (some ⟨file_io_pool_entry, some section_list,
          List.replicate env.other_fields_size 0⟩), []⟩

/-- What a call of `libewf_segment_file_handle_clone` leaves behind. -/
structure segment_file_handle_clone_result where
  /-- The return value -/
  result : Int
  /-- The argument `destination_segment_file_handle` after the call: `none` when
  the argument is `NULL`, otherwise the content of the cell it points to -/
  destination_segment_file_handle : Option (Option libewf_segment_file_handle_t)
  /-- The source segment file handle after the call -/
  source_segment_file_handle : Option libewf_segment_file_handle_t
  /-- The errors set by the call -/
  errors : List libcerror_error_t
  deriving DecidableEq, Repr

/-- Clones the segment file handle.
Returns 1 if successful or -1 on error. -/
def libewf_segment_file_handle_clone (env : segment_file_handle_env)
    (destination_segment_file_handle : Option (Option libewf_segment_file_handle_t))
    (source_segment_file_handle : Option libewf_segment_file_handle_t) :
    segment_file_handle_clone_result :=
  match destination_segment_file_handle with
  | none =>
    ⟨-1, none, source_segment_file_handle,
      [(libcerror_domain.ARGUMENTS, libcerror_code.INVALID_VALUE)]⟩
  | some (some _) =>
    ⟨-1, destination_segment_file_handle, source_segment_file_handle,
      [(libcerror_domain.RUNTIME, libcerror_code.VALUE_ALREADY_SET)]⟩
  | some none =>
    match source_segment_file_handle with
    | none => ⟨1, some none, none, []⟩
    | some source =>
      if env.memory_allocate_fails then
        ⟨-1, some none, source_segment_file_handle,
          [(libcerror_domain.MEMORY, libcerror_code.INSUFFICIENT)]⟩
      else
        match env.list_clone source.section_list with
        | none =>
          ⟨-1, some none, source_segment_file_handle,
            [(libcerror_domain.RUNTIME, libcerror_code.INITIALIZE_FAILED)]⟩
        | some section_list =>
          ⟨1, some (some { source with section_list := section_list }),
            source_segment_file_handle, []⟩

/-! ## libewf_section_descriptor_clone and its test

`libewf_section_descriptor.c` is not among the source files; its test,
`src/tests/ewf_test_section_descriptor.c`, is. -/

/-- What a call of a section descriptor function leaves behind. -/
structure section_descriptor_call_result where
  /-- The return value -/
  result : Int
  /-- The descriptor pointer argument after the call: `none` when the argument
  is `NULL`, otherwise the content of the cell it points to -/
  section_descriptor : Option (Option libewf_section_descriptor_t)
  /-- The errors set by the call; the error pointer stays `NULL` exactly when
  the list is empty -/
  errors : List libcerror_error_t
  deriving DecidableEq, Repr

/-- Modelled from the spec: `libewf_section_descriptor_clone` of
`libewf_section_descriptor.c`, which is not among the source files. It follows
what its test expects of it and the clone functions of the library that are
among the source files: a `NULL` destination pointer and a destination that is
already set are errors, a `NULL` source gives a `NULL` destination, and
otherwise the destination is a copy of the source. -/
def libewf_section_descriptor_clone (memory_allocate_fails : Bool)
    (destination_section_descriptor : Option (Option libewf_section_descriptor_t))
    (source_section_descriptor : Option libewf_section_descriptor_t) :
    section_descriptor_call_result :=
  match destination_section_descriptor with
  | none => ⟨-1, none, [(libcerror_domain.ARGUMENTS, libcerror_code.INVALID_VALUE)]⟩
  | some (some _) =>
    ⟨-1, destination_section_descriptor,
      [(libcerror_domain.RUNTIME, libcerror_code.VALUE_ALREADY_SET)]⟩
  | some none =>
    match source_section_descriptor with
    | none => ⟨1, some none, []⟩
    | some source =>
      if memory_allocate_fails then
        ⟨-1, some none, [(libcerror_domain.MEMORY, libcerror_code.INSUFFICIENT)]⟩
      else ⟨1, some (some source), []⟩

/-- Modelled from the spec: `libewf_section_descriptor_initialize`, which is not
among the source files: on a pointer holding `NULL` it creates a descriptor
with every field zero. -/
def libewf_section_descriptor_initialize
    (section_descriptor : Option (Option libewf_section_descriptor_t)) :
    section_descriptor_call_result :=
  match section_descriptor with
  | none => ⟨-1, none, [(libcerror_domain.ARGUMENTS, libcerror_code.INVALID_VALUE)]⟩
  | some (some _) =>
    ⟨-1, section_descriptor, [(libcerror_domain.RUNTIME, libcerror_code.VALUE_ALREADY_SET)]⟩
  | some none => ⟨1, some (some ⟨0, [], 0, 0, 0, 0, 0, 0⟩), []⟩

/-- Modelled from the spec: `libewf_section_descriptor_free`, which is not among
the source files: it frees the descriptor and sets the pointer to `NULL`. -/
def libewf_section_descriptor_free
    (section_descriptor : Option (Option libewf_section_descriptor_t)) :
    section_descriptor_call_result :=
  match section_descriptor with
  | none => ⟨-1, none, [(libcerror_domain.ARGUMENTS, libcerror_code.INVALID_VALUE)]⟩
  | some _ => ⟨1, some none, []⟩

/-- The three functions `ewf_test_section_descriptor_clone` calls. -/
structure section_descriptor_functions where
  /-- The function under the name `libewf_section_descriptor_initialize` -/
  create : Option (Option libewf_section_descriptor_t) → section_descriptor_call_result
  /-- The function under the name `libewf_section_descriptor_clone` -/
  clone : Option (Option libewf_section_descriptor_t) →
    Option libewf_section_descriptor_t → section_descriptor_call_result
  /-- The function under the name `libewf_section_descriptor_free` -/
  free : Option (Option libewf_section_descriptor_t) → section_descriptor_call_result

/-- Tests the libewf_section_descriptor_clone function.
Returns 1 if successful or 0 if not.

The test as built without `HAVE_EWF_TEST_MEMORY`, run against the functions
`f`. Every `EWF_TEST_ASSERT` that fails ends the test with 0. The variables
`source_section_descriptor` and `destination_section_descriptor` of the test
are the cells the functions are given pointers to; `bogus` stands for what the
pointer 0x12345678 of the test points to. -/
def ewf_test_section_descriptor_clone (f : section_descriptor_functions)
    (bogus : libewf_section_descriptor_t) : Int :=
  let created := f.create (some none)
  let source_section_descriptor := created.section_descriptor.join
  if created.result ≠ 1 ∨ source_section_descriptor = none ∨ created.errors ≠ [] then 0
  else
    let regular := f.clone (some none) source_section_descriptor
    if regular.result ≠ 1 ∨ regular.section_descriptor.join = none ∨ regular.errors ≠ [] then 0
    else
      let freed := f.free (some regular.section_descriptor.join)
      if freed.result ≠ 1 ∨ freed.section_descriptor.join ≠ none ∨ freed.errors ≠ [] then 0
      else
        let from_null := f.clone (some freed.section_descriptor.join) none
        if from_null.result ≠ 1 ∨ from_null.section_descriptor.join ≠ none
            ∨ from_null.errors ≠ [] then 0
        else
          let to_null := f.clone none source_section_descriptor
          if to_null.result ≠ -1 ∨ to_null.errors = [] then 0
          else
            let already_set := f.clone (some (some bogus)) source_section_descriptor
            if already_set.result ≠ -1 ∨ already_set.errors = [] then 0
            else
              let cleaned := f.free (some source_section_descriptor)
              if cleaned.result ≠ 1 ∨ cleaned.section_descriptor.join ≠ none
                  ∨ cleaned.errors ≠ [] then 0
              else 1

/-! ## info_handle.c

`info_handle.h` and the public header of the library are not among the source
files. The fields of `info_handle_t` are the five the source accesses; the
values of the format and codepage constants are kept in `info_handle_env`. A
C string is the list of its characters before the terminating NUL. -/

/-- The terminating character of a C string. -/
def NUL : Char := Char.ofNat 0

/-- The macro `libcstring_system_string_length( string )`. -/
def libcstring_system_string_length (string : List Char) : Nat :=
  string.length

/-- The comparison of at most `size` characters of two C strings, terminating
NUL included, as `strncmp` and `memcmp` make it: 0 when they agree and, as the
source only tests the value against 0, 1 when they differ. -/
def libcstring_narrow_string_compare (string1 string2 : List Char) (size : Nat) : Int :=
  if (string1 ++ [NUL]).take size = (string2 ++ [NUL]).take size then 0 else 1

/-- The macro `libcstring_system_string_compare( string1, string2, size )`, for
a build whose system character is the narrow character. -/
def libcstring_system_string_compare (string1 string2 : List Char) (size : Nat) : Int :=
  libcstring_narrow_string_compare string1 string2 size

/-- The input handle of the library: the info handle only passes it on. -/
structure libewf_handle_t where
  /-- Tells input handles apart -/
  identifier : Nat
  deriving DecidableEq, Repr

/-- The info handle: `info_handle_t`. -/
structure info_handle_t where
  /-- The libewf input handle, `none` for `NULL` -/
  input_handle : Option libewf_handle_t
  /-- The output format -/
  output_format : Nat
  /-- The date format -/
  date_format : Nat
  /-- The header codepage -/
  header_codepage : Int
  /-- The notification output stream, `none` for `NULL` -/
  notify_stream : Option Nat
  deriving DecidableEq, Repr

/-- The constants, the allocator and the library call `info_handle_initialize`
and the setters use. -/
structure info_handle_env where
  /-- The value of `INFO_HANDLE_OUTPUT_FORMAT_TEXT` -/
  INFO_HANDLE_OUTPUT_FORMAT_TEXT : Nat
  /-- The value of `INFO_HANDLE_OUTPUT_FORMAT_DFXML` -/
  INFO_HANDLE_OUTPUT_FORMAT_DFXML : Nat
  /-- The value of `LIBEWF_DATE_FORMAT_CTIME` -/
  LIBEWF_DATE_FORMAT_CTIME : Nat
  /-- The value of `LIBEWF_DATE_FORMAT_DAYMONTH` -/
  LIBEWF_DATE_FORMAT_DAYMONTH : Nat
  /-- The value of `LIBEWF_DATE_FORMAT_MONTHDAY` -/
  LIBEWF_DATE_FORMAT_MONTHDAY : Nat
  /-- The value of `LIBEWF_DATE_FORMAT_ISO8601` -/
  LIBEWF_DATE_FORMAT_ISO8601 : Nat
  /-- The value of `LIBEWF_CODEPAGE_ASCII` -/
  LIBEWF_CODEPAGE_ASCII : Int
  /-- The stream `stdout`, which is `INFO_HANDLE_NOTIFY_STREAM` -/
  stdout : Nat
  /-- Whether the allocation of an info handle yields `NULL` -/
  memory_allocate_fails : Bool
  /-- `libewf_handle_initialize` on a pointer holding `NULL`: the new input
  handle, `none` when it does not return 1 -/
  input_handle_create : Option libewf_handle_t

/-- What a call of `info_handle_initialize` leaves behind. -/
structure info_handle_initialize_result where
  /-- The return value -/
  result : Int
  /-- The argument `info_handle` after the call: `none` when the argument is
  `NULL`, otherwise the content of the cell it points to -/
  info_handle : Option (Option info_handle_t)
  /-- The errors set by the call -/
  errors : List libcerror_error_t
  deriving DecidableEq, Repr

/-- Initializes the info handle.
Returns 1 if successful or -1 on error. -/
def info_handle_initialize (env : info_handle_env)
    (info_handle : Option (Option info_handle_t)) : info_handle_initialize_result :=
  match info_handle with
  | none => ⟨-1, none, [(libcerror_domain.ARGUMENTS, libcerror_code.INVALID_VALUE)]⟩
  | some (some _) => ⟨1, info_handle, []⟩
  | some none =>
    if env.memory_allocate_fails then
      ⟨-1, some none, [(libcerror_domain.MEMORY, libcerror_code.INSUFFICIENT)]⟩
    else
      match env.input_handle_create with
      | none =>
        ⟨-1, some none, [(libcerror_domain.RUNTIME, libcerror_code.INITIALIZE_FAILED)]⟩
      | some input_handle =>
        ⟨1, some (some ⟨some input_handle, env.INFO_HANDLE_OUTPUT_FORMAT_TEXT,
          env.LIBEWF_DATE_FORMAT_CTIME, env.LIBEWF_CODEPAGE_ASCII, some env.stdout⟩), []⟩

/-- What a call of a setter of the info handle leaves behind. -/
structure info_handle_set_result where
  /-- The return value -/
  result : Int
  /-- The info handle after the call, `none` when the argument is `NULL` -/
  info_handle : Option info_handle_t
  /-- The errors set by the call -/
  errors : List libcerror_error_t
  deriving DecidableEq, Repr

/-- The end of both setters: the test `if( result == -1 )` and the return. -/
def info_handle_set_return (result : Int) (info_handle : info_handle_t) :
    info_handle_set_result :=
  if result = -1 then
    ⟨-1, some info_handle, [(libcerror_domain.RUNTIME, libcerror_code.GET_FAILED)]⟩
  else ⟨result, some info_handle, []⟩

/-- Sets the output format.
Returns 1 if successful or -1 on error. -/
def info_handle_set_output_format (env : info_handle_env)
    (info_handle : Option info_handle_t) (string : List Char) : info_handle_set_result :=
  match info_handle with
  | none => ⟨-1, none, [(libcerror_domain.ARGUMENTS, libcerror_code.INVALID_VALUE)]⟩
  | some handle =>
    let string_length := libcstring_system_string_length string
    if string_length = 4 then
      if libcstring_system_string_compare string "text".toList 4 = 0 then
        info_handle_set_return 1
          { handle with output_format := env.INFO_HANDLE_OUTPUT_FORMAT_TEXT }
      else info_handle_set_return 0 handle
    else if string_length = 5 then
      if libcstring_system_string_compare string "dfxml".toList 5 = 0 then
        info_handle_set_return 1
          { handle with
            output_format := env.INFO_HANDLE_OUTPUT_FORMAT_DFXML,
            date_format := env.LIBEWF_DATE_FORMAT_ISO8601 }
      else info_handle_set_return 0 handle
    else info_handle_set_return 0 handle

/-- Sets the date format.
Returns 1 if successful, 0 if unsupported values or -1 on error. -/
def info_handle_set_date_format (env : info_handle_env)
    (info_handle : Option info_handle_t) (string : List Char) : info_handle_set_result :=
  match info_handle with
  | none => ⟨-1, none, [(libcerror_domain.ARGUMENTS, libcerror_code.INVALID_VALUE)]⟩
  | some handle =>
    let string_length := libcstring_system_string_length string
    if string_length = 2 then
      if libcstring_system_string_compare string "dm".toList 2 = 0 then
        info_handle_set_return 1
          { handle with date_format := env.LIBEWF_DATE_FORMAT_DAYMONTH }
      else if libcstring_system_string_compare string "md".toList 3 = 0 then
        info_handle_set_return 1
          { handle with date_format := env.LIBEWF_DATE_FORMAT_MONTHDAY }
      else info_handle_set_return 0 handle
    else if string_length = 5 then
      if libcstring_system_string_compare string "ctime".toList 5 = 0 then
        info_handle_set_return 1 { handle with date_format := env.LIBEWF_DATE_FORMAT_CTIME }
      else info_handle_set_return 0 handle
    else if string_length = 7 then
      if libcstring_system_string_compare string "iso8601".toList 7 = 0 then
        info_handle_set_return 1
          { handle with date_format := env.LIBEWF_DATE_FORMAT_ISO8601 }
      else info_handle_set_return 0 handle
    else info_handle_set_return 0 handle

/-- A print function `info_handle_header_values_fprint` calls for one header
value. -/
inductive header_value_print
  /-- `info_handle_header_value_fprint( info_handle, identifier,
  identifier_length, description, description_length, error )` -/
  | header_value (identifier : List Char) (identifier_length : Nat)
      (description : List Char) (description_length : Nat)
  /-- `info_handle_header_value_extents_fprint( info_handle, error )` -/
  | extents
  /-- `info_handle_header_value_password_fprint( info_handle, error )` -/
  | password
  /-- `info_handle_header_value_compression_level_fprint( info_handle, error )` -/
  | compression_level
  deriving DecidableEq, Repr

/-- The first chain of tests in the loop of `info_handle_header_values_fprint`,
on the identifier and its size (terminating NUL counted): the description and
the description length it selects, `none` while `description` stays `NULL`. -/
def info_handle_header_values_fprint_description (header_value_identifier : List Char)
    (header_value_identifier_size : Nat) : Option (List Char × Nat) :=
  if header_value_identifier_size = 6 then
    if libcstring_narrow_string_compare header_value_identifier "model".toList 5 = 0 then
      some ("Model".toList, 5)
    else if libcstring_narrow_string_compare header_value_identifier "notes".toList 5 = 0 then
      some ("Notes".toList, 5)
    else none
  else if header_value_identifier_size = 11 then
    if libcstring_narrow_string_compare header_value_identifier "unknown_dc".toList 10 = 0 then
      some ("Unknown value dc".toList, 16)
    else none
  else if header_value_identifier_size = 12 then
    if libcstring_narrow_string_compare header_value_identifier "case_number".toList 11 = 0 then
      some ("Case number".toList, 11)
    else if libcstring_narrow_string_compare header_value_identifier "description".toList 11
        = 0 then
      some ("Description".toList, 11)
    else if libcstring_narrow_string_compare header_value_identifier "system_date".toList 11
        = 0 then
      some ("System date".toList, 11)
    else none
  else if header_value_identifier_size = 13 then
    if libcstring_narrow_string_compare header_value_identifier "acquiry_date".toList 12
        = 0 then
      some ("Acquisition date".toList, 16)
    else none
  else if header_value_identifier_size = 14 then
    if libcstring_narrow_string_compare header_value_identifier "examiner_name".toList 13
        = 0 then
      some ("Examiner name".toList, 13)
    else if libcstring_narrow_string_compare header_value_identifier "serial_number".toList 13
        = 0 then
      some ("Serial number".toList, 13)
    else none
  else if header_value_identifier_size = 16 then
    if libcstring_narrow_string_compare header_value_identifier "evidence_number".toList 15
        = 0 then
      some ("Evidence number".toList, 15)
    else none
  else if header_value_identifier_size = 17 then
    if libcstring_narrow_string_compare header_value_identifier "acquiry_software".toList 16
        = 0 then
      some ("Software used".toList, 13)
    else none
  else if header_value_identifier_size = 19 then
    if libcstring_narrow_string_compare header_value_identifier "process_identifier".toList 18
        = 0 then
      some ("Process identifier".toList, 18)
    else none
  else if header_value_identifier_size = 25 then
    if libcstring_narrow_string_compare header_value_identifier
        "acquiry_operating_system".toList 24 = 0 then
      some ("Operating system used".toList, 21)
    else if libcstring_narrow_string_compare header_value_identifier
        "acquiry_software_version".toList 24 = 0 then
      some ("Software version used".toList, 21)
    else none
  else none

/-- The body of the loop of `info_handle_header_values_fprint` from
`description = NULL` on, for one header value identifier and its size
(terminating NUL counted): the print functions it calls, in order. The
identifier length handed on is the `size_t` value
`header_value_identifier_size - 1`. -/
def info_handle_header_values_fprint_value (header_value_identifier : List Char)
    (header_value_identifier_size : Nat) : List header_value_print :=
  match info_handle_header_values_fprint_description header_value_identifier
      header_value_identifier_size with
  | some description =>
    [header_value_print.header_value header_value_identifier
      ((header_value_identifier_size + (SIZE_MODULUS - 1)) % SIZE_MODULUS)
      description.1 description.2]
  | none =>
    if header_value_identifier_size = 8 then
      if libcstring_narrow_string_compare header_value_identifier "extents".toList 7 = 0 then
        [header_value_print.extents]
      else []
    else if header_value_identifier_size = 9 then
      if libcstring_narrow_string_compare header_value_identifier "password".toList 8 = 0 then
        [header_value_print.password]
      else []
    else if header_value_identifier_size = 18 then
      if libcstring_narrow_string_compare header_value_identifier "compression_level".toList 17
          = 0 then
        [header_value_print.compression_level]
      else []
    else
      [header_value_print.header_value header_value_identifier
        ((header_value_identifier_size + (SIZE_MODULUS - 1)) % SIZE_MODULUS)
        header_value_identifier
        ((header_value_identifier_size + (SIZE_MODULUS - 1)) % SIZE_MODULUS)]

/-- The DFXML branch of `info_handle_section_value_string_fprint`: the
identifier that is printed for an identifier and its length (terminating NUL
not counted). -/
def info_handle_section_value_string_fprint_identifier (identifier : List Char)
    (identifier_length : Nat) : List Char :=
  if identifier_length = 12 then
    if libcstring_narrow_string_compare identifier "acquiry_date".toList 12 = 0 then
      "acquisition_date".toList
    else identifier
  else if identifier_length = 16 then
    if libcstring_narrow_string_compare identifier "acquiry_software".toList 16 = 0 then
      "acquisition_software".toList
    else identifier
  else if identifier_length = 24 then
    if libcstring_narrow_string_compare identifier "acquiry_operating_system".toList 24
        = 0 then
      "acquisition_system".toList
    else if libcstring_narrow_string_compare identifier "acquiry_software_version".toList 24
        = 0 then
      "acquisition_version".toList
    else identifier
  else identifier

/-! ## info_handle.c: the printers of single header values

`libewf_handle_get_utf8_header_value` of the library and the split values of
libsystem are not among the source files: what they yield is kept in
`header_value_env`. The functions are embedded for a build whose system
character is the narrow character. What is printed is kept as the list of the
`fprintf` calls on `info_handle->notify_stream`, oldest first. -/

/-- An argument of an `fprintf` call: a string, or the element
`extents_elements->values[ index ]` of the split values. -/
inductive fprintf_argument
  | string (value : List Char)
  | extents_element (index : Int)
  deriving DecidableEq, Repr

/-- One `fprintf` call on the notify stream: the format and the arguments. -/
structure fprintf_call where
  /-- The format string -/
  format : String
  /-- The arguments after the format, in order -/
  arguments : List fprintf_argument
  deriving DecidableEq, Repr

/-- The split values: `libsystem_split_values_t`. -/
structure libsystem_split_values_t where
  /-- The number of values, an `int` -/
  number_of_values : Int
  /-- The values -/
  values : List (List Char)
  deriving DecidableEq, Repr

/-- One call of `libewf_handle_get_utf8_header_value`: the identifier it is
handed as a string and the identifier length it is handed with it. -/
structure header_value_request where
  /-- The string the identifier pointer points to -/
  identifier : List Char
  /-- The identifier length -/
  identifier_length : Nat
  deriving DecidableEq, Repr

/-- The constants and functions the printers of the header values use and that
are not among the source files. -/
structure header_value_env where
  /-- The value of `INFO_HANDLE_VALUE_SIZE` -/
  INFO_HANDLE_VALUE_SIZE : Nat
  /-- The string `LIBEWF_COMPRESSION_LEVEL_NONE` -/
  LIBEWF_COMPRESSION_LEVEL_NONE : List Char
  /-- The string `LIBEWF_COMPRESSION_LEVEL_FAST` -/
  LIBEWF_COMPRESSION_LEVEL_FAST : List Char
  /-- The string `LIBEWF_COMPRESSION_LEVEL_BEST` -/
  LIBEWF_COMPRESSION_LEVEL_BEST : List Char
  /-- `libewf_handle_get_utf8_header_value` for (input handle, identifier,
  identifier length, header value size): the return value and the string it
  leaves in the header value buffer -/
  get_utf8_header_value : Option libewf_handle_t → List Char → Nat → Nat → Int × List Char
  /-- `libsystem_split_values_parse_string` for (string, string length,
  delimiter): the split values, `none` when it does not return 1 -/
  split_values_parse_string : List Char → Nat → Char → Option libsystem_split_values_t
  /-- Whether `libsystem_split_values_free` of the split values does not
  return 1 -/
  split_values_free_fails : libsystem_split_values_t → Bool

/-- What a call of a printer of a header value leaves behind. -/
structure header_value_fprint_result where
  /-- The return value -/
  result : Int
  /-- The calls of `libewf_handle_get_utf8_header_value` made, oldest first -/
  requests : List header_value_request
  /-- The `fprintf` calls made on the notify stream, oldest first -/
  output : List fprintf_call
  /-- The errors set by the call -/
  errors : List libcerror_error_t
  deriving DecidableEq, Repr

/-- The loop `while( description_length < 24 )` of
`info_handle_section_value_string_fprint`, run for at most `rounds` rounds: each
round prints a tab and adds 8 to the description length. -/
def info_handle_section_value_string_fprint_tabs (description_length : Nat) :
    Nat → List fprintf_call
  | 0 => []
  | rounds + 1 =>
    if description_length < 24 then
      ⟨"\t", []⟩ ::
        info_handle_section_value_string_fprint_tabs
          ((description_length + 8) % SIZE_MODULUS) rounds
    else []

/-- Prints a section value string to a stream.
Returns 1 if successful or -1 on error. The components are the return value,
the `fprintf` calls and the errors. Three rounds end the loop on the
description length, which starts at 0 or more and grows by 8 up to 24. -/
def info_handle_section_value_string_fprint (env : info_handle_env)
    (info_handle : Option info_handle_t) (identifier : List Char) (identifier_length : Nat)
    (description : List Char) (description_length : Nat) (value_string : List Char) :
    Int × List fprintf_call × List libcerror_error_t :=
  match info_handle with
  | none => (-1, [], [(libcerror_domain.ARGUMENTS, libcerror_code.INVALID_VALUE)])
  | some handle =>
    if handle.output_format = env.INFO_HANDLE_OUTPUT_FORMAT_DFXML then
      (1,
        [⟨"\t\t\t<%s>%s</%s>\n",
          [fprintf_argument.string
            (info_handle_section_value_string_fprint_identifier identifier identifier_length),
            fprintf_argument.string value_string,
            fprintf_argument.string
              (info_handle_section_value_string_fprint_identifier identifier
                identifier_length)]⟩],
        [])
    else if handle.output_format = env.INFO_HANDLE_OUTPUT_FORMAT_TEXT then
      (1,
        [⟨"\t%s:", [fprintf_argument.string description]⟩]
          ++ info_handle_section_value_string_fprint_tabs
            ((description_length + 1) % SIZE_MODULUS) 3
          ++ [⟨"%s\n", [fprintf_argument.string value_string]⟩],
        [])
    else (1, [], [])

/-- Prints the password header value to a stream.
Returns 1 if successful or -1 on error. -/
def info_handle_header_value_password_fprint (env : info_handle_env)
    (values : header_value_env) (info_handle : Option info_handle_t) :
    header_value_fprint_result :=
  match info_handle with
  | none => ⟨-1, [], [], [(libcerror_domain.ARGUMENTS, libcerror_code.INVALID_VALUE)]⟩
  | some handle =>
    let retrieved := values.get_utf8_header_value handle.input_handle "password".toList 8
      values.INFO_HANDLE_VALUE_SIZE
    let requests : List header_value_request := [⟨"password".toList, 8⟩]
    if retrieved.1 = -1 then
      ⟨-1, requests, [], [(libcerror_domain.RUNTIME, libcerror_code.GET_FAILED)]⟩
    else if retrieved.1 = 0 then
      if handle.output_format = env.INFO_HANDLE_OUTPUT_FORMAT_TEXT then
        ⟨1, requests, [⟨"\tPassword:\t\tN/A\n", []⟩], []⟩
      else ⟨1, requests, [], []⟩
    else if handle.output_format = env.INFO_HANDLE_OUTPUT_FORMAT_DFXML then
      ⟨1, requests,
        [⟨"\t\t\t<password>%s</password>\n", [fprintf_argument.string retrieved.2]⟩], []⟩
    else if handle.output_format = env.INFO_HANDLE_OUTPUT_FORMAT_TEXT then
      ⟨1, requests,
        [⟨"\tPassword:\t\t(hash: %s)\n", [fprintf_argument.string retrieved.2]⟩], []⟩
    else ⟨1, requests, [], []⟩

/-- Prints the compression level header value to a stream.
Returns 1 if successful or -1 on error. -/
def info_handle_header_value_compression_level_fprint (env : info_handle_env)
    (values : header_value_env) (info_handle : Option info_handle_t) :
    header_value_fprint_result :=
  match info_handle with
  | none => ⟨-1, [], [], [(libcerror_domain.ARGUMENTS, libcerror_code.INVALID_VALUE)]⟩
  | some handle =>
    let retrieved := values.get_utf8_header_value handle.input_handle
      "compression_level".toList 16 values.INFO_HANDLE_VALUE_SIZE
    let requests : List header_value_request := [⟨"compression_level".toList, 16⟩]
    if retrieved.1 = -1 then
      ⟨-1, requests, [], [(libcerror_domain.RUNTIME, libcerror_code.GET_FAILED)]⟩
    else if retrieved.1 ≠ 0 then
      let value_string :=
        if libcstring_system_string_compare retrieved.2 values.LIBEWF_COMPRESSION_LEVEL_NONE 1
            = 0 then
          "no compression".toList
        else if libcstring_system_string_compare retrieved.2
            values.LIBEWF_COMPRESSION_LEVEL_FAST 1 = 0 then
          "good (fast) compression".toList
        else if libcstring_system_string_compare retrieved.2
            values.LIBEWF_COMPRESSION_LEVEL_BEST 1 = 0 then
          "best compression".toList
        else "unknown compression".toList
      let printed := info_handle_section_value_string_fprint env (some handle)
        "compression_level".toList 16 "Compression level".toList 16 value_string
      if printed.1 ≠ 1 then
        ⟨-1, requests, printed.2.1,
          printed.2.2 ++ [(libcerror_domain.RUNTIME, libcerror_code.PRINT_FAILED)]⟩
      else ⟨1, requests, printed.2.1, []⟩
    else ⟨1, requests, [], []⟩

/-- The loop `for( extents_element_iterator = 1; extents_element_iterator <
number_of_values; extents_element_iterator += 4 )` of
`info_handle_header_value_extents_fprint`, run from `extents_element_iterator`
for at most `rounds` rounds: the `fprintf` calls of each round. -/
def info_handle_header_value_extents_fprint_loop (dfxml : Bool) (number_of_values : Int) :
    Nat → Int → List fprintf_call
  | 0, _ => []
  | rounds + 1, extents_element_iterator =>
    if extents_element_iterator < number_of_values then
      [⟨"\t\t\t\t", []⟩]
        ++ (if dfxml then [⟨"<extent>", []⟩] else [])
        ++ [⟨"%s %s %s %s",
            [fprintf_argument.extents_element extents_element_iterator,
              fprintf_argument.extents_element (extents_element_iterator + 1),
              fprintf_argument.extents_element (extents_element_iterator + 2),
              fprintf_argument.extents_element (extents_element_iterator + 3)]⟩]
        ++ (if dfxml then [⟨"</extent>", []⟩] else [])
        ++ [⟨"\n", []⟩]
        ++ info_handle_header_value_extents_fprint_loop dfxml number_of_values rounds
          (extents_element_iterator + 4)
    else []

/-- The part of `info_handle_header_value_extents_fprint` between the test on
the number of values and the release of the split values: the `fprintf` calls
it makes for the split values. The loop over the elements is given as many
rounds as there are values, which is more than it takes. -/
def info_handle_header_value_extents_fprint_elements (env : info_handle_env)
    (handle : info_handle_t) (extents_elements : libsystem_split_values_t) :
    List fprintf_call :=
  let dfxml : Bool := handle.output_format = env.INFO_HANDLE_OUTPUT_FORMAT_DFXML
  let first_line : List fprintf_call :=
    if handle.output_format = env.INFO_HANDLE_OUTPUT_FORMAT_TEXT then
      [⟨"\tExtents:\t\t%s\n", [fprintf_argument.extents_element 0]⟩]
    else []
  let extent_lines : List fprintf_call :=
    if extents_elements.number_of_values > 1 then
      (if dfxml then [⟨"\t\t\t<extents>\n", []⟩] else [])
        ++ info_handle_header_value_extents_fprint_loop dfxml
          extents_elements.number_of_values extents_elements.number_of_values.toNat 1
        ++ (if dfxml then [⟨"\t\t\t</extents>\n", []⟩] else [])
    else []
  first_line ++ extent_lines

/-- Prints the extents header value to a stream.
Returns 1 if successful or -1 on error. -/
def info_handle_header_value_extents_fprint (env : info_handle_env)
    (values : header_value_env) (info_handle : Option info_handle_t) :
    header_value_fprint_result :=
  match info_handle with
  | none => ⟨-1, [], [], [(libcerror_domain.ARGUMENTS, libcerror_code.INVALID_VALUE)]⟩
  | some handle =>
    let retrieved := values.get_utf8_header_value handle.input_handle "extents".toList 7
      values.INFO_HANDLE_VALUE_SIZE
    let requests : List header_value_request := [⟨"extents".toList, 7⟩]
    if retrieved.1 = -1 then
      ⟨-1, requests, [], [(libcerror_domain.RUNTIME, libcerror_code.GET_FAILED)]⟩
    else if retrieved.1 ≠ 0 then
      let header_value_length := libcstring_system_string_length retrieved.2
      match values.split_values_parse_string retrieved.2 header_value_length ' ' with
      | none =>
        ⟨-1, requests, [], [(libcerror_domain.RUNTIME, libcerror_code.INITIALIZE_FAILED)]⟩
      | some extents_elements =>
        if extents_elements.number_of_values.tmod 4 ≠ 1 then
          ⟨-1, requests, [], [(libcerror_domain.RUNTIME, libcerror_code.UNSUPPORTED_VALUE)]⟩
        else if values.split_values_free_fails extents_elements then
          ⟨-1, requests,
            info_handle_header_value_extents_fprint_elements env handle extents_elements,
            [(libcerror_domain.RUNTIME, libcerror_code.FINALIZE_FAILED)]⟩
        else
          ⟨1, requests,
            info_handle_header_value_extents_fprint_elements env handle extents_elements, []⟩
    else ⟨1, requests, [], []⟩

/-! ## Reference values the statements are compared with -/

/-- The header bytes of `data` with the checksum field replaced by zero bytes:
the bytes before the checksum field, four zero bytes, the bytes of `unknown1`. -/
def ltree_header_with_zero_checksum (data : List Nat) : List Nat :=
  data.take ewf_ltree_header_checksum_offset
    ++ List.replicate ewf_ltree_header_checksum_size 0
    ++ (data.drop ewf_ltree_header_unknown1_offset).take ewf_ltree_header_unknown1_size

/-- The unsigned 64 bit integer whose little-endian bytes are the eight bytes at
`offset` of `data`. -/
def uint64_little_endian_value (data : List Nat) (offset : Nat) : Nat :=
  data.getD offset 0 + 256 * (data.getD (offset + 1) 0 + 256 * (data.getD (offset + 2) 0
    + 256 * (data.getD (offset + 3) 0 + 256 * (data.getD (offset + 4) 0
    + 256 * (data.getD (offset + 5) 0 + 256 * (data.getD (offset + 6) 0
    + 256 * data.getD (offset + 7) 0))))))

/-- The four bytes `byte_stream_copy_from_uint32_little_endian` stores for a
value, lowest byte first. -/
def uint32_little_endian_bytes (value : Nat) : List Nat :=
  [value &&& 0xff, (value >>> 8) &&& 0xff, (value >>> 16) &&& 0xff, (value >>> 24) &&& 0xff]

/-- Whether a call on the pool is the write of a section descriptor. -/
def pool_event.is_descriptor_write : pool_event → Bool
  | pool_event.write_descriptor _ _ _ => true
  | _ => false

/-- Whether a print call is the one the data model asks for a header value
key: the dedicated printer for `extents`, `password` and `compression_level`,
and for every other key the generic printer with the key, its length, and a
description other than the key itself together with the true length of that
description. -/
def header_value_print_expected (key : String) (action : header_value_print) : Bool :=
  match action with
  | header_value_print.extents => key == "extents"
  | header_value_print.password => key == "password"
  | header_value_print.compression_level => key == "compression_level"
  | header_value_print.header_value identifier identifier_length description
      description_length =>
    key != "extents" && key != "password" && key != "compression_level"
      && identifier == key.toList && identifier_length == key.length
      && description != key.toList && description_length == description.length

/-- Whether an `fprintf` call is the one that prints the four values of an
extent. -/
def fprintf_call.is_extent (call : fprintf_call) : Bool :=
  call.format == "%s %s %s %s"

/-! ## MD5

The digest function used by the sample environment. -/

/-- The per-round shift amounts of MD5 (RFC 1321). -/
def md5_shift_amounts : List Nat :=
  [7, 12, 17, 22, 7, 12, 17, 22, 7, 12, 17, 22, 7, 12, 17, 22,
   5, 9, 14, 20, 5, 9, 14, 20, 5, 9, 14, 20, 5, 9, 14, 20,
   4, 11, 16, 23, 4, 11, 16, 23, 4, 11, 16, 23, 4, 11, 16, 23,
   6, 10, 15, 21, 6, 10, 15, 21, 6, 10, 15, 21, 6, 10, 15, 21]

/-- The per-round constants of MD5 (RFC 1321). -/
def md5_constants : List Nat := [
  0xd76aa478, 0xe8c7b756, 0x242070db, 0xc1bdceee,
  0xf57c0faf, 0x4787c62a, 0xa8304613, 0xfd469501,
  0x698098d8, 0x8b44f7af, 0xffff5bb1, 0x895cd7be,
  0x6b901122, 0xfd987193, 0xa679438e, 0x49b40821,
  0xf61e2562, 0xc040b340, 0x265e5a51, 0xe9b6c7aa,
  0xd62f105d, 0x02441453, 0xd8a1e681, 0xe7d3fbc8,
  0x21e1cde6, 0xc33707d6, 0xf4d50d87, 0x455a14ed,
  0xa9e3e905, 0xfcefa3f8, 0x676f02d9, 0x8d2a4c8a,
  0xfffa3942, 0x8771f681, 0x6d9d6122, 0xfde5380c,
  0xa4beea44, 0x4bdecfa9, 0xf6bb4b60, 0xbebfbc70,
  0x289b7ec6, 0xeaa127fa, 0xd4ef3085, 0x04881d05,
  0xd9d4d039, 0xe6db99e5, 0x1fa27cf8, 0xc4ac5665,
  0xf4292244, 0x432aff97, 0xab9423a7, 0xfc93a039,
  0x655b59c3, 0x8f0ccc92, 0xffeff47d, 0x85845dd1,
  0x6fa87e4f, 0xfe2ce6e0, 0xa3014314, 0x4e0811a1,
  0xf7537e82, 0xbd3af235, 0x2ad7d2bb, 0xeb86d391]

/-- Rotates a 32 bit value left. -/
def md5_rotate_left (value count : Nat) : Nat :=
  ((value <<< count) ||| (value >>> (32 - count))) % 2 ^ 32

/-- The 32 bit little-endian word at `index` of a block. -/
def md5_word (block : List Nat) (index : Nat) : Nat :=
  block.getD (4 * index) 0 + 256 * (block.getD (4 * index + 1) 0
    + 256 * (block.getD (4 * index + 2) 0 + 256 * block.getD (4 * index + 3) 0))

/-- One of the 64 operations of MD5 on the state (a, b, c, d). -/
def md5_operation (block : List Nat) (state : Nat × Nat × Nat × Nat) (i : Nat) :
    Nat × Nat × Nat × Nat :=
  let a := state.1
  let b := state.2.1
  let c := state.2.2.1
  let d := state.2.2.2
  let f :=
    if i < 16 then (b &&& c) ||| ((b ^^^ 0xffffffff) &&& d)
    else if i < 32 then (d &&& b) ||| ((d ^^^ 0xffffffff) &&& c)
    else if i < 48 then b ^^^ c ^^^ d
    else c ^^^ (b ||| (d ^^^ 0xffffffff))
  let g :=
    if i < 16 then i
    else if i < 32 then (5 * i + 1) % 16
    else if i < 48 then (3 * i + 5) % 16
    else (7 * i) % 16
  (d, (b + md5_rotate_left ((f + a + md5_constants.getD i 0 + md5_word block g) % 2 ^ 32)
      (md5_shift_amounts.getD i 0)) % 2 ^ 32, b, c)

/-- Processes one 64 byte block. -/
def md5_block (state : Nat × Nat × Nat × Nat) (block : List Nat) : Nat × Nat × Nat × Nat :=
  let final := (List.range 64).foldl (md5_operation block) state
  ((state.1 + final.1) % 2 ^ 32, (state.2.1 + final.2.1) % 2 ^ 32,
    (state.2.2.1 + final.2.2.1) % 2 ^ 32, (state.2.2.2 + final.2.2.2) % 2 ^ 32)

/-- The little-endian bytes of a value, `count` of them. -/
def little_endian_bytes (value : Nat) : Nat → List Nat
  | 0 => []
  | count + 1 => value % 256 :: little_endian_bytes (value / 256) count

/-- The message with the MD5 padding: a 0x80 byte, zero bytes up to 56 modulo
64, the bit length as a 64 bit little-endian value. -/
def md5_padded (message : List Nat) : List Nat :=
  message ++ [0x80] ++ List.replicate ((119 - message.length % 64) % 64) 0
    ++ little_endian_bytes ((8 * message.length) % 2 ^ 64) 8

/-- Folds the blocks of a padded message into the state. -/
def md5_blocks (state : Nat × Nat × Nat × Nat) (padded : List Nat) :
    Nat → Nat × Nat × Nat × Nat
  | 0 => state
  | count + 1 => md5_blocks (md5_block state (padded.take 64)) (padded.drop 64) count

/-- Modelled from the spec: libhmac is not among the source files; the spec
treats MD5 as a pure function with its known contract. This is the MD5 digest
(RFC 1321) of a message: 16 bytes. -/
def md5 (message : List Nat) : List Nat :=
  let state := md5_blocks (0x67452301, 0xefcdab89, 0x98badcfe, 0x10325476)
    (md5_padded message) ((md5_padded message).length / 64)
  little_endian_bytes state.1 4 ++ little_endian_bytes state.2.1 4
    ++ little_endian_bytes state.2.2.1 4 ++ little_endian_bytes state.2.2.2 4

/-! ## Sample values

Concrete collaborators and inputs at which the statements below are
evaluated. -/

/-- A sample environment: the pool holds one file, `file`; every write is
complete; the version 1 data offset lies one descriptor after the start of the
section and the version 2 data offset at the start of the section. -/
def sample_section_env (file : List Nat) : section_env where
  sizeof_ewf_section_descriptor_v2_t := 64
  LIBEWF_SECTION_TYPE_SINGLE_FILES_DATA := 0x20
  LIBEWF_SECTION_DATA_FLAGS_HAS_INTEGRITY_HASH := 0x00000004
  section_descriptor_get_data_offset := fun descriptor format_version =>
    if format_version = 1 then
      some (descriptor.start_offset + (sizeof_ewf_section_descriptor_v1_t : Int))
    else if format_version = 2 then some descriptor.start_offset
    else none
  section_descriptor_set := fun descriptor type type_string _ offset size data_size
      padding_size =>
    some ⟨type, type_string, descriptor.data_flags, offset, offset + (size : Int), size,
      data_size, padding_size⟩
  section_descriptor_write := fun _ descriptor _ format_version =>
    (if format_version = 1 then 76 else 64, descriptor)
  section_write_data := fun _ descriptor _ _ data => ((data.length : Nat), descriptor)
  pool_read := fun _ _ offset size =>
    if offset < 0 then none else some ((file.drop offset.toNat).take size)
  data_stream_initialize_fails := fun _ _ _ => false
  md5_calculate := fun data => some (md5 data)

/-- A 48 byte ltree header with the given integrity hash (16 bytes) and data
size (below 65536) whose checksum field holds the Adler-32 of the header. -/
def sample_ltree_header (integrity_hash : List Nat) (data_size : Nat) : List Nat :=
  byte_stream_copy_from_uint32_little_endian
    (integrity_hash ++ [data_size % 256, data_size / 256 % 256, 0, 0, 0, 0, 0, 0]
      ++ List.replicate 24 0)
    ewf_ltree_header_checksum_offset
    (adler32 (integrity_hash ++ [data_size % 256, data_size / 256 % 256, 0, 0, 0, 0, 0, 0]
      ++ List.replicate 24 0) 1)

/-- A sample segment file: 76 bytes where the version 1 section descriptor is,
an ltree header that declares 3 bytes of single files data, the 3 bytes and 2
trailing bytes. -/
def sample_file (integrity_hash : List Nat) : List Nat :=
  List.replicate 76 0 ++ sample_ltree_header integrity_hash 3 ++ [0x61, 0x62, 0x63]
    ++ [0, 0]

/-- The section descriptor of the ltree section of `sample_file`: the section
starts at offset 0 and has 53 bytes of data. -/
def sample_section_descriptor : libewf_section_descriptor_t :=
  ⟨0x20, [0x6c, 0x74, 0x72, 0x65, 0x65], 0, 0, 129, 129, 53, 0⟩

/-- A section data buffer at address 4096: room for the ltree header followed
by 3 bytes of single files data. -/
def sample_section_data : uint8_buffer :=
  ⟨4096, List.replicate 48 0xff ++ [0x61, 0x62, 0x63]⟩

/-- A version 2 section data buffer at address 4096: 3 bytes of single files
data. -/
def sample_section_data_v2 : uint8_buffer :=
  ⟨4096, [0x61, 0x62, 0x63]⟩

/-- The integrity hash stored in the sample header that does not match its
single files data: 16 zero bytes. -/
def sample_wrong_integrity_hash : List Nat := List.replicate 16 0

/-- The 17 header value keys the data model names. -/
def documented_header_value_keys : List String :=
  ["case_number", "description", "examiner_name", "evidence_number", "notes",
    "acquiry_date", "system_date", "acquiry_operating_system", "acquiry_software",
    "acquiry_software_version", "password", "process_identifier", "unknown_dc", "extents",
    "compression_level", "model", "serial_number"]

/-- A sample pool environment: handles of 32 bytes, an allocator that never
fails, and fresh entries that hold a recognisable filler. -/
def sample_file_io_pool_env : file_io_pool_env where
  LIBEWF_FILE_IO_POOL_SIZE := 24
  LIBEWF_FILE_IO_HANDLE_SIZE := 32
  alloc_fails := fun _ => false
  realloc_fails := fun _ => false
  uninitialised := fun index => ⟨some [0x3f], 77, (index : Int), 5⟩

/-- A sample pool of two entries, one of them an open file. -/
def sample_file_io_pool : LIBEWF_FILE_IO_POOL :=
  ⟨[⟨some [0x61, 0x2e, 0x45, 0x30, 0x31], 3, 13, 1⟩, ⟨none, -1, 0, 0⟩], 2, 1⟩

/-- A sample segment file handle environment: the allocator never fails and a
cloned list has the same elements at the next address. -/
def sample_segment_file_handle_env : segment_file_handle_env where
  other_fields_size := 2
  memory_allocate_fails := false
  list_create := some ⟨4096, []⟩
  list_clone := fun source => some (source.map (fun list => ⟨list.address + 1, list.elements⟩))

/-- A sample segment file handle with a list of two sections. -/
def sample_segment_file_handle : libewf_segment_file_handle_t :=
  ⟨3, some ⟨8192, [[0x68, 0x65, 0x61, 0x64, 0x65, 0x72], [0x64, 0x6f, 0x6e, 0x65]]⟩, [1, 0]⟩

/-- The functions of the section descriptor as they are modelled, with an
allocator that does not fail. -/
def modelled_section_descriptor_functions : section_descriptor_functions where
  create := libewf_section_descriptor_initialize
  clone := libewf_section_descriptor_clone false
  free := libewf_section_descriptor_free

/-- A sample info handle environment, with the values the constants have in
the library and its tools. -/
def sample_info_handle_env : info_handle_env where
  INFO_HANDLE_OUTPUT_FORMAT_TEXT := 0x74
  INFO_HANDLE_OUTPUT_FORMAT_DFXML := 0x64
  LIBEWF_DATE_FORMAT_CTIME := 4
  LIBEWF_DATE_FORMAT_DAYMONTH := 1
  LIBEWF_DATE_FORMAT_MONTHDAY := 2
  LIBEWF_DATE_FORMAT_ISO8601 := 3
  LIBEWF_CODEPAGE_ASCII := 20127
  stdout := 1
  memory_allocate_fails := false
  input_handle_create := some ⟨1⟩

/-- A sample info handle: DFXML output, ISO 8601 dates. -/
def sample_info_handle : info_handle_t :=
  ⟨some ⟨1⟩, 0x64, 3, 20127, some 1⟩

/-- The header values of the sample input handle, by key. -/
def sample_header_values : List (List Char × List Char) :=
  [("password".toList, "5f4dcc3b".toList),
    ("extents".toList, "2 0 63 1 7 64 100 2 9".toList),
    ("compression_level".toList, "f".toList)]

/-- A sample header value environment: a lookup that finds the value whose key
is the first `identifier_length` characters of the identifier, among the
sample header values, and a split at every delimiter. -/
def sample_header_value_env : header_value_env where
  INFO_HANDLE_VALUE_SIZE := 512
  LIBEWF_COMPRESSION_LEVEL_NONE := "n".toList
  LIBEWF_COMPRESSION_LEVEL_FAST := "f".toList
  LIBEWF_COMPRESSION_LEVEL_BEST := "b".toList
  get_utf8_header_value := fun _ identifier identifier_length _ =>
    match sample_header_values.lookup (identifier.take identifier_length) with
    | some value => (1, value)
    | none => (0, [])
  split_values_parse_string := fun string string_length delimiter =>
    some ⟨(((string.take string_length).splitOn delimiter).length : Nat),
      (string.take string_length).splitOn delimiter⟩
  split_values_free_fails := fun _ => false

/-- A sample info handle with text output. -/
def sample_text_info_handle : info_handle_t :=
  ⟨some ⟨1⟩, 0x74, 4, 20127, some 1⟩

/-! ## Lemmas on the byte stream copies -/

theorem sizeof_ewf_ltree_header_t_eq : sizeof_ewf_ltree_header_t = 48 := rfl

theorem ewf_ltree_header_checksum_offset_eq : ewf_ltree_header_checksum_offset = 24 := rfl

theorem ewf_ltree_header_data_size_offset_eq : ewf_ltree_header_data_size_offset = 16 := rfl

theorem shift_or_byte (x b : Nat) (hb : b < 256) : (x <<< 8) ||| b = x * 256 + b := by
  have h := Nat.mul_add_lt_is_or (i := 8) (b := b) (by simpa using hb) x
  rw [Nat.shiftLeft_eq]
  have e : x * 2 ^ 8 = 2 ^ 8 * x := Nat.mul_comm _ _
  rw [e, ← h]; omega

theorem and_0xff (x : Nat) : x &&& 0xff = x % 256 := by
  have := Nat.and_pow_two_sub_one_eq_mod x 8
  simpa using this

theorem getD_lt_256 (data : List Nat) (h : ∀ b ∈ data, b < 256) (i : Nat) :
    data.getD i 0 < 256 := by
  rw [List.getD_eq_getElem?_getD]
  cases hi : data[i]? with
  | none => simp
  | some b =>
    have : b ∈ data := List.getElem?_mem hi
    simpa using h b this

theorem copy_to_uint64_eq_value (data : List Nat) (offset : Nat)
    (h : ∀ b ∈ data, b < 256) :
    byte_stream_copy_to_uint64_little_endian data offset
      = uint64_little_endian_value data offset := by
  unfold byte_stream_copy_to_uint64_little_endian uint64_little_endian_value
  rw [shift_or_byte _ _ (getD_lt_256 data h _), shift_or_byte _ _ (getD_lt_256 data h _),
    shift_or_byte _ _ (getD_lt_256 data h _), shift_or_byte _ _ (getD_lt_256 data h _),
    shift_or_byte _ _ (getD_lt_256 data h _), shift_or_byte _ _ (getD_lt_256 data h _),
    shift_or_byte _ _ (getD_lt_256 data h _)]
  ring

theorem cleared_checksum_take (data : List Nat) (h : 48 ≤ data.length) :
    (byte_stream_copy_from_uint32_little_endian data ewf_ltree_header_checksum_offset 0).take
      sizeof_ewf_ltree_header_t = ltree_header_with_zero_checksum data := by
  apply List.ext_getElem?
  intro i
  simp only [byte_stream_copy_from_uint32_little_endian, ltree_header_with_zero_checksum,
    sizeof_ewf_ltree_header_t_eq, ewf_ltree_header_checksum_offset_eq,
    ewf_ltree_header_unknown1_offset, ewf_ltree_header_checksum_size,
    ewf_ltree_header_unknown1_size,
    List.getElem?_take,
    List.getElem?_set, List.getElem?_append, List.getElem?_drop, List.getElem?_replicate,
    List.length_take, List.length_append, List.length_replicate, List.length_set,
    List.length_drop]
  simp
  split_ifs <;> first | rfl | omega | (congr 1; omega)

/-! ## Lemmas on libewf_ltree_section_read_header_data -/

theorem read_header_data_some (data : List Nat) (data_size old : Nat)
    (h1 : sizeof_ewf_ltree_header_t ≤ data_size) (h2 : data_size ≤ SSIZE_MAX) :
    libewf_ltree_section_read_header_data (some data) data_size (some old)
      = if byte_stream_copy_to_uint32_little_endian data ewf_ltree_header_checksum_offset
          ≠ adler32 ((byte_stream_copy_from_uint32_little_endian data
              ewf_ltree_header_checksum_offset 0).take sizeof_ewf_ltree_header_t) 1 then
          ⟨-1, some (byte_stream_copy_from_uint32_little_endian data
              ewf_ltree_header_checksum_offset 0), some old,
            [(libcerror_domain.INPUT, libcerror_code.CHECKSUM_MISMATCH)]⟩
        else
          ⟨1, some (byte_stream_copy_from_uint32_little_endian data
              ewf_ltree_header_checksum_offset 0),
            some (byte_stream_copy_to_uint64_little_endian data
              ewf_ltree_header_data_size_offset), []⟩ := by
  have h3 : ¬ (data_size < sizeof_ewf_ltree_header_t ∨ data_size > SSIZE_MAX) := by omega
  have h4 : ¬ (sizeof_ewf_ltree_header_t > SSIZE_MAX) := by decide
  simp only [libewf_ltree_section_read_header_data, libewf_checksum_calculate_adler32, h3, h4,
    if_false]

theorem read_header_data_result_cases (data : Option (List Nat)) (data_size : Nat)
    (old : Option Nat) :
    ((libewf_ltree_section_read_header_data data data_size old).result = -1 ∧
      (libewf_ltree_section_read_header_data data data_size old).single_files_data_size = old)
    ∨ ((libewf_ltree_section_read_header_data data data_size old).result = 1 ∧
      ∃ bytes, data = some bytes ∧
        (libewf_ltree_section_read_header_data data data_size old).single_files_data_size
          = some (byte_stream_copy_to_uint64_little_endian bytes
              ewf_ltree_header_data_size_offset)) := by
  cases data with
  | none => left; simp [libewf_ltree_section_read_header_data]
  | some bytes =>
    by_cases hb : data_size < sizeof_ewf_ltree_header_t ∨ data_size > SSIZE_MAX
    · left; simp [libewf_ltree_section_read_header_data, hb]
    · cases old with
      | none => left; simp [libewf_ltree_section_read_header_data, hb]
      | some value =>
        rw [read_header_data_some bytes data_size value (by omega) (by omega)]
        split
        · left; simp
        · right; exact ⟨rfl, bytes, rfl, rfl⟩

/-! ## Lemmas on libewf_ltree_section_read_file_io_pool -/

theorem pool_read_buffer_some (env : section_env) (pool : libbfio_pool_t) (entry : Int)
    (buffer : List Nat) (size : Nat) (offset : Int) (bytes : List Nat)
    (h : env.pool_read pool entry offset size = some bytes) :
    libbfio_pool_read_buffer_at_offset env pool entry buffer size offset
      = ((((bytes.take size).length : Nat) : Int),
          bytes.take size ++ buffer.drop (bytes.take size).length,
          ⟨pool.events ++ [pool_event.read_buffer entry offset size]⟩) := by
  simp only [libbfio_pool_read_buffer_at_offset, h]

theorem pool_read_buffer_none (env : section_env) (pool : libbfio_pool_t) (entry : Int)
    (buffer : List Nat) (size : Nat) (offset : Int)
    (h : env.pool_read pool entry offset size = none) :
    libbfio_pool_read_buffer_at_offset env pool entry buffer size offset
      = (-1, buffer, ⟨pool.events ++ [pool_event.read_buffer entry offset size]⟩) := by
  simp only [libbfio_pool_read_buffer_at_offset, h]

theorem read_v1_header_complete (env : section_env) (descriptor : libewf_section_descriptor_t)
    (io_handle : Option libewf_io_handle_t) (pool : libbfio_pool_t) (entry : Int)
    (old : Option libfdata_stream_t) (data_offset : Int) (bytes : List Nat)
    (h_flags : descriptor.data_flags &&& LIBEWF_SECTION_DATA_FLAGS_IS_ENCRYPTED = 0)
    (h_offset : env.section_descriptor_get_data_offset descriptor 1 = some data_offset)
    (h_size : sizeof_ewf_ltree_header_t ≤ descriptor.data_size)
    (h_read : env.pool_read pool entry data_offset sizeof_ewf_ltree_header_t = some bytes)
    (h_bytes : sizeof_ewf_ltree_header_t ≤ bytes.length) :
    libewf_ltree_section_read_file_io_pool env (some descriptor) io_handle pool entry 1
        (some old)
      = if byte_stream_copy_to_uint32_little_endian (bytes.take sizeof_ewf_ltree_header_t)
            ewf_ltree_header_checksum_offset
          ≠ adler32 (ltree_header_with_zero_checksum (bytes.take sizeof_ewf_ltree_header_t)) 1
        then
          ⟨-1, some old, ⟨pool.events ++ [pool_event.read_buffer entry data_offset
              sizeof_ewf_ltree_header_t]⟩,
            [(libcerror_domain.INPUT, libcerror_code.CHECKSUM_MISMATCH),
              (libcerror_domain.IO_DOMAIN, libcerror_code.READ_FAILED)]⟩
        else if byte_stream_copy_to_uint64_little_endian
            (bytes.take sizeof_ewf_ltree_header_t) ewf_ltree_header_data_size_offset
            > (descriptor.data_size + (SIZE_MODULUS - sizeof_ewf_ltree_header_t))
              % SIZE_MODULUS then
          ⟨-1, some old, ⟨pool.events ++ [pool_event.read_buffer entry data_offset
              sizeof_ewf_ltree_header_t]⟩,
            [(libcerror_domain.RUNTIME, libcerror_code.VALUE_OUT_OF_BOUNDS)]⟩
        else if env.data_stream_initialize_fails entry
            (data_offset + (sizeof_ewf_ltree_header_t : Int))
            (byte_stream_copy_to_uint64_little_endian
              (bytes.take sizeof_ewf_ltree_header_t) ewf_ltree_header_data_size_offset)
            = true then
          ⟨-1, some old, ⟨pool.events ++ [pool_event.read_buffer entry data_offset
              sizeof_ewf_ltree_header_t]⟩,
            [(libcerror_domain.RUNTIME, libcerror_code.INITIALIZE_FAILED)]⟩
        else
          ⟨(sizeof_ewf_ltree_header_t : Int),
            some (some ⟨entry, data_offset + (sizeof_ewf_ltree_header_t : Int),
              byte_stream_copy_to_uint64_little_endian
                (bytes.take sizeof_ewf_ltree_header_t) ewf_ltree_header_data_size_offset⟩),
            ⟨pool.events ++ [pool_event.read_buffer entry data_offset
              sizeof_ewf_ltree_header_t]⟩, []⟩ := by
  have h_len : (bytes.take sizeof_ewf_ltree_header_t).length = sizeof_ewf_ltree_header_t := by
    rw [List.length_take]; omega
  have h_buf : bytes.take sizeof_ewf_ltree_header_t
      ++ (List.replicate sizeof_ewf_ltree_header_t 0).drop sizeof_ewf_ltree_header_t
      = bytes.take sizeof_ewf_ltree_header_t := by
    simp
  have h_ne : ¬ (descriptor.data_flags &&& LIBEWF_SECTION_DATA_FLAGS_IS_ENCRYPTED ≠ 0) := by
    simp [h_flags]
  have h_lt : ¬ (descriptor.data_size < sizeof_ewf_ltree_header_t) := by omega
  have h_hdr := read_header_data_some (bytes.take sizeof_ewf_ltree_header_t)
    sizeof_ewf_ltree_header_t 0 (le_refl _) (by decide)
  rw [cleared_checksum_take _ (by rw [h_len]; decide)] at h_hdr
  simp only [libewf_ltree_section_read_file_io_pool]
  rw [if_neg h_ne]
  simp only [h_offset, pool_read_buffer_some env pool entry _ _ _ bytes h_read, h_len, h_buf,
    read_file_io_pool_create_stream, libewf_data_stream_initialize_from_section]
  by_cases hc : byte_stream_copy_to_uint32_little_endian (bytes.take sizeof_ewf_ltree_header_t)
            ewf_ltree_header_checksum_offset
          = adler32 (ltree_header_with_zero_checksum (bytes.take sizeof_ewf_ltree_header_t)) 1
  · rw [if_neg (by simpa using hc)] at h_hdr
    rw [h_hdr]
    split_ifs <;> simp_all
  · rw [if_pos hc] at h_hdr
    simp only [h_hdr]
    split_ifs <;> simp_all


theorem read_v1_cases (env : section_env) (descriptor : libewf_section_descriptor_t)
    (io_handle : Option libewf_io_handle_t) (pool : libbfio_pool_t) (entry : Int)
    (data_stream : Option (Option libfdata_stream_t)) :
    ((libewf_ltree_section_read_file_io_pool env (some descriptor) io_handle pool entry 1
        data_stream).result = -1 ∧
      (libewf_ltree_section_read_file_io_pool env (some descriptor) io_handle pool entry 1
        data_stream).data_stream = data_stream) ∨
    ∃ old data_offset bytes,
      data_stream = some old ∧
      descriptor.data_flags &&& LIBEWF_SECTION_DATA_FLAGS_IS_ENCRYPTED = 0 ∧
      env.section_descriptor_get_data_offset descriptor 1 = some data_offset ∧
      sizeof_ewf_ltree_header_t ≤ descriptor.data_size ∧
      env.pool_read pool entry data_offset sizeof_ewf_ltree_header_t = some bytes ∧
      sizeof_ewf_ltree_header_t ≤ bytes.length ∧
      byte_stream_copy_to_uint32_little_endian (bytes.take sizeof_ewf_ltree_header_t)
          ewf_ltree_header_checksum_offset
        = adler32 (ltree_header_with_zero_checksum (bytes.take sizeof_ewf_ltree_header_t)) 1 ∧
      byte_stream_copy_to_uint64_little_endian (bytes.take sizeof_ewf_ltree_header_t)
          ewf_ltree_header_data_size_offset
        ≤ (descriptor.data_size + (SIZE_MODULUS - sizeof_ewf_ltree_header_t)) % SIZE_MODULUS ∧
      env.data_stream_initialize_fails entry (data_offset + (sizeof_ewf_ltree_header_t : Int))
          (byte_stream_copy_to_uint64_little_endian (bytes.take sizeof_ewf_ltree_header_t)
            ewf_ltree_header_data_size_offset) = false ∧
      libewf_ltree_section_read_file_io_pool env (some descriptor) io_handle pool entry 1
          data_stream
        = ⟨(sizeof_ewf_ltree_header_t : Int),
            some (some ⟨entry, data_offset + (sizeof_ewf_ltree_header_t : Int),
              byte_stream_copy_to_uint64_little_endian
                (bytes.take sizeof_ewf_ltree_header_t) ewf_ltree_header_data_size_offset⟩),
            ⟨pool.events ++ [pool_event.read_buffer entry data_offset
              sizeof_ewf_ltree_header_t]⟩, []⟩ := by
  by_cases h_flags : descriptor.data_flags &&& LIBEWF_SECTION_DATA_FLAGS_IS_ENCRYPTED = 0
  swap
  · left
    simp only [libewf_ltree_section_read_file_io_pool]
    rw [if_pos h_flags]
    exact ⟨rfl, rfl⟩
  have h_ne : ¬ (descriptor.data_flags &&& LIBEWF_SECTION_DATA_FLAGS_IS_ENCRYPTED ≠ 0) := by
    simp [h_flags]
  cases data_stream with
  | none =>
    left
    simp only [libewf_ltree_section_read_file_io_pool]
    rw [if_neg h_ne]
    simp
  | some old =>
    cases h_offset : env.section_descriptor_get_data_offset descriptor 1 with
    | none =>
      left
      simp only [libewf_ltree_section_read_file_io_pool]
      rw [if_neg h_ne]
      simp [h_offset]
    | some data_offset =>
      by_cases h_size : descriptor.data_size < sizeof_ewf_ltree_header_t
      · left
        simp only [libewf_ltree_section_read_file_io_pool]
        rw [if_neg h_ne]
        simp [h_offset, h_size]
      cases h_read : env.pool_read pool entry data_offset sizeof_ewf_ltree_header_t with
      | none =>
        left
        simp only [libewf_ltree_section_read_file_io_pool]
        rw [if_neg h_ne]
        simp only [h_offset, pool_read_buffer_none env pool entry _ _ _ h_read]
        simp [h_size]
      | some bytes =>
        by_cases h_bytes : bytes.length < sizeof_ewf_ltree_header_t
        · left
          have h_short : (((bytes.take sizeof_ewf_ltree_header_t).length : Nat) : Int)
              ≠ (sizeof_ewf_ltree_header_t : Int) := by
            rw [List.length_take]; omega
          simp only [libewf_ltree_section_read_file_io_pool]
          rw [if_neg h_ne]
          simp only [h_offset, pool_read_buffer_some env pool entry _ _ _ bytes h_read]
          simp [h_size, h_bytes]
        · have h_eq := read_v1_header_complete env descriptor io_handle pool entry old
            data_offset bytes h_flags h_offset (by omega) h_read (by omega)
          rw [h_eq]
          split_ifs with hc hs hf
          · left; exact ⟨rfl, rfl⟩
          · left; exact ⟨rfl, rfl⟩
          · left; exact ⟨rfl, rfl⟩
          · right
            refine ⟨old, data_offset, bytes, rfl, h_flags, rfl, by omega, h_read, by omega,
              by simpa using hc, by omega, by simpa using hf, rfl⟩

theorem read_v2_cases (env : section_env) (descriptor : libewf_section_descriptor_t)
    (io_handle : Option libewf_io_handle_t) (pool : libbfio_pool_t) (entry : Int)
    (data_stream : Option (Option libfdata_stream_t)) :
    ((libewf_ltree_section_read_file_io_pool env (some descriptor) io_handle pool entry 2
        data_stream).result = -1 ∧
      (libewf_ltree_section_read_file_io_pool env (some descriptor) io_handle pool entry 2
        data_stream).data_stream = data_stream) ∨
    ∃ old data_offset,
      data_stream = some old ∧
      descriptor.data_flags &&& LIBEWF_SECTION_DATA_FLAGS_IS_ENCRYPTED = 0 ∧
      env.section_descriptor_get_data_offset descriptor 2 = some data_offset ∧
      env.data_stream_initialize_fails entry data_offset descriptor.data_size = false ∧
      libewf_ltree_section_read_file_io_pool env (some descriptor) io_handle pool entry 2
          data_stream
        = ⟨0, some (some ⟨entry, data_offset, descriptor.data_size⟩), pool, []⟩ := by
  by_cases h_flags : descriptor.data_flags &&& LIBEWF_SECTION_DATA_FLAGS_IS_ENCRYPTED = 0
  swap
  · left
    simp only [libewf_ltree_section_read_file_io_pool]
    rw [if_pos h_flags]
    exact ⟨rfl, rfl⟩
  have h_ne : ¬ (descriptor.data_flags &&& LIBEWF_SECTION_DATA_FLAGS_IS_ENCRYPTED ≠ 0) := by
    simp [h_flags]
  cases data_stream with
  | none =>
    left
    simp only [libewf_ltree_section_read_file_io_pool]
    rw [if_neg h_ne]
    simp
  | some old =>
    cases h_offset : env.section_descriptor_get_data_offset descriptor 2 with
    | none =>
      left
      simp only [libewf_ltree_section_read_file_io_pool]
      rw [if_neg h_ne]
      simp [h_offset]
    | some data_offset =>
      cases h_fails : env.data_stream_initialize_fails entry data_offset descriptor.data_size with
      | true =>
        left
        simp only [libewf_ltree_section_read_file_io_pool]
        rw [if_neg h_ne]
        simp [h_offset, read_file_io_pool_create_stream,
          libewf_data_stream_initialize_from_section, h_fails]
      | false =>
        right
        refine ⟨old, data_offset, rfl, h_flags, rfl, h_fails, ?_⟩
        simp only [libewf_ltree_section_read_file_io_pool]
        rw [if_neg h_ne]
        simp [h_offset, read_file_io_pool_create_stream,
          libewf_data_stream_initialize_from_section, h_fails]

theorem data_size_minus_header_does_not_wrap (data_size : Nat)
    (h_data_size : data_size < SIZE_MODULUS) (h : sizeof_ewf_ltree_header_t ≤ data_size) :
    (data_size + (SIZE_MODULUS - sizeof_ewf_ltree_header_t)) % SIZE_MODULUS
      = data_size - sizeof_ewf_ltree_header_t := by
  have h48 := sizeof_ewf_ltree_header_t_eq
  have hm : SIZE_MODULUS = 2 ^ 64 := rfl
  rw [hm] at h_data_size ⊢
  rw [h48] at h ⊢
  omega

/-! ## Lemmas on libewf_ltree_section_write_file_io_pool -/

theorem write_v1_cases (env : section_env) (descriptor : libewf_section_descriptor_t)
    (io_handle : Option libewf_io_handle_t) (pool : libbfio_pool_t) (entry : Int)
    (section_offset : Int) (section_data : Option uint8_buffer) (section_data_size : Nat)
    (single_files_data : Option Nat) (single_files_data_size : Nat) :
    (libewf_ltree_section_write_file_io_pool env (some descriptor) io_handle pool entry 1
        section_offset section_data section_data_size single_files_data
        single_files_data_size).result = -1 ∨
    ∃ buffer descriptor_set,
      section_data = some buffer ∧
      single_files_data = some (buffer.address + sizeof_ewf_ltree_header_t) ∧
      single_files_data_size ≤ UINT32_MAX ∧
      sizeof_ewf_ltree_header_t + single_files_data_size ≤ section_data_size ∧
      env.section_descriptor_set descriptor env.LIBEWF_SECTION_TYPE_SINGLE_FILES_DATA
          [0x6c, 0x74, 0x72, 0x65, 0x65] 5 section_offset
          (sizeof_ewf_section_descriptor_v1_t + (sizeof_ewf_ltree_header_t
            + single_files_data_size))
          (sizeof_ewf_ltree_header_t + single_files_data_size) 0 = some descriptor_set ∧
      (write_file_io_pool_ltree_header env buffer section_data_size
          (buffer.address + sizeof_ewf_ltree_header_t) single_files_data_size
          sizeof_ewf_ltree_header_t).2 = none ∧
      libewf_ltree_section_write_file_io_pool env (some descriptor) io_handle pool entry 1
          section_offset section_data section_data_size single_files_data
          single_files_data_size
        = write_file_io_pool_write_data env
            (libewf_section_descriptor_write_file_io_pool env descriptor_set pool entry 1).2.1
            io_handle
            (libewf_section_descriptor_write_file_io_pool env descriptor_set pool entry 1).2.2
            entry 1
            (write_file_io_pool_ltree_header env buffer section_data_size
              (buffer.address + sizeof_ewf_ltree_header_t) single_files_data_size
              sizeof_ewf_ltree_header_t).1
            sizeof_ewf_section_descriptor_v1_t
            (sizeof_ewf_ltree_header_t + single_files_data_size)
            (sizeof_ewf_section_descriptor_v1_t : Int) := by
  cases section_data with
  | none => left; simp [libewf_ltree_section_write_file_io_pool]
  | some buffer =>
    by_cases c1 : section_data_size > SSIZE_MAX
    · left; simp [libewf_ltree_section_write_file_io_pool, c1]
    cases single_files_data with
    | none => left; simp [libewf_ltree_section_write_file_io_pool, c1]
    | some address =>
      by_cases c3 : single_files_data_size > SSIZE_MAX
      · left
        simp only [libewf_ltree_section_write_file_io_pool]
        simp [c1, c3]
        split <;> rfl
      have h_req : (sizeof_ewf_ltree_header_t + single_files_data_size) % SIZE_MODULUS
          = sizeof_ewf_ltree_header_t + single_files_data_size := by
        apply Nat.mod_eq_of_lt
        have h1 : SSIZE_MAX = 2 ^ 63 - 1 := rfl
        have h2 : SIZE_MODULUS = 2 ^ 64 := rfl
        have h3 := sizeof_ewf_ltree_header_t_eq
        omega
      by_cases c2 : section_data_size < sizeof_ewf_ltree_header_t + single_files_data_size
      · left; simp [libewf_ltree_section_write_file_io_pool, c1, h_req, c2]
      have h_size : (sizeof_ewf_section_descriptor_v1_t
            + (sizeof_ewf_ltree_header_t + single_files_data_size)) % SIZE_MODULUS
          = sizeof_ewf_section_descriptor_v1_t
            + (sizeof_ewf_ltree_header_t + single_files_data_size) := by
        apply Nat.mod_eq_of_lt
        have h1 : SSIZE_MAX = 2 ^ 63 - 1 := rfl
        have h2 : SIZE_MODULUS = 2 ^ 64 := rfl
        have h3 := sizeof_ewf_ltree_header_t_eq
        have h4 : sizeof_ewf_section_descriptor_v1_t = 76 := rfl
        omega
      cases h_set : env.section_descriptor_set descriptor
          env.LIBEWF_SECTION_TYPE_SINGLE_FILES_DATA [0x6c, 0x74, 0x72, 0x65, 0x65] 5
          section_offset (sizeof_ewf_section_descriptor_v1_t + (sizeof_ewf_ltree_header_t
            + single_files_data_size))
          (sizeof_ewf_ltree_header_t + single_files_data_size) 0 with
      | none =>
        left; simp [libewf_ltree_section_write_file_io_pool, c1, c2, c3, h_req, h_size, h_set]
      | some descriptor_set =>
        by_cases c5 : (libewf_section_descriptor_write_file_io_pool env descriptor_set pool
            entry 1).1 ≠ (sizeof_ewf_section_descriptor_v1_t : Int)
        · left
          simp [libewf_ltree_section_write_file_io_pool, c1, c2, c3, h_req, h_size, h_set, c5]
        have c5e : (libewf_section_descriptor_write_file_io_pool env descriptor_set pool
            entry 1).1 = (sizeof_ewf_section_descriptor_v1_t : Int) := by
          simpa using c5
        cases h_hdr : (write_file_io_pool_ltree_header env buffer section_data_size
            address single_files_data_size sizeof_ewf_ltree_header_t).2 with
        | some error =>
          left
          simp [libewf_ltree_section_write_file_io_pool, c1, c2, c3, h_req, h_size, h_set, c5,
            h_hdr]
        | none =>
          have h_addr : address = buffer.address + sizeof_ewf_ltree_header_t := by
            by_contra hne
            have : buffer.address + sizeof_ewf_ltree_header_t ≠ address := fun h => hne h.symm
            simp [write_file_io_pool_ltree_header, this] at h_hdr
          have h_u32 : single_files_data_size ≤ UINT32_MAX := by
            by_contra hne
            have : single_files_data_size > UINT32_MAX := by omega
            simp [write_file_io_pool_ltree_header, h_addr, this] at h_hdr
          subst h_addr
          right
          refine ⟨buffer, descriptor_set, rfl, rfl, h_u32, by omega, rfl, h_hdr, ?_⟩
          simp [libewf_ltree_section_write_file_io_pool, c1, c2, c3, h_req, h_size, h_set, c5,
            h_hdr, c5e]

theorem copy_from_uint32_at (a c : List Nat) (x0 x1 x2 x3 value offset : Nat)
    (h : offset = a.length) :
    byte_stream_copy_from_uint32_little_endian (a ++ x0 :: x1 :: x2 :: x3 :: c) offset value
      = a ++ uint32_little_endian_bytes value ++ c := by
  subst h
  induction a with
  | nil => simp [byte_stream_copy_from_uint32_little_endian, uint32_little_endian_bytes]
  | cons y ys ih =>
    simp only [byte_stream_copy_from_uint32_little_endian, uint32_little_endian_bytes,
      List.cons_append, List.length_cons, List.set_cons_succ, List.append_assoc,
      Nat.add_right_comm _ 1 _] at ih ⊢
    rw [ih]

theorem uint32_bytes_value (n : Nat) (h : n < 2 ^ 32) :
    ((((((((n >>> 24) &&& 0xff) <<< 8) ||| ((n >>> 16) &&& 0xff)) <<< 8)
      ||| ((n >>> 8) &&& 0xff)) <<< 8) ||| (n &&& 0xff)) = n := by
  simp only [and_0xff, Nat.shiftRight_eq_div_pow]
  rw [shift_or_byte _ _ (Nat.mod_lt _ (by norm_num)), shift_or_byte _ _ (Nat.mod_lt _ (by norm_num)),
    shift_or_byte _ _ (Nat.mod_lt _ (by norm_num))]
  omega

theorem adler32_step_lt (words : Nat × Nat) (byte : Nat) :
    (adler32_step words byte).1 < 65536 ∧ (adler32_step words byte).2 < 65536 := by
  simp only [adler32_step]
  constructor <;> omega

theorem adler32_foldl_lt (buffer : List Nat) (words : Nat × Nat)
    (h : words.1 < 65536 ∧ words.2 < 65536) :
    (buffer.foldl adler32_step words).1 < 65536 ∧ (buffer.foldl adler32_step words).2 < 65536 := by
  induction buffer generalizing words with
  | nil => simpa using h
  | cons b bs ih => exact ih _ (adler32_step_lt words b)

theorem adler32_lt (buffer : List Nat) (initial_value : Nat) :
    adler32 buffer initial_value < 2 ^ 32 := by
  have h0 : initial_value &&& 0xffff < 65536 := by
    have := Nat.and_pow_two_sub_one_eq_mod initial_value 16
    have e : initial_value &&& 0xffff = initial_value % 2 ^ 16 := by simpa using this
    rw [e]; omega
  have h1 : (initial_value >>> 16) &&& 0xffff < 65536 := by
    have := Nat.and_pow_two_sub_one_eq_mod (initial_value >>> 16) 16
    have e : (initial_value >>> 16) &&& 0xffff = (initial_value >>> 16) % 2 ^ 16 := by
      simpa using this
    rw [e]; omega
  have h := adler32_foldl_lt buffer
    (initial_value &&& 0xffff, (initial_value >>> 16) &&& 0xffff) ⟨h0, h1⟩
  simp only [adler32]
  have e := Nat.mul_add_lt_is_or (i := 16) (b := (buffer.foldl adler32_step
    (initial_value &&& 0xffff, (initial_value >>> 16) &&& 0xffff)).1) (by simpa using h.1)
    (buffer.foldl adler32_step
    (initial_value &&& 0xffff, (initial_value >>> 16) &&& 0xffff)).2
  rw [Nat.shiftLeft_eq, Nat.mul_comm, ← e]
  omega


theorem ltree_header_built (env : section_env) (buffer : uint8_buffer)
    (section_data_size single_files_data_size : Nat)
    (h_len : section_data_size ≤ buffer.bytes.length)
    (h_req : sizeof_ewf_ltree_header_t + single_files_data_size ≤ section_data_size)
    (h_md5 : ∀ data digest, env.md5_calculate data = some digest → digest.length = 16)
    (h_ok : (write_file_io_pool_ltree_header env buffer section_data_size
      (buffer.address + sizeof_ewf_ltree_header_t) single_files_data_size
      sizeof_ewf_ltree_header_t).2 = none) :
    ∃ digest,
      env.md5_calculate ((buffer.bytes.drop 48).take single_files_data_size) = some digest ∧
      digest.length = 16 ∧
      (write_file_io_pool_ltree_header env buffer section_data_size
        (buffer.address + sizeof_ewf_ltree_header_t) single_files_data_size
        sizeof_ewf_ltree_header_t).1
        = digest ++ uint32_little_endian_bytes single_files_data_size ++ [0, 0, 0, 0]
          ++ uint32_little_endian_bytes (adler32 (digest
            ++ uint32_little_endian_bytes single_files_data_size ++ List.replicate 28 0) 1)
          ++ List.replicate 20 0 ++ buffer.bytes.drop 48 := by
  have h48 := sizeof_ewf_ltree_header_t_eq
  have h_cleared : memory_set_zero buffer.bytes sizeof_ewf_ltree_header_t
      = List.replicate 48 0 ++ buffer.bytes.drop 48 := by
    simp only [memory_set_zero, h48]
    rw [Nat.min_eq_left (by omega)]
  have h_drop : (List.replicate 48 0 ++ buffer.bytes.drop 48).drop 48
      = buffer.bytes.drop 48 := by
    rw [List.drop_append_of_le_length (by simp)]
    simp
  simp only [write_file_io_pool_ltree_header, h_cleared] at h_ok ⊢
  rw [if_neg (by simp)] at h_ok ⊢
  by_cases hu : single_files_data_size > UINT32_MAX
  · rw [if_pos hu] at h_ok; simp at h_ok
  rw [if_neg hu, if_neg (by omega)] at h_ok ⊢
  simp only [h48, h_drop] at h_ok ⊢
  cases h_digest : env.md5_calculate
      ((buffer.bytes.drop 48).take single_files_data_size) with
  | none => rw [h_digest] at h_ok; simp at h_ok
  | some digest =>
    have h16 := h_md5 _ _ h_digest
    refine ⟨digest, rfl, h16, ?_⟩
    have h_hashed : memory_copy (List.replicate 48 0 ++ buffer.bytes.drop 48)
        ewf_ltree_header_integrity_hash_offset digest
        = digest ++ 0 :: 0 :: 0 :: 0 :: (List.replicate 28 0 ++ buffer.bytes.drop 48) := by
      simp only [memory_copy, ewf_ltree_header_integrity_hash_offset, h16, List.take_zero,
        List.nil_append, Nat.zero_add]
      rw [List.drop_append_of_le_length (by simp)]
      rfl
    have h_sized := copy_from_uint32_at digest (List.replicate 28 0 ++ buffer.bytes.drop 48)
      0 0 0 0 single_files_data_size ewf_ltree_header_data_size_offset
      (by rw [h16]; rfl)
    have h_take : (digest ++ uint32_little_endian_bytes single_files_data_size
        ++ (List.replicate 28 0 ++ buffer.bytes.drop 48)).take 48
        = digest ++ uint32_little_endian_bytes single_files_data_size
          ++ List.replicate 28 0 := by
      rw [← List.append_assoc, List.take_append_of_le_length (by
        simp [h16, uint32_little_endian_bytes])]
      apply List.take_of_length_le
      simp [h16, uint32_little_endian_bytes]
    have h_adler : ¬ ((48 : Nat) > SSIZE_MAX) := by decide
    simp only [h_hashed, h_sized, libewf_checksum_calculate_adler32, h_take]
    rw [if_neg h_adler]
    have h_final := copy_from_uint32_at
      (digest ++ uint32_little_endian_bytes single_files_data_size ++ [0, 0, 0, 0])
      (List.replicate 20 0 ++ buffer.bytes.drop 48) 0 0 0 0
      (adler32 (digest ++ uint32_little_endian_bytes single_files_data_size
        ++ List.replicate 28 0) 1) ewf_ltree_header_checksum_offset
      (by simp [h16, uint32_little_endian_bytes, ewf_ltree_header_checksum_offset_eq])
    have h_shape : digest ++ uint32_little_endian_bytes single_files_data_size
        ++ (List.replicate 28 0 ++ buffer.bytes.drop 48)
        = (digest ++ uint32_little_endian_bytes single_files_data_size ++ [0, 0, 0, 0])
          ++ 0 :: 0 :: 0 :: 0 :: (List.replicate 20 0 ++ buffer.bytes.drop 48) := by
      simp [List.replicate]
    rw [h_shape]
    dsimp only
    rw [h_final]
    simp only [List.append_assoc]


theorem getD_append_at (a l : List Nat) (offset k : Nat) (h : a.length = offset) :
    (a ++ l).getD (offset + k) 0 = l.getD k 0 := by
  subst h
  simp [List.getD_eq_getElem?_getD, List.getElem?_append_right]

theorem built_header_data_size (digest rest : List Nat) (n c : Nat)
    (h16 : digest.length = 16) (hn : n ≤ UINT32_MAX) :
    byte_stream_copy_to_uint64_little_endian
      (digest ++ uint32_little_endian_bytes n ++ [0, 0, 0, 0]
        ++ uint32_little_endian_bytes c ++ List.replicate 20 0 ++ rest)
      ewf_ltree_header_data_size_offset = n := by
  have hn32 : n < 2 ^ 32 := by
    have : UINT32_MAX = 2 ^ 32 - 1 := rfl
    omega
  simp only [List.append_assoc, byte_stream_copy_to_uint64_little_endian,
    ewf_ltree_header_data_size_offset_eq]
  rw [show (16 : Nat) = 16 + 0 from rfl]
  simp only [Nat.add_assoc, getD_append_at digest _ 16 _ h16]
  simp only [uint32_little_endian_bytes, List.cons_append, List.nil_append, Nat.zero_add,
    List.getD_cons_succ, List.getD_cons_zero, Nat.reduceAdd]
  simp only [Nat.zero_shiftLeft, Nat.zero_or]
  exact uint32_bytes_value n hn32

theorem built_header_checksum (digest rest : List Nat) (n c : Nat)
    (h16 : digest.length = 16) (hc : c < 2 ^ 32) :
    byte_stream_copy_to_uint32_little_endian
      (digest ++ uint32_little_endian_bytes n ++ [0, 0, 0, 0]
        ++ uint32_little_endian_bytes c ++ List.replicate 20 0 ++ rest)
      ewf_ltree_header_checksum_offset = c := by
  simp only [List.append_assoc, byte_stream_copy_to_uint32_little_endian,
    ewf_ltree_header_checksum_offset_eq]
  rw [show (24 : Nat) = 16 + 8 from rfl]
  simp only [Nat.add_assoc, getD_append_at digest _ 16 _ h16]
  simp only [uint32_little_endian_bytes, List.cons_append, List.nil_append,
    List.getD_cons_succ, List.getD_cons_zero, Nat.reduceAdd]
  exact uint32_bytes_value c hc

theorem built_header_with_zero_checksum (digest rest : List Nat) (n c : Nat)
    (h16 : digest.length = 16) :
    ltree_header_with_zero_checksum
      (digest ++ uint32_little_endian_bytes n ++ [0, 0, 0, 0]
        ++ uint32_little_endian_bytes c ++ List.replicate 20 0 ++ rest)
      = digest ++ uint32_little_endian_bytes n ++ List.replicate 28 0 := by
  have e1 : (digest ++ uint32_little_endian_bytes n ++ [0, 0, 0, 0]
        ++ uint32_little_endian_bytes c ++ List.replicate 20 0 ++ rest)
      = (digest ++ uint32_little_endian_bytes n ++ [0, 0, 0, 0])
        ++ (uint32_little_endian_bytes c ++ List.replicate 20 0 ++ rest) := by
    simp only [List.append_assoc]
  have e2 : (digest ++ uint32_little_endian_bytes n ++ [0, 0, 0, 0]
        ++ uint32_little_endian_bytes c ++ List.replicate 20 0 ++ rest)
      = (digest ++ uint32_little_endian_bytes n ++ [0, 0, 0, 0]
        ++ uint32_little_endian_bytes c) ++ (List.replicate 20 0 ++ rest) := by
    simp only [List.append_assoc]
  have l1 : (digest ++ uint32_little_endian_bytes n ++ [0, 0, 0, 0]).length = 24 := by
    simp [h16, uint32_little_endian_bytes]
  have l2 : (digest ++ uint32_little_endian_bytes n ++ [0, 0, 0, 0]
        ++ uint32_little_endian_bytes c).length = 28 := by
    simp [h16, uint32_little_endian_bytes]
  unfold ltree_header_with_zero_checksum
  rw [ewf_ltree_header_checksum_offset_eq]
  conv_lhs => arg 1; arg 1; rw [e1]
  rw [List.take_left' l1]
  conv_lhs => arg 2; arg 2; rw [e2]
  rw [show ewf_ltree_header_unknown1_offset = 28 from rfl, List.drop_left' l2,
    show ewf_ltree_header_unknown1_size = 20 from rfl,
    show ewf_ltree_header_checksum_size = 4 from rfl,
    List.take_left' (by simp)]
  simp [List.replicate]


theorem write_data_cases_v1 (env : section_env) (descriptor : libewf_section_descriptor_t)
    (io_handle : Option libewf_io_handle_t) (pool : libbfio_pool_t) (entry : Int)
    (bytes : List Nat) (section_descriptor_data_size required : Nat) (total : Int) :
    (write_file_io_pool_write_data env descriptor io_handle pool entry 1 bytes
        section_descriptor_data_size required total).result = -1 ∨
    write_file_io_pool_write_data env descriptor io_handle pool entry 1 bytes
        section_descriptor_data_size required total
      = ⟨total + (env.section_write_data pool descriptor io_handle entry
            (bytes.take required)).1,
          some (env.section_write_data pool descriptor io_handle entry
            (bytes.take required)).2,
          some bytes,
          ⟨pool.events ++ [pool_event.write_data entry descriptor (bytes.take required)]⟩,
          []⟩ := by
  by_cases h : (env.section_write_data pool descriptor io_handle entry
      (bytes.take required)).1 = -1
  · left; simp [write_file_io_pool_write_data, libewf_section_write_data, h]
  · right; simp [write_file_io_pool_write_data, libewf_section_write_data, h]

theorem write_data_cases_v2 (env : section_env) (descriptor : libewf_section_descriptor_t)
    (io_handle : Option libewf_io_handle_t) (pool : libbfio_pool_t) (entry : Int)
    (bytes : List Nat) (section_descriptor_data_size required : Nat) (total : Int) :
    (write_file_io_pool_write_data env descriptor io_handle pool entry 2 bytes
        section_descriptor_data_size required total).result = -1 ∨
    write_file_io_pool_write_data env descriptor io_handle pool entry 2 bytes
        section_descriptor_data_size required total
      = ⟨total + (env.section_write_data pool descriptor io_handle entry
            (bytes.take required)).1
          + (env.section_descriptor_write
              ⟨pool.events ++ [pool_event.write_data entry descriptor (bytes.take required)]⟩
              (env.section_write_data pool descriptor io_handle entry
                (bytes.take required)).2 entry 2).1,
          some (env.section_descriptor_write
              ⟨pool.events ++ [pool_event.write_data entry descriptor (bytes.take required)]⟩
              (env.section_write_data pool descriptor io_handle entry
                (bytes.take required)).2 entry 2).2,
          some bytes,
          ⟨pool.events ++ [pool_event.write_data entry descriptor (bytes.take required),
            pool_event.write_descriptor entry
              (env.section_write_data pool descriptor io_handle entry
                (bytes.take required)).2 2]⟩,
          []⟩ := by
  by_cases h : (env.section_write_data pool descriptor io_handle entry
      (bytes.take required)).1 = -1
  · left; simp [write_file_io_pool_write_data, libewf_section_write_data, h]
  · by_cases h2 : (env.section_descriptor_write
        ⟨pool.events ++ [pool_event.write_data entry descriptor (bytes.take required)]⟩
        (env.section_write_data pool descriptor io_handle entry
          (bytes.take required)).2 entry 2).1 = (section_descriptor_data_size : Int)
    · right
      simp [write_file_io_pool_write_data, libewf_section_write_data,
        libewf_section_descriptor_write_file_io_pool, h, h2]
    · left
      simp [write_file_io_pool_write_data, libewf_section_write_data,
        libewf_section_descriptor_write_file_io_pool, h, h2]

theorem write_v2_cases (env : section_env) (descriptor : libewf_section_descriptor_t)
    (io_handle : Option libewf_io_handle_t) (pool : libbfio_pool_t) (entry : Int)
    (section_offset : Int) (section_data : Option uint8_buffer) (section_data_size : Nat)
    (single_files_data : Option Nat) (single_files_data_size : Nat) :
    (libewf_ltree_section_write_file_io_pool env (some descriptor) io_handle pool entry 2
        section_offset section_data section_data_size single_files_data
        single_files_data_size).result = -1 ∨
    ∃ buffer descriptor_set,
      section_data = some buffer ∧
      single_files_data_size ≤ section_data_size ∧
      env.section_descriptor_set descriptor env.LIBEWF_SECTION_TYPE_SINGLE_FILES_DATA
          [0x6c, 0x74, 0x72, 0x65, 0x65] 5 section_offset
          ((env.sizeof_ewf_section_descriptor_v2_t + single_files_data_size) % SIZE_MODULUS)
          single_files_data_size 0 = some descriptor_set ∧
      libewf_ltree_section_write_file_io_pool env (some descriptor) io_handle pool entry 2
          section_offset section_data section_data_size single_files_data
          single_files_data_size
        = write_file_io_pool_write_data env
            { descriptor_set with
              data_flags := descriptor_set.data_flags |||
                env.LIBEWF_SECTION_DATA_FLAGS_HAS_INTEGRITY_HASH }
            io_handle pool entry 2 buffer.bytes env.sizeof_ewf_section_descriptor_v2_t
            single_files_data_size 0 := by
  cases section_data with
  | none => left; simp [libewf_ltree_section_write_file_io_pool]
  | some buffer =>
    by_cases c1 : section_data_size > SSIZE_MAX
    · left; simp [libewf_ltree_section_write_file_io_pool, c1]
    cases single_files_data with
    | none => left; simp [libewf_ltree_section_write_file_io_pool, c1]
    | some address =>
      by_cases c3 : single_files_data_size > SSIZE_MAX
      · left
        simp only [libewf_ltree_section_write_file_io_pool]
        simp [c1, c3]
        split <;> rfl
      have h_req : single_files_data_size % SIZE_MODULUS = single_files_data_size := by
        apply Nat.mod_eq_of_lt
        have h1 : SSIZE_MAX = 2 ^ 63 - 1 := rfl
        have h2 : SIZE_MODULUS = 2 ^ 64 := rfl
        omega
      by_cases c2 : section_data_size < single_files_data_size
      · left; simp [libewf_ltree_section_write_file_io_pool, c1, h_req, c2]
      cases h_set : env.section_descriptor_set descriptor
          env.LIBEWF_SECTION_TYPE_SINGLE_FILES_DATA [0x6c, 0x74, 0x72, 0x65, 0x65] 5
          section_offset
          ((env.sizeof_ewf_section_descriptor_v2_t + single_files_data_size) % SIZE_MODULUS)
          single_files_data_size 0 with
      | none =>
        left; simp [libewf_ltree_section_write_file_io_pool, c1, c2, c3, h_req, h_set]
      | some descriptor_set =>
        right
        refine ⟨buffer, descriptor_set, rfl, by omega, rfl, ?_⟩
        simp [libewf_ltree_section_write_file_io_pool, c1, c2, c3, h_req, h_set]

theorem write_v1_success (env : section_env) (descriptor : Option libewf_section_descriptor_t)
    (io_handle : Option libewf_io_handle_t) (pool : libbfio_pool_t) (entry : Int)
    (section_offset : Int) (section_data : Option uint8_buffer) (section_data_size : Nat)
    (single_files_data : Option Nat) (single_files_data_size : Nat)
    (h_success : (libewf_ltree_section_write_file_io_pool env descriptor io_handle pool
      entry 1 section_offset section_data section_data_size single_files_data
      single_files_data_size).result ≠ -1) :
    ∃ buffer descriptor_set,
      section_data = some buffer ∧
      single_files_data = some (buffer.address + sizeof_ewf_ltree_header_t) ∧
      single_files_data_size ≤ UINT32_MAX ∧
      sizeof_ewf_ltree_header_t + single_files_data_size ≤ section_data_size ∧
      (write_file_io_pool_ltree_header env buffer section_data_size
          (buffer.address + sizeof_ewf_ltree_header_t) single_files_data_size
          sizeof_ewf_ltree_header_t).2 = none ∧
      (libewf_ltree_section_write_file_io_pool env descriptor io_handle pool
        entry 1 section_offset section_data section_data_size single_files_data
        single_files_data_size).file_io_pool.events
        = pool.events ++ [pool_event.write_descriptor entry descriptor_set 1,
            pool_event.write_data entry
              (env.section_descriptor_write pool descriptor_set entry 1).2
              ((write_file_io_pool_ltree_header env buffer section_data_size
                (buffer.address + sizeof_ewf_ltree_header_t) single_files_data_size
                sizeof_ewf_ltree_header_t).1.take
                (sizeof_ewf_ltree_header_t + single_files_data_size))] := by
  cases descriptor with
  | none => exact absurd (by simp [libewf_ltree_section_write_file_io_pool]) h_success
  | some descriptor =>
    rcases write_v1_cases env descriptor io_handle pool entry section_offset section_data
      section_data_size single_files_data single_files_data_size with
      h | ⟨buffer, descriptor_set, h1, h2, h3, h4, _, h6, h7⟩
    · exact absurd h h_success
    · rw [h7] at h_success ⊢
      rcases write_data_cases_v1 env
        (libewf_section_descriptor_write_file_io_pool env descriptor_set pool entry 1).2.1
        io_handle
        (libewf_section_descriptor_write_file_io_pool env descriptor_set pool entry 1).2.2
        entry
        (write_file_io_pool_ltree_header env buffer section_data_size
          (buffer.address + sizeof_ewf_ltree_header_t) single_files_data_size
          sizeof_ewf_ltree_header_t).1
        sizeof_ewf_section_descriptor_v1_t
        (sizeof_ewf_ltree_header_t + single_files_data_size)
        (sizeof_ewf_section_descriptor_v1_t : Int) with h | h
      · exact absurd h h_success
      · rw [h]
        refine ⟨buffer, descriptor_set, h1, h2, h3, h4, h6, ?_⟩
        simp [libewf_section_descriptor_write_file_io_pool]

theorem write_success_events (env : section_env)
    (descriptor : Option libewf_section_descriptor_t)
    (io_handle : Option libewf_io_handle_t) (pool : libbfio_pool_t) (entry : Int)
    (format_version : Nat)
    (section_offset : Int) (section_data : Option uint8_buffer) (section_data_size : Nat)
    (single_files_data : Option Nat) (single_files_data_size : Nat)
    (h_success : (libewf_ltree_section_write_file_io_pool env descriptor io_handle pool
      entry format_version section_offset section_data section_data_size single_files_data
      single_files_data_size).result ≠ -1) :
    (format_version = 1 ∧ ∃ first second data,
      (libewf_ltree_section_write_file_io_pool env descriptor io_handle pool
        entry format_version section_offset section_data section_data_size single_files_data
        single_files_data_size).file_io_pool.events
        = pool.events ++ [pool_event.write_descriptor entry first 1,
            pool_event.write_data entry second data]) ∨
    (format_version = 2 ∧ ∃ first second data,
      (libewf_ltree_section_write_file_io_pool env descriptor io_handle pool
        entry format_version section_offset section_data section_data_size single_files_data
        single_files_data_size).file_io_pool.events
        = pool.events ++ [pool_event.write_data entry first data,
            pool_event.write_descriptor entry second 2]) := by
  by_cases h1 : format_version = 1
  · subst h1
    left
    obtain ⟨buffer, descriptor_set, _, _, _, _, _, h⟩ := write_v1_success env descriptor
      io_handle pool entry section_offset section_data section_data_size single_files_data
      single_files_data_size h_success
    exact ⟨rfl, _, _, _, h⟩
  by_cases h2 : format_version = 2
  · subst h2
    right
    refine ⟨rfl, ?_⟩
    cases descriptor with
    | none => exact absurd (by simp [libewf_ltree_section_write_file_io_pool]) h_success
    | some descriptor =>
      rcases write_v2_cases env descriptor io_handle pool entry section_offset section_data
        section_data_size single_files_data single_files_data_size with
        h | ⟨buffer, descriptor_set, _, _, _, h⟩
      · exact absurd h h_success
      · rw [h] at h_success ⊢
        rcases write_data_cases_v2 env
          { descriptor_set with
            data_flags := descriptor_set.data_flags |||
              env.LIBEWF_SECTION_DATA_FLAGS_HAS_INTEGRITY_HASH }
          io_handle pool entry buffer.bytes env.sizeof_ewf_section_descriptor_v2_t
          single_files_data_size 0 with h | h
        · exact absurd h h_success
        · rw [h]
          exact ⟨_, _, _, rfl⟩
  · exfalso
    apply h_success
    cases descriptor with
    | none => simp [libewf_ltree_section_write_file_io_pool]
    | some descriptor => simp [libewf_ltree_section_write_file_io_pool, h1, h2]

/-! ## Lemmas on the sample values -/

theorem md5_length (message : List Nat) : (md5 message).length = 16 := by
  simp [md5, little_endian_bytes]

set_option maxRecDepth 100000 in
/-- The MD5 model on two test vectors of RFC 1321: the empty message and `abc`. -/
theorem md5_test_vectors :
    md5 [] = [0xd4, 0x1d, 0x8c, 0xd9, 0x8f, 0x00, 0xb2, 0x04,
      0xe9, 0x80, 0x09, 0x98, 0xec, 0xf8, 0x42, 0x7e] ∧
    md5 [0x61, 0x62, 0x63] = [0x90, 0x01, 0x50, 0x98, 0x3c, 0xd2, 0x4f, 0xb0,
      0xd6, 0x96, 0x3f, 0x7d, 0x28, 0xe1, 0x7f, 0x72] := by
  decide

/-- The Adler-32 model on the test vector `Wikipedia`, whose checksum is
0x11e60398. -/
theorem adler32_test_vector :
    adler32 [0x57, 0x69, 0x6b, 0x69, 0x70, 0x65, 0x64, 0x69, 0x61] 1 = 0x11e60398 := by
  decide

theorem sample_digest_length (file data digest : List Nat)
    (h : (sample_section_env file).md5_calculate data = some digest) : digest.length = 16 := by
  simp only [sample_section_env, Option.some.injEq] at h
  rw [← h]; exact md5_length data

/-! ## C1: an encrypted section is refused before anything is read -/

/-- C1: for every section descriptor whose data flags have the encrypted bit set,
whatever the format version, the pool and the other arguments,
`libewf_ltree_section_read_file_io_pool` returns -1 with the single error
(runtime, unsupported value), makes no call on the pool and leaves the data
stream argument as it was. -/
theorem C1_encrypted_section_is_refused (env : section_env)
    (descriptor : libewf_section_descriptor_t) (io_handle : Option libewf_io_handle_t)
    (file_io_pool : libbfio_pool_t) (file_io_pool_entry : Int) (format_version : Nat)
    (data_stream : Option (Option libfdata_stream_t))
    (h : descriptor.data_flags &&& LIBEWF_SECTION_DATA_FLAGS_IS_ENCRYPTED ≠ 0) :
    libewf_ltree_section_read_file_io_pool env (some descriptor) io_handle file_io_pool
        file_io_pool_entry format_version data_stream
      = ⟨-1, data_stream, file_io_pool,
          [(libcerror_domain.RUNTIME, libcerror_code.UNSUPPORTED_VALUE)]⟩ := by
  simp only [libewf_ltree_section_read_file_io_pool]
  rw [if_pos h]

/-- C1 at a sample: the sample descriptor with data flags 2, format version 1. -/
theorem C1_encrypted_section_is_refused_witness :
    ({ sample_section_descriptor with data_flags := 2 }).data_flags
        &&& LIBEWF_SECTION_DATA_FLAGS_IS_ENCRYPTED ≠ 0 ∧
    libewf_ltree_section_read_file_io_pool (sample_section_env (sample_file sample_wrong_integrity_hash))
        (some { sample_section_descriptor with data_flags := 2 }) none ⟨[]⟩ 0 1 (some none)
      = ⟨-1, some none, ⟨[]⟩,
          [(libcerror_domain.RUNTIME, libcerror_code.UNSUPPORTED_VALUE)]⟩ :=
  ⟨by decide, C1_encrypted_section_is_refused _ _ _ _ _ _ _ (by decide)⟩

/-! ## C2: the header is accepted exactly when its Adler-32 verifies -/

/-- C2: for a buffer of `data_size` bytes with `sizeof( ewf_ltree_header_t ) <=
data_size <= SSIZE_MAX` and an output pointer that is not `NULL`,
`libewf_ltree_section_read_header_data` returns 1 exactly when the 32 bit
little-endian value of the checksum field equals the Adler-32, started at 1, of
the header bytes with the checksum field replaced by zero bytes; otherwise it
returns -1 with the single error (input, checksum mismatch). -/
theorem C2_header_accepted_iff_checksum_matches (data : List Nat) (data_size old : Nat)
    (h1 : sizeof_ewf_ltree_header_t ≤ data_size) (h2 : data_size ≤ SSIZE_MAX)
    (h3 : data_size ≤ data.length) :
    ((libewf_ltree_section_read_header_data (some data) data_size (some old)).result = 1 ↔
      byte_stream_copy_to_uint32_little_endian data ewf_ltree_header_checksum_offset
        = adler32 (ltree_header_with_zero_checksum data) 1) ∧
    (byte_stream_copy_to_uint32_little_endian data ewf_ltree_header_checksum_offset
        ≠ adler32 (ltree_header_with_zero_checksum data) 1 →
      (libewf_ltree_section_read_header_data (some data) data_size (some old)).result = -1 ∧
      (libewf_ltree_section_read_header_data (some data) data_size (some old)).errors
        = [(libcerror_domain.INPUT, libcerror_code.CHECKSUM_MISMATCH)]) := by
  have h48 : 48 ≤ data.length := by
    have := sizeof_ewf_ltree_header_t_eq; omega
  rw [read_header_data_some data data_size old h1 h2, cleared_checksum_take data h48]
  by_cases hc : byte_stream_copy_to_uint32_little_endian data ewf_ltree_header_checksum_offset
        = adler32 (ltree_header_with_zero_checksum data) 1
  · simp [hc]
  · simp [hc]

/-- C2 at a sample: the sample header, whose checksum verifies, is accepted. -/
theorem C2_header_accepted_iff_checksum_matches_witness :
    (libewf_ltree_section_read_header_data (some (sample_ltree_header
        sample_wrong_integrity_hash 3)) 48 (some 0)).result = 1 :=
  ((C2_header_accepted_iff_checksum_matches (sample_ltree_header sample_wrong_integrity_hash 3)
    48 0 (by decide) (by decide) (by decide)).1).2 (by decide)

/-! ## C3: the decoded data size is stored on success only -/

/-- C3: whenever `libewf_ltree_section_read_header_data` returns 1, the cell behind
`single_files_data_size` holds the 8 byte `data_size` field of the header
decoded as an unsigned 64 bit little-endian integer; whenever it returns -1
the cell keeps the value it had before the call. -/
theorem C3_data_size_stored_on_success_only (data : Option (List Nat)) (data_size : Nat)
    (old : Option Nat) :
    ((libewf_ltree_section_read_header_data data data_size old).result = 1 →
      ∃ bytes, data = some bytes ∧
        (libewf_ltree_section_read_header_data data data_size old).single_files_data_size
          = some (byte_stream_copy_to_uint64_little_endian bytes
              ewf_ltree_header_data_size_offset) ∧
        ((∀ b ∈ bytes, b < 256) →
          byte_stream_copy_to_uint64_little_endian bytes ewf_ltree_header_data_size_offset
            = uint64_little_endian_value bytes ewf_ltree_header_data_size_offset)) ∧
    ((libewf_ltree_section_read_header_data data data_size old).result = -1 →
      (libewf_ltree_section_read_header_data data data_size old).single_files_data_size
        = old) := by
  rcases read_header_data_result_cases data data_size old with ⟨hr, hs⟩ | ⟨hr, bytes, hd, hs⟩
  · refine ⟨fun h => ?_, fun _ => hs⟩
    rw [hr] at h; exact absurd h (by decide)
  · refine ⟨fun _ => ⟨bytes, hd, hs, copy_to_uint64_eq_value bytes _⟩, fun h => ?_⟩
    rw [hr] at h; exact absurd h (by decide)

/-- C3 at samples: the sample header, which declares 3 bytes, is accepted and
stores 3 over the 7 that was there; the same header with a damaged checksum is
refused and the 7 stays. -/
theorem C3_data_size_stored_on_success_only_witness :
    (libewf_ltree_section_read_header_data
        (some (sample_ltree_header sample_wrong_integrity_hash 3)) 48 (some 7)).result = 1 ∧
    (libewf_ltree_section_read_header_data
        (some (sample_ltree_header sample_wrong_integrity_hash 3)) 48
        (some 7)).single_files_data_size = some 3 ∧
    (libewf_ltree_section_read_header_data
        (some ((sample_ltree_header sample_wrong_integrity_hash 3).set 24 0)) 48
        (some 7)).result = -1 ∧
    (libewf_ltree_section_read_header_data
        (some ((sample_ltree_header sample_wrong_integrity_hash 3).set 24 0)) 48
        (some 7)).single_files_data_size = some 7 :=
  ⟨by decide, by decide, by decide,
    (C3_data_size_stored_on_success_only
      (some ((sample_ltree_header sample_wrong_integrity_hash 3).set 24 0)) 48 (some 7)).2
      (by decide)⟩

/-! ## C5: the integrity hash is not validated on read -/

set_option maxRecDepth 100000 in
/-- C5, as stated, fails: the sample segment file holds an ltree section whose
header Adler-32 verifies and whose stored integrity hash, 16 zero bytes, is not
the MD5 of its single files data `abc`; reading it with format version 1
returns 48 and a data stream over the 3 bytes at offset 124. -/
theorem C5_wrong_integrity_hash_is_accepted :
    ((sample_file sample_wrong_integrity_hash).drop 124).take 3 = [0x61, 0x62, 0x63] ∧
    (((sample_file sample_wrong_integrity_hash).drop 76).take 16
      ≠ md5 [0x61, 0x62, 0x63]) ∧
    byte_stream_copy_to_uint32_little_endian
        (((sample_file sample_wrong_integrity_hash).drop 76).take 48)
        ewf_ltree_header_checksum_offset
      = adler32 (ltree_header_with_zero_checksum
          (((sample_file sample_wrong_integrity_hash).drop 76).take 48)) 1 ∧
    libewf_ltree_section_read_file_io_pool
        (sample_section_env (sample_file sample_wrong_integrity_hash))
        (some sample_section_descriptor) none ⟨[]⟩ 0 1 (some none)
      = ⟨48, some (some ⟨0, 124, 3⟩), ⟨[pool_event.read_buffer 0 76 48]⟩, []⟩ := by
  decide

/-- C5, amended: reading a version 1 ltree section validates the Adler-32 of the
header and nothing else of the integrity hash. The call returns a data stream
exactly when the data stream pointer is set, the section is not encrypted, the
data offset is retrieved, the section data holds at least the 48 header bytes,
the 48 header bytes are read, the stored checksum equals the Adler-32 of the
header with a zero checksum field, the declared size fits in the rest of the
section data and the stream is created; the outcome is the same for every
digest function. -/
theorem C5_read_validates_header_checksum_only (env : section_env)
    (descriptor : libewf_section_descriptor_t) (io_handle : Option libewf_io_handle_t)
    (file_io_pool : libbfio_pool_t) (file_io_pool_entry : Int)
    (data_stream : Option (Option libfdata_stream_t)) :
    ((libewf_ltree_section_read_file_io_pool env (some descriptor) io_handle file_io_pool
        file_io_pool_entry 1 data_stream).result ≠ -1 ↔
      ∃ old data_offset bytes,
        data_stream = some old ∧
        descriptor.data_flags &&& LIBEWF_SECTION_DATA_FLAGS_IS_ENCRYPTED = 0 ∧
        env.section_descriptor_get_data_offset descriptor 1 = some data_offset ∧
        sizeof_ewf_ltree_header_t ≤ descriptor.data_size ∧
        env.pool_read file_io_pool file_io_pool_entry data_offset sizeof_ewf_ltree_header_t
          = some bytes ∧
        sizeof_ewf_ltree_header_t ≤ bytes.length ∧
        byte_stream_copy_to_uint32_little_endian (bytes.take sizeof_ewf_ltree_header_t)
            ewf_ltree_header_checksum_offset
          = adler32 (ltree_header_with_zero_checksum
              (bytes.take sizeof_ewf_ltree_header_t)) 1 ∧
        byte_stream_copy_to_uint64_little_endian (bytes.take sizeof_ewf_ltree_header_t)
            ewf_ltree_header_data_size_offset
          ≤ (descriptor.data_size + (SIZE_MODULUS - sizeof_ewf_ltree_header_t))
            % SIZE_MODULUS ∧
        env.data_stream_initialize_fails file_io_pool_entry
            (data_offset + (sizeof_ewf_ltree_header_t : Int))
            (byte_stream_copy_to_uint64_little_endian (bytes.take sizeof_ewf_ltree_header_t)
              ewf_ltree_header_data_size_offset) = false) ∧
    (∀ digest : List Nat → Option (List Nat),
      libewf_ltree_section_read_file_io_pool { env with md5_calculate := digest }
          (some descriptor) io_handle file_io_pool file_io_pool_entry 1 data_stream
        = libewf_ltree_section_read_file_io_pool env (some descriptor) io_handle file_io_pool
          file_io_pool_entry 1 data_stream) := by
  refine ⟨⟨fun h => ?_, fun h => ?_⟩, fun digest => rfl⟩
  · rcases read_v1_cases env descriptor io_handle file_io_pool file_io_pool_entry data_stream
      with ⟨hr, _⟩ | ⟨old, data_offset, bytes, h1, h2, h3, h4, h5, h6, h7, h8, h9, _⟩
    · exact absurd hr h
    · exact ⟨old, data_offset, bytes, h1, h2, h3, h4, h5, h6, h7, h8, h9⟩
  · obtain ⟨old, data_offset, bytes, h1, h2, h3, h4, h5, h6, h7, h8, h9⟩ := h
    subst h1
    rw [read_v1_header_complete env descriptor io_handle file_io_pool file_io_pool_entry old
      data_offset bytes h2 h3 h4 h5 h6]
    rw [if_neg (by simpa using h7), if_neg (by omega), if_neg (by simp [h9])]
    simp [sizeof_ewf_ltree_header_t_eq]

/-! ## C6: the header the writer builds -/

/-- C6: for every successful format version 1 call of
`libewf_ltree_section_write_file_io_pool` with single files data `d` of `n`
bytes (the bytes after the header in the section data buffer, which is where
`single_files_data` has to point), the data handed to
`libewf_section_write_data` are 48 + n bytes: their first 16 bytes are the
digest `libhmac_md5_calculate` yields for `d`, their `data_size` field decodes
to `n`, their checksum field holds the Adler-32, started at 1, of the header
with a zero checksum field, and `d` follows the header. The section data buffer
is assumed to hold `section_data_size` bytes and the digest to be 16 bytes
long. -/
theorem C6_written_header_holds_digest_size_checksum (env : section_env)
    (descriptor : Option libewf_section_descriptor_t) (io_handle : Option libewf_io_handle_t)
    (file_io_pool : libbfio_pool_t) (file_io_pool_entry : Int) (section_offset : Int)
    (section_data : uint8_buffer) (section_data_size : Nat) (single_files_data : Option Nat)
    (single_files_data_size : Nat)
    (h_buffer : section_data_size ≤ section_data.bytes.length)
    (h_digest : ∀ data digest, env.md5_calculate data = some digest → digest.length = 16)
    (h_success : (libewf_ltree_section_write_file_io_pool env descriptor io_handle
      file_io_pool file_io_pool_entry 1 section_offset (some section_data) section_data_size
      single_files_data single_files_data_size).result ≠ -1) :
    ∃ digest descriptor_set descriptor_written written,
      single_files_data = some (section_data.address + sizeof_ewf_ltree_header_t) ∧
      env.md5_calculate
        ((section_data.bytes.drop sizeof_ewf_ltree_header_t).take single_files_data_size)
        = some digest ∧
      (libewf_ltree_section_write_file_io_pool env descriptor io_handle
        file_io_pool file_io_pool_entry 1 section_offset (some section_data) section_data_size
        single_files_data single_files_data_size).file_io_pool.events
        = file_io_pool.events ++
          [pool_event.write_descriptor file_io_pool_entry descriptor_set 1,
            pool_event.write_data file_io_pool_entry descriptor_written written] ∧
      written.length = sizeof_ewf_ltree_header_t + single_files_data_size ∧
      written.take 16 = digest ∧
      byte_stream_copy_to_uint64_little_endian written ewf_ltree_header_data_size_offset
        = single_files_data_size ∧
      byte_stream_copy_to_uint32_little_endian written ewf_ltree_header_checksum_offset
        = adler32 (ltree_header_with_zero_checksum written) 1 ∧
      written.drop sizeof_ewf_ltree_header_t
        = (section_data.bytes.drop sizeof_ewf_ltree_header_t).take single_files_data_size := by
  obtain ⟨buffer, descriptor_set, h1, h2, h3, h4, h5, h6⟩ :=
    write_v1_success env descriptor io_handle file_io_pool file_io_pool_entry section_offset
      (some section_data) section_data_size single_files_data single_files_data_size h_success
  cases h1
  obtain ⟨digest, hd, h16, h_built⟩ := ltree_header_built env section_data section_data_size
    single_files_data_size h_buffer h4 h_digest h5
  have h48 := sizeof_ewf_ltree_header_t_eq
  have h_head : (digest ++ uint32_little_endian_bytes single_files_data_size ++ [0, 0, 0, 0]
      ++ uint32_little_endian_bytes (adler32 (digest
        ++ uint32_little_endian_bytes single_files_data_size ++ List.replicate 28 0) 1)
      ++ List.replicate 20 0).length = 48 := by
    simp [h16, uint32_little_endian_bytes]
  have h_written : (write_file_io_pool_ltree_header env section_data section_data_size
      (section_data.address + sizeof_ewf_ltree_header_t) single_files_data_size
      sizeof_ewf_ltree_header_t).1.take (sizeof_ewf_ltree_header_t + single_files_data_size)
      = digest ++ uint32_little_endian_bytes single_files_data_size ++ [0, 0, 0, 0]
        ++ uint32_little_endian_bytes (adler32 (digest
          ++ uint32_little_endian_bytes single_files_data_size ++ List.replicate 28 0) 1)
        ++ List.replicate 20 0 ++ (section_data.bytes.drop 48).take single_files_data_size := by
    rw [h_built, h48, ← h_head, List.take_append]
  rw [h_written] at h6
  refine ⟨digest, descriptor_set, _, _, h2, by rw [h48]; exact hd, h6, ?_, ?_,
    built_header_data_size digest _ _ _ h16 h3, ?_, ?_⟩
  · rw [List.length_append, h_head, List.length_take, List.length_drop, h48]
    omega
  · simp only [List.append_assoc]
    rw [List.take_left' h16]
  · rw [built_header_checksum digest _ _ _ h16 (adler32_lt _ _),
      built_header_with_zero_checksum digest _ _ _ h16]
  · rw [h48, List.drop_left' h_head]

set_option maxRecDepth 100000 in
/-- C6 at a sample: 3 bytes `abc` behind a 48 byte header in a buffer at address
4096, with MD5 as the digest function; the written data are spelled out. -/
theorem C6_written_header_holds_digest_size_checksum_witness :
    ((libewf_ltree_section_write_file_io_pool (sample_section_env [])
        (some sample_section_descriptor) none ⟨[]⟩ 0 1 0 (some sample_section_data) 51
        (some 4144) 3).result = 127 ∧
      (libewf_ltree_section_write_file_io_pool (sample_section_env [])
        (some sample_section_descriptor) none ⟨[]⟩ 0 1 0 (some sample_section_data) 51
        (some 4144) 3).section_data
        = some (md5 [0x61, 0x62, 0x63] ++ [3, 0, 0, 0, 0, 0, 0, 0]
            ++ uint32_little_endian_bytes (adler32 (md5 [0x61, 0x62, 0x63]
              ++ [3, 0, 0, 0, 0, 0, 0, 0] ++ List.replicate 24 0) 1)
            ++ List.replicate 20 0 ++ [0x61, 0x62, 0x63])) ∧
    ∃ digest descriptor_set descriptor_written written,
      (some 4144 : Option Nat) = some (sample_section_data.address + sizeof_ewf_ltree_header_t) ∧
      (sample_section_env []).md5_calculate
        ((sample_section_data.bytes.drop sizeof_ewf_ltree_header_t).take 3) = some digest ∧
      (libewf_ltree_section_write_file_io_pool (sample_section_env [])
        (some sample_section_descriptor) none
        ⟨[]⟩ 0 1 0 (some sample_section_data) 51 (some 4144) 3).file_io_pool.events
        = ([] : List pool_event) ++
          [pool_event.write_descriptor 0 descriptor_set 1,
            pool_event.write_data 0 descriptor_written written] ∧
      written.length = sizeof_ewf_ltree_header_t + 3 ∧
      written.take 16 = digest ∧
      byte_stream_copy_to_uint64_little_endian written ewf_ltree_header_data_size_offset = 3 ∧
      byte_stream_copy_to_uint32_little_endian written ewf_ltree_header_checksum_offset
        = adler32 (ltree_header_with_zero_checksum written) 1 ∧
      written.drop sizeof_ewf_ltree_header_t
        = (sample_section_data.bytes.drop sizeof_ewf_ltree_header_t).take 3 :=
  ⟨by decide,
    C6_written_header_holds_digest_size_checksum (sample_section_env [])
      (some sample_section_descriptor) none ⟨[]⟩ 0 0 sample_section_data 51 (some 4144) 3
      (by decide) (sample_digest_length []) (by decide)⟩

/-! ## C7: the order of the descriptor and the data -/

/-- C7: in every successful call of `libewf_ltree_section_write_file_io_pool` the
calls added to the pool are exactly two, one write of the section descriptor
and one write of the section data: for format version 1 the descriptor is
written first and the data second, for format version 2 the data first and the
descriptor second. -/
theorem C7_descriptor_first_in_v1_last_in_v2 (env : section_env)
    (section_descriptor : Option libewf_section_descriptor_t)
    (io_handle : Option libewf_io_handle_t) (file_io_pool : libbfio_pool_t)
    (file_io_pool_entry : Int) (format_version : Nat) (section_offset : Int)
    (section_data : Option uint8_buffer) (section_data_size : Nat)
    (single_files_data : Option Nat) (single_files_data_size : Nat)
    (h_success : (libewf_ltree_section_write_file_io_pool env section_descriptor io_handle
      file_io_pool file_io_pool_entry format_version section_offset section_data
      section_data_size single_files_data single_files_data_size).result ≠ -1) :
    (format_version = 1 ∧ ∃ first second data,
      (libewf_ltree_section_write_file_io_pool env section_descriptor io_handle
        file_io_pool file_io_pool_entry format_version section_offset section_data
        section_data_size single_files_data single_files_data_size).file_io_pool.events
        = file_io_pool.events ++ [pool_event.write_descriptor file_io_pool_entry first 1,
            pool_event.write_data file_io_pool_entry second data]) ∨
    (format_version = 2 ∧ ∃ first second data,
      (libewf_ltree_section_write_file_io_pool env section_descriptor io_handle
        file_io_pool file_io_pool_entry format_version section_offset section_data
        section_data_size single_files_data single_files_data_size).file_io_pool.events
        = file_io_pool.events ++ [pool_event.write_data file_io_pool_entry first data,
            pool_event.write_descriptor file_io_pool_entry second 2]) :=
  write_success_events env section_descriptor io_handle file_io_pool file_io_pool_entry
    format_version section_offset section_data section_data_size single_files_data
    single_files_data_size h_success

set_option maxRecDepth 100000 in
/-- C7 at samples: a format version 1 and a format version 2 call that succeed,
with the calls they make on an empty pool. -/
theorem C7_descriptor_first_in_v1_last_in_v2_witness :
    ((libewf_ltree_section_write_file_io_pool (sample_section_env [])
        (some sample_section_descriptor) none ⟨[]⟩ 0 1 0 (some sample_section_data) 51
        (some 4144) 3).file_io_pool.events.map pool_event.is_descriptor_write = [true, false] ∧
      (libewf_ltree_section_write_file_io_pool (sample_section_env [])
        (some sample_section_descriptor) none ⟨[]⟩ 0 2 0 (some sample_section_data_v2) 3
        (some 4096) 3).file_io_pool.events.map pool_event.is_descriptor_write
        = [false, true]) ∧
    ((2 = 1 ∧ ∃ first second data,
      (libewf_ltree_section_write_file_io_pool (sample_section_env [])
        (some sample_section_descriptor) none ⟨[]⟩ 0 2 0 (some sample_section_data_v2) 3
        (some 4096) 3).file_io_pool.events
        = ([] : List pool_event) ++ [pool_event.write_descriptor 0 first 1,
            pool_event.write_data 0 second data]) ∨
    (2 = 2 ∧ ∃ first second data,
      (libewf_ltree_section_write_file_io_pool (sample_section_env [])
        (some sample_section_descriptor) none ⟨[]⟩ 0 2 0 (some sample_section_data_v2) 3
        (some 4096) 3).file_io_pool.events
        = ([] : List pool_event) ++ [pool_event.write_data 0 first data,
            pool_event.write_descriptor 0 second 2])) :=
  ⟨by decide,
    C7_descriptor_first_in_v1_last_in_v2 (sample_section_env [])
      (some sample_section_descriptor) none ⟨[]⟩ 0 2 0 (some sample_section_data_v2) 3
      (some 4096) 3 (by decide)⟩

/-! ## C8: the layout the section layer is said to use -/

set_option maxRecDepth 100000 in
/-- C8, as stated, fails: the successful sample call with format version 1
writes the descriptor first and the data second, and the successful sample call
with format version 2 writes the data first and the descriptor second. -/
theorem C8_v1_descriptor_is_not_written_last :
    (libewf_ltree_section_write_file_io_pool (sample_section_env [])
        (some sample_section_descriptor) none ⟨[]⟩ 0 1 0 (some sample_section_data) 51
        (some 4144) 3).result = 127 ∧
    (libewf_ltree_section_write_file_io_pool (sample_section_env [])
        (some sample_section_descriptor) none ⟨[]⟩ 0 1 0 (some sample_section_data) 51
        (some 4144) 3).file_io_pool.events.map pool_event.is_descriptor_write = [true, false] ∧
    (libewf_ltree_section_write_file_io_pool (sample_section_env [])
        (some sample_section_descriptor) none ⟨[]⟩ 0 2 0 (some sample_section_data_v2) 3
        (some 4096) 3).result = 67 ∧
    (libewf_ltree_section_write_file_io_pool (sample_section_env [])
        (some sample_section_descriptor) none ⟨[]⟩ 0 2 0 (some sample_section_data_v2) 3
        (some 4096) 3).file_io_pool.events.map pool_event.is_descriptor_write
      = [false, true] := by
  decide

/-- C8, amended: the section layer lays out a version 1 section with its
descriptor leading the payload and a version 2 section with its descriptor
trailing the payload: of the two calls a successful
`libewf_ltree_section_write_file_io_pool` adds to the pool, the first is the
descriptor write exactly when the format version is 1 and the second is the
descriptor write exactly when the format version is 2. -/
theorem C8_descriptor_leads_in_v1_trails_in_v2 (env : section_env)
    (section_descriptor : Option libewf_section_descriptor_t)
    (io_handle : Option libewf_io_handle_t) (file_io_pool : libbfio_pool_t)
    (file_io_pool_entry : Int) (format_version : Nat) (section_offset : Int)
    (section_data : Option uint8_buffer) (section_data_size : Nat)
    (single_files_data : Option Nat) (single_files_data_size : Nat)
    (h_success : (libewf_ltree_section_write_file_io_pool env section_descriptor io_handle
      file_io_pool file_io_pool_entry format_version section_offset section_data
      section_data_size single_files_data single_files_data_size).result ≠ -1) :
    ∃ first second,
      (libewf_ltree_section_write_file_io_pool env section_descriptor io_handle
        file_io_pool file_io_pool_entry format_version section_offset section_data
        section_data_size single_files_data single_files_data_size).file_io_pool.events
        = file_io_pool.events ++ [first, second] ∧
      (first.is_descriptor_write = true ↔ format_version = 1) ∧
      (second.is_descriptor_write = true ↔ format_version = 2) ∧
      (first.is_descriptor_write = !second.is_descriptor_write) := by
  rcases write_success_events env section_descriptor io_handle file_io_pool
    file_io_pool_entry format_version section_offset section_data section_data_size
    single_files_data single_files_data_size h_success with
    ⟨hv, first, second, data, h⟩ | ⟨hv, first, second, data, h⟩
  · exact ⟨_, _, h, by simp [pool_event.is_descriptor_write, hv],
      by simp [pool_event.is_descriptor_write, hv], by simp [pool_event.is_descriptor_write]⟩
  · exact ⟨_, _, h, by simp [pool_event.is_descriptor_write, hv],
      by simp [pool_event.is_descriptor_write, hv], by simp [pool_event.is_descriptor_write]⟩

set_option maxRecDepth 100000 in
/-- C8, amended, at a sample: the successful format version 1 call. -/
theorem C8_descriptor_leads_in_v1_trails_in_v2_witness :
    ∃ first second,
      (libewf_ltree_section_write_file_io_pool (sample_section_env [])
        (some sample_section_descriptor) none ⟨[]⟩ 0 1 0 (some sample_section_data) 51
        (some 4144) 3).file_io_pool.events
        = ([] : List pool_event) ++ [first, second] ∧
      (first.is_descriptor_write = true ↔ 1 = 1) ∧
      (second.is_descriptor_write = true ↔ 1 = 2) ∧
      (first.is_descriptor_write = !second.is_descriptor_write) :=
  C8_descriptor_leads_in_v1_trails_in_v2 (sample_section_env [])
    (some sample_section_descriptor) none ⟨[]⟩ 0 1 0 (some sample_section_data) 51
    (some 4144) 3 (by decide)

/-! ## C9: trailing bytes after the single files data -/

/-- C9: for format version 1, when the header that is read verifies and the size `s`
it declares is at most the section data size minus the 48 header bytes,
`libewf_ltree_section_read_file_io_pool` succeeds: it returns 48 and the stream
it creates starts at the data offset plus 48 and has size exactly `s`; the one
call it makes on the pool is the read of the 48 header bytes, so the bytes
from offset + `s` on are never looked at. For format version 2 the stream
starts at the data offset and has the section data size, and the call returns
0 without a call on the pool. In both cases the section is not encrypted, the
data offset is retrieved and the stream can be created. -/
theorem C9_trailing_bytes_are_left_out (env : section_env)
    (descriptor : libewf_section_descriptor_t) (io_handle : Option libewf_io_handle_t)
    (file_io_pool : libbfio_pool_t) (file_io_pool_entry : Int)
    (old : Option libfdata_stream_t) (data_offset : Int)
    (h_flags : descriptor.data_flags &&& LIBEWF_SECTION_DATA_FLAGS_IS_ENCRYPTED = 0)
    (h_data_size : descriptor.data_size < SIZE_MODULUS) :
    (∀ bytes : List Nat,
      env.section_descriptor_get_data_offset descriptor 1 = some data_offset →
      env.pool_read file_io_pool file_io_pool_entry data_offset sizeof_ewf_ltree_header_t
        = some bytes →
      sizeof_ewf_ltree_header_t ≤ bytes.length →
      byte_stream_copy_to_uint32_little_endian (bytes.take sizeof_ewf_ltree_header_t)
          ewf_ltree_header_checksum_offset
        = adler32 (ltree_header_with_zero_checksum
            (bytes.take sizeof_ewf_ltree_header_t)) 1 →
      byte_stream_copy_to_uint64_little_endian (bytes.take sizeof_ewf_ltree_header_t)
          ewf_ltree_header_data_size_offset + sizeof_ewf_ltree_header_t
        ≤ descriptor.data_size →
      env.data_stream_initialize_fails file_io_pool_entry
          (data_offset + (sizeof_ewf_ltree_header_t : Int))
          (byte_stream_copy_to_uint64_little_endian (bytes.take sizeof_ewf_ltree_header_t)
            ewf_ltree_header_data_size_offset) = false →
      libewf_ltree_section_read_file_io_pool env (some descriptor) io_handle file_io_pool
          file_io_pool_entry 1 (some old)
        = ⟨48,
            some (some ⟨file_io_pool_entry, data_offset + 48,
              byte_stream_copy_to_uint64_little_endian
                (bytes.take sizeof_ewf_ltree_header_t) ewf_ltree_header_data_size_offset⟩),
            ⟨file_io_pool.events ++
              [pool_event.read_buffer file_io_pool_entry data_offset 48]⟩, []⟩) ∧
    (env.section_descriptor_get_data_offset descriptor 2 = some data_offset →
      env.data_stream_initialize_fails file_io_pool_entry data_offset descriptor.data_size
        = false →
      libewf_ltree_section_read_file_io_pool env (some descriptor) io_handle file_io_pool
          file_io_pool_entry 2 (some old)
        = ⟨0, some (some ⟨file_io_pool_entry, data_offset, descriptor.data_size⟩),
            file_io_pool, []⟩) := by
  have h48 := sizeof_ewf_ltree_header_t_eq
  have hm : SIZE_MODULUS = 2 ^ 64 := rfl
  constructor
  · intro bytes h_offset h_read h_bytes h_checksum h_fits h_stream
    rw [read_v1_header_complete env descriptor io_handle file_io_pool file_io_pool_entry old
      data_offset bytes h_flags h_offset (by omega) h_read h_bytes]
    have h_rem := data_size_minus_header_does_not_wrap descriptor.data_size h_data_size
      (by omega)
    rw [if_neg (by simpa using h_checksum), if_neg (by rw [h_rem]; omega),
      if_neg (by simp [h_stream])]
    simp [h48]
  · intro h_offset h_stream
    rcases read_v2_cases env descriptor io_handle file_io_pool file_io_pool_entry (some old)
      with ⟨hr, _⟩ | ⟨old2, offset2, _, _, h3, _, h5⟩
    · exfalso
      have h_ne : ¬ (descriptor.data_flags &&& LIBEWF_SECTION_DATA_FLAGS_IS_ENCRYPTED ≠ 0) := by
        simp [h_flags]
      simp only [libewf_ltree_section_read_file_io_pool] at hr
      rw [if_neg h_ne] at hr
      simp [h_offset, read_file_io_pool_create_stream,
        libewf_data_stream_initialize_from_section, h_stream] at hr
    · rw [h_offset] at h3
      cases h3
      rw [h5]

/-- C9 at a sample: the section of the sample file has 53 bytes of data, the
header declares 3, so 2 bytes trail; the stream covers the 3 bytes at offset
124. Read as format version 2, the stream covers the 53 bytes at offset 0. -/
theorem C9_trailing_bytes_are_left_out_witness :
    libewf_ltree_section_read_file_io_pool
        (sample_section_env (sample_file sample_wrong_integrity_hash))
        (some sample_section_descriptor) none ⟨[]⟩ 0 1 (some none)
      = ⟨48, some (some ⟨0, 76 + 48, 3⟩), ⟨[] ++ [pool_event.read_buffer 0 76 48]⟩, []⟩ ∧
    libewf_ltree_section_read_file_io_pool
        (sample_section_env (sample_file sample_wrong_integrity_hash))
        (some sample_section_descriptor) none ⟨[]⟩ 0 2 (some none)
      = ⟨0, some (some ⟨0, 0, 53⟩), ⟨[]⟩, []⟩ :=
  ⟨(C9_trailing_bytes_are_left_out
      (sample_section_env (sample_file sample_wrong_integrity_hash))
      sample_section_descriptor none ⟨[]⟩ 0 none 76 (by decide) (by decide)).1
      ((sample_file sample_wrong_integrity_hash).drop 76 |>.take 48)
      (by decide) (by decide) (by decide) (by decide) (by decide) (by decide),
    by decide⟩

/-! ## C10: the stream lies inside the section data -/

/-- C10: for format version 1, `libewf_ltree_section_read_file_io_pool` returns -1
and leaves the data stream argument as it was when the section data size is
below the 48 header bytes, and when the size the header declares exceeds the
section data size minus 48. Hence whenever it does not return -1, the section
data size is at least 48, the 64 bit subtraction `data_size - 48` does not wrap,
and the byte range of the created stream lies inside the range of the section
data. The section data size is a `size64_t`. -/
theorem C10_stream_lies_inside_section_data (env : section_env)
    (descriptor : libewf_section_descriptor_t) (io_handle : Option libewf_io_handle_t)
    (file_io_pool : libbfio_pool_t) (file_io_pool_entry : Int)
    (data_stream : Option (Option libfdata_stream_t))
    (h_data_size : descriptor.data_size < SIZE_MODULUS) :
    (descriptor.data_size < sizeof_ewf_ltree_header_t →
      (libewf_ltree_section_read_file_io_pool env (some descriptor) io_handle file_io_pool
        file_io_pool_entry 1 data_stream).result = -1 ∧
      (libewf_ltree_section_read_file_io_pool env (some descriptor) io_handle file_io_pool
        file_io_pool_entry 1 data_stream).data_stream = data_stream) ∧
    (∀ data_offset bytes,
      env.section_descriptor_get_data_offset descriptor 1 = some data_offset →
      env.pool_read file_io_pool file_io_pool_entry data_offset sizeof_ewf_ltree_header_t
        = some bytes →
      byte_stream_copy_to_uint64_little_endian (bytes.take sizeof_ewf_ltree_header_t)
          ewf_ltree_header_data_size_offset
        > descriptor.data_size - sizeof_ewf_ltree_header_t →
      (libewf_ltree_section_read_file_io_pool env (some descriptor) io_handle file_io_pool
        file_io_pool_entry 1 data_stream).result = -1 ∧
      (libewf_ltree_section_read_file_io_pool env (some descriptor) io_handle file_io_pool
        file_io_pool_entry 1 data_stream).data_stream = data_stream) ∧
    ((libewf_ltree_section_read_file_io_pool env (some descriptor) io_handle file_io_pool
        file_io_pool_entry 1 data_stream).result ≠ -1 →
      sizeof_ewf_ltree_header_t ≤ descriptor.data_size ∧
      (descriptor.data_size + (SIZE_MODULUS - sizeof_ewf_ltree_header_t)) % SIZE_MODULUS
        = descriptor.data_size - sizeof_ewf_ltree_header_t ∧
      ∃ data_offset stream,
        env.section_descriptor_get_data_offset descriptor 1 = some data_offset ∧
        (libewf_ltree_section_read_file_io_pool env (some descriptor) io_handle file_io_pool
          file_io_pool_entry 1 data_stream).data_stream = some (some stream) ∧
        data_offset ≤ stream.offset ∧
        stream.offset + (stream.size : Int) ≤ data_offset + (descriptor.data_size : Int)) := by
  have h48 := sizeof_ewf_ltree_header_t_eq
  have hm : SIZE_MODULUS = 2 ^ 64 := rfl
  have h_sub := data_size_minus_header_does_not_wrap descriptor.data_size h_data_size
  rcases read_v1_cases env descriptor io_handle file_io_pool file_io_pool_entry data_stream
    with ⟨hr, hs⟩ | ⟨old, data_offset, bytes, h1, h2, h3, h4, h5, h6, h7, h8, h9, h10⟩
  · exact ⟨fun _ => ⟨hr, hs⟩, fun _ _ _ _ _ => ⟨hr, hs⟩, fun h => absurd hr h⟩
  · refine ⟨fun h => ?_, fun offset2 bytes2 ho hp hgt => ?_, fun _ => ⟨h4, h_sub h4, ?_⟩⟩
    · omega
    · exfalso
      rw [h3] at ho
      cases ho
      rw [h5] at hp
      cases hp
      rw [h_sub h4] at h8
      omega
    · refine ⟨data_offset, _, h3, by rw [h10], ?_, ?_⟩
      · show data_offset ≤ data_offset + (sizeof_ewf_ltree_header_t : Int)
        omega
      · show data_offset + (sizeof_ewf_ltree_header_t : Int)
            + ((byte_stream_copy_to_uint64_little_endian
                (bytes.take sizeof_ewf_ltree_header_t) ewf_ltree_header_data_size_offset
                : Nat) : Int)
          ≤ data_offset + (descriptor.data_size : Int)
        rw [h_sub h4] at h8
        omega

/-- C10 at samples: the section of the sample file read with its data size 53
gives a stream inside the section data; with a data size of 50, which leaves 2
bytes after the header for the 3 the header declares, the call returns -1 and
the data stream argument stays as it was. -/
theorem C10_stream_lies_inside_section_data_witness :
    libewf_ltree_section_read_file_io_pool
        (sample_section_env (sample_file sample_wrong_integrity_hash))
        (some sample_section_descriptor) none ⟨[]⟩ 0 1 (some none)
      = ⟨48, some (some ⟨0, 124, 3⟩), ⟨[pool_event.read_buffer 0 76 48]⟩, []⟩ ∧
    (libewf_ltree_section_read_file_io_pool
        (sample_section_env (sample_file sample_wrong_integrity_hash))
        (some { sample_section_descriptor with data_size := 50 }) none ⟨[]⟩ 0 1
        (some none)).result = -1 ∧
    (libewf_ltree_section_read_file_io_pool
        (sample_section_env (sample_file sample_wrong_integrity_hash))
        (some { sample_section_descriptor with data_size := 50 }) none ⟨[]⟩ 0 1
        (some none)).data_stream = some none :=
  ⟨by decide,
    (C10_stream_lies_inside_section_data
      (sample_section_env (sample_file sample_wrong_integrity_hash))
      { sample_section_descriptor with data_size := 50 } none ⟨[]⟩ 0 (some none)
      (by decide)).2.1 76 ((sample_file sample_wrong_integrity_hash).drop 76 |>.take 48)
      (by decide) (by decide) (by decide)⟩

/-! ## C11: the written header is read back -/

/-- What a successful format version 1 write leaves in `section_data`: the header
that `write_file_io_pool_ltree_header` builds in the buffer. -/
theorem write_v1_success_section_data (env : section_env)
    (descriptor : Option libewf_section_descriptor_t)
    (io_handle : Option libewf_io_handle_t) (pool : libbfio_pool_t) (entry : Int)
    (section_offset : Int) (section_data : Option uint8_buffer) (section_data_size : Nat)
    (single_files_data : Option Nat) (single_files_data_size : Nat)
    (h_success : (libewf_ltree_section_write_file_io_pool env descriptor io_handle pool
      entry 1 section_offset section_data section_data_size single_files_data
      single_files_data_size).result ≠ -1) :
    ∃ buffer,
      section_data = some buffer ∧
      single_files_data_size ≤ UINT32_MAX ∧
      sizeof_ewf_ltree_header_t + single_files_data_size ≤ section_data_size ∧
      (write_file_io_pool_ltree_header env buffer section_data_size
          (buffer.address + sizeof_ewf_ltree_header_t) single_files_data_size
          sizeof_ewf_ltree_header_t).2 = none ∧
      (libewf_ltree_section_write_file_io_pool env descriptor io_handle pool
        entry 1 section_offset section_data section_data_size single_files_data
        single_files_data_size).section_data
        = some (write_file_io_pool_ltree_header env buffer section_data_size
            (buffer.address + sizeof_ewf_ltree_header_t) single_files_data_size
            sizeof_ewf_ltree_header_t).1 := by
  cases descriptor with
  | none => exact absurd (by simp [libewf_ltree_section_write_file_io_pool]) h_success
  | some descriptor =>
    rcases write_v1_cases env descriptor io_handle pool entry section_offset section_data
      section_data_size single_files_data single_files_data_size with
      h | ⟨buffer, descriptor_set, h1, _, h3, h4, _, h6, h7⟩
    · exact absurd h h_success
    · rw [h7] at h_success ⊢
      rcases write_data_cases_v1 env
        (libewf_section_descriptor_write_file_io_pool env descriptor_set pool entry 1).2.1
        io_handle
        (libewf_section_descriptor_write_file_io_pool env descriptor_set pool entry 1).2.2
        entry
        (write_file_io_pool_ltree_header env buffer section_data_size
          (buffer.address + sizeof_ewf_ltree_header_t) single_files_data_size
          sizeof_ewf_ltree_header_t).1
        sizeof_ewf_section_descriptor_v1_t
        (sizeof_ewf_ltree_header_t + single_files_data_size)
        (sizeof_ewf_section_descriptor_v1_t : Int) with h | h
      · exact absurd h h_success
      · rw [h]
        exact ⟨buffer, h1, h3, h4, h6, rfl⟩

/-- The header the writer builds is accepted by the reader, which decodes the
data size the writer stored. -/
theorem built_header_is_read_back (digest rest : List Nat) (n data_size old : Nat)
    (h16 : digest.length = 16) (hn : n ≤ UINT32_MAX)
    (h1 : sizeof_ewf_ltree_header_t ≤ data_size) (h2 : data_size ≤ SSIZE_MAX) :
    (libewf_ltree_section_read_header_data
      (some (digest ++ uint32_little_endian_bytes n ++ [0, 0, 0, 0]
        ++ uint32_little_endian_bytes (adler32 (digest
          ++ uint32_little_endian_bytes n ++ List.replicate 28 0) 1)
        ++ List.replicate 20 0 ++ rest)) data_size (some old)).result = 1 ∧
    (libewf_ltree_section_read_header_data
      (some (digest ++ uint32_little_endian_bytes n ++ [0, 0, 0, 0]
        ++ uint32_little_endian_bytes (adler32 (digest
          ++ uint32_little_endian_bytes n ++ List.replicate 28 0) 1)
        ++ List.replicate 20 0 ++ rest)) data_size (some old)).single_files_data_size
      = some n := by
  have h_len : 48 ≤ (digest ++ uint32_little_endian_bytes n ++ [0, 0, 0, 0]
        ++ uint32_little_endian_bytes (adler32 (digest
          ++ uint32_little_endian_bytes n ++ List.replicate 28 0) 1)
        ++ List.replicate 20 0 ++ rest).length := by
    simp [h16, uint32_little_endian_bytes]
    omega
  rw [read_header_data_some _ data_size old h1 h2, cleared_checksum_take _ h_len,
    built_header_checksum digest rest n _ h16 (adler32_lt _ _),
    built_header_with_zero_checksum digest rest n _ h16,
    built_header_data_size digest rest n _ h16 hn]
  simp

/-- The four bytes after the 32 bit data size of the header the writer builds are
zero. -/
theorem built_header_upper_size_bytes (digest rest : List Nat) (n c : Nat)
    (h16 : digest.length = 16) :
    byte_stream_copy_to_uint32_little_endian
      (digest ++ uint32_little_endian_bytes n ++ [0, 0, 0, 0]
        ++ uint32_little_endian_bytes c ++ List.replicate 20 0 ++ rest)
      (ewf_ltree_header_data_size_offset + 4) = 0 := by
  simp only [List.append_assoc, byte_stream_copy_to_uint32_little_endian,
    ewf_ltree_header_data_size_offset_eq]
  rw [show (16 + 4 : Nat) = 16 + 4 from rfl]
  simp only [Nat.add_assoc, getD_append_at digest _ 16 _ h16]
  simp [uint32_little_endian_bytes]

/-- C11: header round trip. When a format version 1
`libewf_ltree_section_write_file_io_pool` succeeds (does not return -1) for `n`
bytes of single files data, on a section data buffer that holds the size it is
told and with an MD5 of 16 bytes, then `n` is at most `UINT32_MAX`, and the
header it leaves at the start of `section_data` is accepted by
`libewf_ltree_section_read_header_data` (result 1, called with a data size from
48 up to `SSIZE_MAX`) and decodes to `single_files_data_size = n`: the four
bytes after the 32 bit size the writer stores are zero, so the 64 bit
little-endian value the reader decodes is the same number. -/
theorem C11_written_header_is_read_back (env : section_env)
    (descriptor : Option libewf_section_descriptor_t) (io_handle : Option libewf_io_handle_t)
    (file_io_pool : libbfio_pool_t) (file_io_pool_entry : Int) (section_offset : Int)
    (section_data : uint8_buffer) (section_data_size : Nat) (single_files_data : Option Nat)
    (single_files_data_size : Nat) (data_size old : Nat)
    (h_buffer : section_data_size ≤ section_data.bytes.length)
    (h_digest : ∀ data digest, env.md5_calculate data = some digest → digest.length = 16)
    (h_success : (libewf_ltree_section_write_file_io_pool env descriptor io_handle
      file_io_pool file_io_pool_entry 1 section_offset (some section_data) section_data_size
      single_files_data single_files_data_size).result ≠ -1)
    (h_min : sizeof_ewf_ltree_header_t ≤ data_size) (h_max : data_size ≤ SSIZE_MAX) :
    single_files_data_size ≤ UINT32_MAX ∧
    ∃ bytes,
      (libewf_ltree_section_write_file_io_pool env descriptor io_handle
        file_io_pool file_io_pool_entry 1 section_offset (some section_data) section_data_size
        single_files_data single_files_data_size).section_data = some bytes ∧
      (libewf_ltree_section_read_header_data (some bytes) data_size (some old)).result = 1 ∧
      (libewf_ltree_section_read_header_data (some bytes) data_size
        (some old)).single_files_data_size = some single_files_data_size ∧
      byte_stream_copy_to_uint32_little_endian bytes (ewf_ltree_header_data_size_offset + 4)
        = 0 := by
  obtain ⟨buffer, h1, h3, h4, h5, h6⟩ := write_v1_success_section_data env descriptor
    io_handle file_io_pool file_io_pool_entry section_offset (some section_data)
    section_data_size single_files_data single_files_data_size h_success
  cases h1
  obtain ⟨digest, _, h16, h_built⟩ := ltree_header_built env section_data section_data_size
    single_files_data_size h_buffer h4 h_digest h5
  rw [h_built] at h6
  exact ⟨h3, _, h6,
    (built_header_is_read_back digest _ _ data_size old h16 h3 h_min h_max).1,
    (built_header_is_read_back digest _ _ data_size old h16 h3 h_min h_max).2,
    built_header_upper_size_bytes digest _ _ _ h16⟩

set_option maxRecDepth 100000 in
/-- C11 at a sample: the header written for the 3 bytes "abc" is read back. -/
theorem C11_written_header_is_read_back_witness :
    (libewf_ltree_section_read_header_data
      (libewf_ltree_section_write_file_io_pool (sample_section_env [])
        (some sample_section_descriptor) none ⟨[]⟩ 0 1 0 (some sample_section_data) 51
        (some 4144) 3).section_data 48 (some 7)).single_files_data_size = some 3 ∧
    3 ≤ UINT32_MAX ∧
    ∃ bytes,
      (libewf_ltree_section_write_file_io_pool (sample_section_env [])
        (some sample_section_descriptor) none ⟨[]⟩ 0 1 0 (some sample_section_data) 51
        (some 4144) 3).section_data = some bytes ∧
      (libewf_ltree_section_read_header_data (some bytes) 48 (some 7)).result = 1 ∧
      (libewf_ltree_section_read_header_data (some bytes) 48
        (some 7)).single_files_data_size = some 3 ∧
      byte_stream_copy_to_uint32_little_endian bytes (ewf_ltree_header_data_size_offset + 4)
        = 0 :=
  ⟨by decide,
    C11_written_header_is_read_back (sample_section_env [])
      (some sample_section_descriptor) none ⟨[]⟩ 0 0 sample_section_data 51 (some 4144) 3
      48 7 (by decide) (sample_digest_length []) (by decide) (by decide) (by decide)⟩

/-! ## C12: a failed write is not rolled back -/

/-- C12: a failed write is not rolled back. For format version 1, with sizes that
pass the first tests, a section descriptor that `libewf_section_descriptor_set`
sets and a descriptor write that reports its 76 bytes: when `single_files_data`
is not at `section_data` plus the 48 header bytes, or when
`single_files_data_size` exceeds `UINT32_MAX`, the call returns -1 with one
error, and by then the section descriptor object is the one that was set (as
the descriptor write left it) and the write of the version 1 descriptor is the
last event of the file io pool; nothing takes it back. -/
theorem C12_failed_write_is_not_rolled_back (env : section_env)
    (descriptor : libewf_section_descriptor_t) (io_handle : Option libewf_io_handle_t)
    (file_io_pool : libbfio_pool_t) (file_io_pool_entry : Int) (section_offset : Int)
    (section_data : uint8_buffer) (section_data_size : Nat) (single_files_data : Nat)
    (single_files_data_size : Nat) (descriptor_set : libewf_section_descriptor_t)
    (h_size : section_data_size ≤ SSIZE_MAX)
    (h_required : sizeof_ewf_ltree_header_t + single_files_data_size ≤ section_data_size)
    (h_set : env.section_descriptor_set descriptor env.LIBEWF_SECTION_TYPE_SINGLE_FILES_DATA
      [0x6c, 0x74, 0x72, 0x65, 0x65] 5 section_offset
      (sizeof_ewf_section_descriptor_v1_t + (sizeof_ewf_ltree_header_t
        + single_files_data_size))
      (sizeof_ewf_ltree_header_t + single_files_data_size) 0 = some descriptor_set)
    (h_written : (env.section_descriptor_write file_io_pool descriptor_set
      file_io_pool_entry 1).1 = (sizeof_ewf_section_descriptor_v1_t : Int))
    (h_fails : section_data.address + sizeof_ewf_ltree_header_t ≠ single_files_data
      ∨ single_files_data_size > UINT32_MAX) :
    libewf_ltree_section_write_file_io_pool env (some descriptor) io_handle file_io_pool
        file_io_pool_entry 1 section_offset (some section_data) section_data_size
        (some single_files_data) single_files_data_size
      = ⟨-1,
          some (env.section_descriptor_write file_io_pool descriptor_set
            file_io_pool_entry 1).2,
          some section_data.bytes,
          ⟨file_io_pool.events ++
            [pool_event.write_descriptor file_io_pool_entry descriptor_set 1]⟩,
          [if section_data.address + sizeof_ewf_ltree_header_t ≠ single_files_data then
              (libcerror_domain.RUNTIME, libcerror_code.VALUE_OUT_OF_BOUNDS)
            else (libcerror_domain.ARGUMENTS, libcerror_code.VALUE_EXCEEDS_MAXIMUM)]⟩ := by
  have h48 := sizeof_ewf_ltree_header_t_eq
  have h76 : sizeof_ewf_section_descriptor_v1_t = 76 := rfl
  have hs : SSIZE_MAX = 2 ^ 63 - 1 := rfl
  have hm : SIZE_MODULUS = 2 ^ 64 := rfl
  have c1 : ¬ section_data_size > SSIZE_MAX := by omega
  have c3 : ¬ single_files_data_size > SSIZE_MAX := by omega
  have h_req : (sizeof_ewf_ltree_header_t + single_files_data_size) % SIZE_MODULUS
      = sizeof_ewf_ltree_header_t + single_files_data_size := by
    apply Nat.mod_eq_of_lt; omega
  have h_total : (sizeof_ewf_section_descriptor_v1_t
        + (sizeof_ewf_ltree_header_t + single_files_data_size)) % SIZE_MODULUS
      = sizeof_ewf_section_descriptor_v1_t
        + (sizeof_ewf_ltree_header_t + single_files_data_size) := by
    apply Nat.mod_eq_of_lt; omega
  have c2 : ¬ section_data_size < sizeof_ewf_ltree_header_t + single_files_data_size := by
    omega
  have h_w : (libewf_section_descriptor_write_file_io_pool env descriptor_set file_io_pool
      file_io_pool_entry 1).1 = (sizeof_ewf_section_descriptor_v1_t : Int) := h_written
  by_cases h_address : section_data.address + sizeof_ewf_ltree_header_t ≠ single_files_data
  · simp [libewf_ltree_section_write_file_io_pool, c1, c2, c3, h_req, h_total, h_set, h_written,
      write_file_io_pool_ltree_header, h_address,
      libewf_section_descriptor_write_file_io_pool]
  · have h_big : single_files_data_size > UINT32_MAX := by
      rcases h_fails with h | h
      · exact absurd h h_address
      · exact h
    simp [libewf_ltree_section_write_file_io_pool, c1, c2, c3, h_req, h_total, h_set, h_written,
      write_file_io_pool_ltree_header, h_address, h_big,
      libewf_section_descriptor_write_file_io_pool]

/-- C12 at a sample: the single files data are claimed one byte off the place
after the header; the call fails after the descriptor is set and written. -/
theorem C12_failed_write_is_not_rolled_back_witness :
    libewf_ltree_section_write_file_io_pool (sample_section_env [])
        (some sample_section_descriptor) none ⟨[]⟩ 0 1 0 (some sample_section_data) 51
        (some 4145) 3
      = ⟨-1,
          some ⟨0x20, [0x6c, 0x74, 0x72, 0x65, 0x65], 0, 0, 127, 127, 51, 0⟩,
          some (List.replicate 48 0xff ++ [0x61, 0x62, 0x63]),
          ⟨[pool_event.write_descriptor 0
            ⟨0x20, [0x6c, 0x74, 0x72, 0x65, 0x65], 0, 0, 127, 127, 51, 0⟩ 1]⟩,
          [(libcerror_domain.RUNTIME, libcerror_code.VALUE_OUT_OF_BOUNDS)]⟩ :=
  (C12_failed_write_is_not_rolled_back (sample_section_env []) sample_section_descriptor
    none ⟨[]⟩ 0 0 sample_section_data 51 4145 3
    ⟨0x20, [0x6c, 0x74, 0x72, 0x65, 0x65], 0, 0, 127, 127, 51, 0⟩
    (by decide) (by decide) (by decide) (by decide) (Or.inl (by decide))).trans (by decide)

/-! ## C13: growing the file io pool -/

/-- A loop whose stores all fall inside the block completes: the block keeps
its length, the entries in the range are the cleared entry and the others are
as before. -/
theorem clear_handles_completes (handle : List LIBEWF_FILE_IO_HANDLE)
    (iterator count : Nat) (h : iterator + count ≤ handle.length) :
    ∃ cleared,
      file_io_pool_clear_handles handle iterator count
        = file_io_pool_outcome.completes cleared ∧
      cleared.length = handle.length ∧
      ∀ index, cleared[index]?
        = if iterator ≤ index ∧ index < iterator + count then some ⟨none, -1, 0, 0⟩
          else handle[index]? := by
  induction count generalizing handle iterator with
  | zero =>
    refine ⟨handle, rfl, rfl, fun index => ?_⟩
    rw [if_neg (by omega)]
  | succ count ih =>
    have h_inside : iterator < handle.length := by omega
    obtain ⟨cleared, h1, h2, h3⟩ := ih (handle.set iterator ⟨none, -1, 0, 0⟩) (iterator + 1)
      (by rw [List.length_set]; omega)
    refine ⟨cleared, ?_, ?_, fun index => ?_⟩
    · simp only [file_io_pool_clear_handles]
      rw [if_pos h_inside, h1]
    · rw [h2, List.length_set]
    · rw [h3 index]
      simp only [List.getElem?_set]
      split_ifs <;> first | rfl | omega

/-- A loop that has a store to make outside the block stores past the block,
first at the larger of the iterator and the length of the block. -/
theorem clear_handles_stores_past_block (handle : List LIBEWF_FILE_IO_HANDLE)
    (iterator count : Nat) (h_count : 0 < count) (h : handle.length < iterator + count) :
    file_io_pool_clear_handles handle iterator count
      = file_io_pool_outcome.stores_past_block (max iterator handle.length) := by
  induction count generalizing handle iterator with
  | zero => omega
  | succ count ih =>
    simp only [file_io_pool_clear_handles]
    by_cases h_inside : iterator < handle.length
    · rw [if_pos h_inside, ih (handle.set iterator ⟨none, -1, 0, 0⟩) (iterator + 1)
        (by omega) (by rw [List.length_set]; omega), List.length_set]
      congr 1
      omega
    · rw [if_neg h_inside]
      congr 1
      omega

/-- A reallocation that succeeds keeps the entries that fit the new size. -/
theorem realloc_handles_getElem? (env : file_io_pool_env)
    (handle reallocation : List LIBEWF_FILE_IO_HANDLE) (size index : Nat)
    (h : libewf_common_realloc_handles env handle size = some reallocation) :
    reallocation.length = size / env.LIBEWF_FILE_IO_HANDLE_SIZE ∧
    (index < handle.length → index < size / env.LIBEWF_FILE_IO_HANDLE_SIZE →
      reallocation[index]? = handle[index]?) := by
  unfold libewf_common_realloc_handles at h
  split at h
  · simp at h
  · simp only [Option.some.injEq] at h
    subst h
    refine ⟨by simp, fun h1 h2 => ?_⟩
    simp [List.getElem?_map, List.getElem?_range, h2, List.getD_eq_getElem?_getD,
      List.getElem?_eq_getElem h1]

/-- A block for the wrapped byte count of `amount` entries holds at most
`amount` entries. -/
theorem wrapped_block_holds_at_most (amount handle_size : Nat) :
    (amount * handle_size) % SIZE_MODULUS / handle_size ≤ amount := by
  rcases Nat.eq_zero_or_pos handle_size with h | h
  · subst h; simp
  · calc (amount * handle_size) % SIZE_MODULUS / handle_size
        ≤ amount * handle_size / handle_size := Nat.div_le_div_right (Nat.mod_le _ _)
      _ = amount := Nat.mul_div_cancel _ h

/-- The outcome of `libewf_file_io_pool_realloc` for a greater amount when the
reallocation succeeds, by the size of the new block. -/
theorem file_io_pool_realloc_cases (env : file_io_pool_env) (pool : LIBEWF_FILE_IO_POOL)
    (amount : Nat) (reallocation : List LIBEWF_FILE_IO_HANDLE)
    (h_greater : pool.amount < amount)
    (h_block : libewf_common_realloc_handles env pool.handle
      ((amount * env.LIBEWF_FILE_IO_HANDLE_SIZE) % SIZE_MODULUS) = some reallocation) :
    (reallocation.length < amount ∧
      libewf_file_io_pool_realloc env (some pool) amount
        = file_io_pool_outcome.stores_past_block (max pool.amount reallocation.length)) ∨
    (reallocation.length = amount ∧
      ∃ cleared,
        libewf_file_io_pool_realloc env (some pool) amount
          = file_io_pool_outcome.completes
            (1, some { pool with handle := cleared, amount := amount }) ∧
        cleared.length = amount ∧
        ∀ index, cleared[index]?
          = if pool.amount ≤ index ∧ index < amount then some ⟨none, -1, 0, 0⟩
            else reallocation[index]?) := by
  have h_not : ¬ pool.amount ≥ amount := by omega
  have h_length := (realloc_handles_getElem? env pool.handle reallocation _ 0 h_block).1
  have h_most := wrapped_block_holds_at_most amount env.LIBEWF_FILE_IO_HANDLE_SIZE
  rw [← h_length] at h_most
  by_cases h_small : reallocation.length < amount
  · left
    refine ⟨h_small, ?_⟩
    simp only [libewf_file_io_pool_realloc]
    rw [if_neg h_not, h_block]
    simp only []
    rw [clear_handles_stores_past_block reallocation pool.amount (amount - pool.amount)
      (by omega) (by omega)]
  · right
    have h_equal : reallocation.length = amount := by omega
    obtain ⟨cleared, h1, h2, h3⟩ := clear_handles_completes reallocation pool.amount
      (amount - pool.amount) (by omega)
    refine ⟨h_equal, cleared, ?_, by omega, fun index => ?_⟩
    · simp only [libewf_file_io_pool_realloc]
      rw [if_neg h_not, h_block]
      simp only []
      rw [h1]
    · rw [h3 index]
      have h_sum : pool.amount + (amount - pool.amount) = amount := by omega
      rw [h_sum]

/-- C13: `libewf_file_io_pool_realloc` and a byte count that wraps. For the
sample pool of two entries of 32 bytes and the amount 2^59 + 1 the byte count
`amount * LIBEWF_FILE_IO_HANDLE_SIZE` wraps to 32, the reallocation to a block
of one entry succeeds, and the loop over the new entries stores past the
block, first at entry 2: the call neither returns -1 nor leaves a pool of the
new amount. In general, whenever the amount is greater, the reallocation
succeeds and the new block holds fewer entries than the amount, the call
stores past the block. Apart from that the function does what is said of it:
for an amount that is not greater it returns -1 and leaves the pool as it is;
a call that returns 1 leaves a pool of the new amount with open_files as
before, exactly `amount` entries, every entry below the old amount as before
and every entry from the old amount on with filename `NULL`, file descriptor
-1, file offset 0 and flags 0; and it returns 1 whenever the amount is
greater, the byte count fits `size_t` and the reallocation succeeds. -/
theorem C13_realloc_stores_past_a_wrapped_block :
    libewf_file_io_pool_realloc sample_file_io_pool_env (some sample_file_io_pool)
        (2 ^ 59 + 1) = file_io_pool_outcome.stores_past_block 2 ∧
    ((2 ^ 59 + 1) * sample_file_io_pool_env.LIBEWF_FILE_IO_HANDLE_SIZE) % SIZE_MODULUS = 32 ∧
    sample_file_io_pool_env.realloc_fails 32 = false ∧
    (∀ env pool amount reallocation, pool.amount < amount →
      libewf_common_realloc_handles env pool.handle
        ((amount * env.LIBEWF_FILE_IO_HANDLE_SIZE) % SIZE_MODULUS) = some reallocation →
      reallocation.length < amount →
      libewf_file_io_pool_realloc env (some pool) amount
        = file_io_pool_outcome.stores_past_block (max pool.amount reallocation.length)) ∧
    (∀ env pool amount, amount ≤ pool.amount →
      libewf_file_io_pool_realloc env (some pool) amount
        = file_io_pool_outcome.completes (-1, some pool)) ∧
    (∀ env pool amount after,
      libewf_file_io_pool_realloc env (some pool) amount
        = file_io_pool_outcome.completes (1, after) →
      pool.handle.length = pool.amount →
      ∃ grown,
        after = some grown ∧
        pool.amount < amount ∧
        grown.amount = amount ∧
        grown.open_files = pool.open_files ∧
        grown.handle.length = amount ∧
        (∀ index, index < pool.amount → grown.handle[index]? = pool.handle[index]?) ∧
        (∀ index, pool.amount ≤ index → index < amount →
          grown.handle[index]? = some ⟨none, -1, 0, 0⟩)) ∧
    (∀ env pool amount, pool.amount < amount →
      0 < env.LIBEWF_FILE_IO_HANDLE_SIZE →
      amount * env.LIBEWF_FILE_IO_HANDLE_SIZE < SIZE_MODULUS →
      env.realloc_fails (amount * env.LIBEWF_FILE_IO_HANDLE_SIZE) = false →
      ∃ grown, libewf_file_io_pool_realloc env (some pool) amount
        = file_io_pool_outcome.completes (1, some grown)) := by
  refine ⟨?_, by decide, by decide, ?_, ?_, ?_, ?_⟩
  · rcases file_io_pool_realloc_cases sample_file_io_pool_env sample_file_io_pool
      (2 ^ 59 + 1) [⟨some [0x61, 0x2e, 0x45, 0x30, 0x31], 3, 13, 1⟩] (by decide)
      (by decide) with ⟨_, h⟩ | ⟨h, _⟩
    · exact h
    · exact absurd h (by decide)
  · intro env pool amount reallocation h_greater h_block h_small
    rcases file_io_pool_realloc_cases env pool amount reallocation h_greater h_block with
      ⟨_, h⟩ | ⟨h, _⟩
    · exact h
    · omega
  · intro env pool amount h
    simp [libewf_file_io_pool_realloc, h]
  · intro env pool amount after h h_array
    by_cases h_greater : pool.amount < amount
    · cases h_block : libewf_common_realloc_handles env pool.handle
          ((amount * env.LIBEWF_FILE_IO_HANDLE_SIZE) % SIZE_MODULUS) with
      | none =>
        have h_not : ¬ pool.amount ≥ amount := by omega
        simp [libewf_file_io_pool_realloc, h_not, h_block] at h
      | some reallocation =>
        rcases file_io_pool_realloc_cases env pool amount reallocation h_greater h_block
          with ⟨_, h_past⟩ | ⟨h_equal, cleared, h_call, h_length, h_entries⟩
        · rw [h_past] at h
          cases h
        · rw [h_call] at h
          simp only [file_io_pool_outcome.completes.injEq, Prod.mk.injEq, true_and] at h
          refine ⟨_, h.symm, h_greater, rfl, rfl, h_length, fun index h_index => ?_,
            fun index h_low h_high => ?_⟩
          · show cleared[index]? = pool.handle[index]?
            rw [h_entries index, if_neg (by omega)]
            have h_kept := (realloc_handles_getElem? env pool.handle reallocation _ index
              h_block).2
            rw [← (realloc_handles_getElem? env pool.handle reallocation _ index
              h_block).1] at h_kept
            exact h_kept (by omega) (by omega)
          · show cleared[index]? = some ⟨none, -1, 0, 0⟩
            rw [h_entries index, if_pos ⟨h_low, h_high⟩]
    · have h_not : pool.amount ≥ amount := by omega
      simp [libewf_file_io_pool_realloc, h_not] at h
  · intro env pool amount h_greater h_size h_bytes h_realloc
    have h_mod : (amount * env.LIBEWF_FILE_IO_HANDLE_SIZE) % SIZE_MODULUS
        = amount * env.LIBEWF_FILE_IO_HANDLE_SIZE := Nat.mod_eq_of_lt h_bytes
    cases h_block : libewf_common_realloc_handles env pool.handle
        ((amount * env.LIBEWF_FILE_IO_HANDLE_SIZE) % SIZE_MODULUS) with
    | none =>
      rw [h_mod] at h_block
      simp [libewf_common_realloc_handles, h_realloc] at h_block
    | some reallocation =>
      have h_length := (realloc_handles_getElem? env pool.handle reallocation _ 0 h_block).1
      rw [h_mod, Nat.mul_div_cancel _ h_size] at h_length
      rcases file_io_pool_realloc_cases env pool amount reallocation h_greater h_block with
        ⟨h_small, _⟩ | ⟨_, cleared, h_call, _, _⟩
      · omega
      · exact ⟨_, h_call⟩

/-! ## C14: cloning a segment file handle -/

/-- C14: `libewf_segment_file_handle_clone`, with a list clone that on success
gives a list at another address with the same elements in the same order. For
a source handle and a destination pointer holding `NULL`, a call that returns
1 leaves a destination whose `file_io_pool_entry` and other non-list fields
are those of the source and whose section list is what `libewf_list_clone`
made of the section list of the source (a separate list with the same elements
in the same order), the source is as before and no error is set. With a `NULL`
source it returns 1 and the destination stays `NULL`. With a `NULL`
destination pointer, or a destination that is already set, it returns -1 with
one error and neither destination nor source changes. -/
theorem C14_clone_copies_fields_and_clones_list (env : segment_file_handle_env)
    (source : libewf_segment_file_handle_t)
    (h_list_clone : ∀ list cloned, env.list_clone (some list) = some cloned →
      ∃ copy, cloned = some copy ∧ copy.elements = list.elements
        ∧ copy.address ≠ list.address) :
    ((libewf_segment_file_handle_clone env (some none) (some source)).result = 1 →
      ∃ section_list,
        env.list_clone source.section_list = some section_list ∧
        libewf_segment_file_handle_clone env (some none) (some source)
          = ⟨1, some (some ⟨source.file_io_pool_entry, section_list, source.other_fields⟩),
              some source, []⟩ ∧
        (∀ list, source.section_list = some list →
          ∃ copy, section_list = some copy ∧ copy.elements = list.elements
            ∧ copy.address ≠ list.address)) ∧
    libewf_segment_file_handle_clone env (some none) none = ⟨1, some none, none, []⟩ ∧
    (∀ any_source,
      libewf_segment_file_handle_clone env none any_source
        = ⟨-1, none, any_source,
            [(libcerror_domain.ARGUMENTS, libcerror_code.INVALID_VALUE)]⟩) ∧
    (∀ existing any_source,
      libewf_segment_file_handle_clone env (some (some existing)) any_source
        = ⟨-1, some (some existing), any_source,
            [(libcerror_domain.RUNTIME, libcerror_code.VALUE_ALREADY_SET)]⟩) := by
  refine ⟨fun h => ?_, rfl, fun _ => rfl, fun _ _ => rfl⟩
  simp only [libewf_segment_file_handle_clone] at h ⊢
  cases h_memory : env.memory_allocate_fails with
  | true => simp [h_memory] at h
  | false =>
    cases h_clone : env.list_clone source.section_list with
    | none => simp [h_memory, h_clone] at h
    | some section_list =>
      refine ⟨section_list, rfl, by simp, fun list h_list => ?_⟩
      rw [h_list] at h_clone
      exact h_list_clone list section_list h_clone

/-- C14 at a sample: the clone of a handle with a section list of two elements,
and the clone of `NULL`. -/
theorem C14_clone_copies_fields_and_clones_list_witness :
    libewf_segment_file_handle_clone sample_segment_file_handle_env (some none)
        (some sample_segment_file_handle)
      = ⟨1, some (some ⟨3, some ⟨8193, [[0x68, 0x65, 0x61, 0x64, 0x65, 0x72],
            [0x64, 0x6f, 0x6e, 0x65]]⟩, [1, 0]⟩), some sample_segment_file_handle, []⟩ ∧
    libewf_segment_file_handle_clone sample_segment_file_handle_env (some none) none
      = ⟨1, some none, none, []⟩ :=
  ⟨by decide,
    (C14_clone_copies_fields_and_clones_list sample_segment_file_handle_env
      sample_segment_file_handle (by
        intro list cloned h
        simp only [sample_segment_file_handle_env, Option.map_some', Option.some.injEq] at h
        exact ⟨_, h.symm, rfl, by simp⟩)).2.1⟩

/-! ## C15: cloning a section descriptor -/

/-- A test that returns 1 did not stop at an assertion. -/
theorem test_continues (failed : Prop) [Decidable failed] (rest : Int)
    (h : (if failed then 0 else rest) = 1) : ¬ failed ∧ rest = 1 := by
  by_cases h_failed : failed
  · rw [if_pos h_failed] at h
    exact absurd h (by decide)
  · rw [if_neg h_failed] at h
    exact ⟨h_failed, h⟩

/-- C15: `libewf_section_descriptor_clone` called with a `NULL` source and a
destination pointer holding `NULL` returns 1, leaves the destination `NULL` and
sets no error; called with a `NULL` destination pointer, or with a destination
that is already set, it returns -1 and sets an error, whatever the source.
The function as modelled passes `ewf_test_section_descriptor_clone`, and every
set of functions that passes this test behaves so at the arguments of the
test. -/
theorem C15_clone_of_null_and_clone_errors (memory_allocate_fails : Bool) :
    libewf_section_descriptor_clone memory_allocate_fails (some none) none
      = ⟨1, some none, []⟩ ∧
    (∀ source,
      (libewf_section_descriptor_clone memory_allocate_fails none source).result = -1 ∧
      (libewf_section_descriptor_clone memory_allocate_fails none source).errors ≠ []) ∧
    (∀ existing source,
      (libewf_section_descriptor_clone memory_allocate_fails (some (some existing))
        source).result = -1 ∧
      (libewf_section_descriptor_clone memory_allocate_fails (some (some existing))
        source).errors ≠ []) ∧
    (∀ bogus, ewf_test_section_descriptor_clone modelled_section_descriptor_functions bogus
      = 1) ∧
    (∀ f bogus, ewf_test_section_descriptor_clone f bogus = 1 →
      ((f.clone (some none) none).result = 1 ∧
        (f.clone (some none) none).section_descriptor.join = none ∧
        (f.clone (some none) none).errors = []) ∧
      ((f.clone none (f.create (some none)).section_descriptor.join).result = -1 ∧
        (f.clone none (f.create (some none)).section_descriptor.join).errors ≠ []) ∧
      ((f.clone (some (some bogus)) (f.create (some none)).section_descriptor.join).result
          = -1 ∧
        (f.clone (some (some bogus)) (f.create (some none)).section_descriptor.join).errors
          ≠ [])) := by
  refine ⟨rfl, fun _ => ⟨rfl, by simp [libewf_section_descriptor_clone]⟩,
    fun _ _ => ⟨rfl, by simp [libewf_section_descriptor_clone]⟩, fun _ => rfl, ?_⟩
  intro f bogus h
  unfold ewf_test_section_descriptor_clone at h
  obtain ⟨h1, h⟩ := test_continues _ _ h
  obtain ⟨h2, h⟩ := test_continues _ _ h
  obtain ⟨h3, h⟩ := test_continues _ _ h
  obtain ⟨h4, h⟩ := test_continues _ _ h
  obtain ⟨h5, h⟩ := test_continues _ _ h
  obtain ⟨h6, h⟩ := test_continues _ _ h
  simp only [not_or, not_not, ne_eq] at h3 h4 h5 h6
  rw [h3.2.1] at h4
  exact ⟨⟨h4.1, h4.2.1, h4.2.2⟩, ⟨h5.1, h5.2⟩, ⟨h6.1, h6.2⟩⟩

/-! ## C16: the defaults of the info handle -/

/-- C16: after a successful `info_handle_initialize` on a pointer holding `NULL`
the pointer holds a new info handle whose `header_codepage` is
`LIBEWF_CODEPAGE_ASCII`, whose `date_format` is `LIBEWF_DATE_FORMAT_CTIME` and
whose `output_format` is `INFO_HANDLE_OUTPUT_FORMAT_TEXT`. -/
theorem C16_initialize_sets_the_defaults (env : info_handle_env)
    (h_success : ( info_handle_initialize env (some none)).result = 1) :
    ∃ handle,
      ( info_handle_initialize env (some none)).info_handle = some (some handle) ∧
      handle.header_codepage = env.LIBEWF_CODEPAGE_ASCII ∧
      handle.date_format = env.LIBEWF_DATE_FORMAT_CTIME ∧
      handle.output_format = env.INFO_HANDLE_OUTPUT_FORMAT_TEXT ∧
      ( info_handle_initialize env (some none)).errors = [] := by
  unfold info_handle_initialize at h_success ⊢
  cases h_memory : env.memory_allocate_fails with
  | true => simp [h_memory] at h_success
  | false =>
    cases h_create : env.input_handle_create with
    | none => simp [h_memory, h_create] at h_success
    | some input_handle =>
      exact ⟨⟨some input_handle, env.INFO_HANDLE_OUTPUT_FORMAT_TEXT,
        env.LIBEWF_DATE_FORMAT_CTIME, env.LIBEWF_CODEPAGE_ASCII, some env.stdout⟩,
        by simp, rfl, rfl, rfl, by simp⟩

/-- C16 at a sample: the handle the sample environment creates. -/
theorem C16_initialize_sets_the_defaults_witness :
    ( info_handle_initialize sample_info_handle_env (some none)).result = 1 ∧
    ∃ handle,
      ( info_handle_initialize sample_info_handle_env (some none)).info_handle
        = some (some handle) ∧
      handle.header_codepage = 20127 ∧
      handle.date_format = 4 ∧
      handle.output_format = 0x74 ∧
      ( info_handle_initialize sample_info_handle_env (some none)).errors = [] :=
  ⟨by decide, C16_initialize_sets_the_defaults sample_info_handle_env (by decide)⟩

/-! ## Lemmas on the string comparison and the setters of the info handle -/

/-- Comparing as many characters as both strings have decides whether the strings
are equal. -/
theorem narrow_string_compare_same_length (string literal : List Char) (size : Nat)
    (h1 : string.length = size) (h2 : literal.length = size) :
    libcstring_narrow_string_compare string literal size = 0 ↔ string = literal := by
  unfold libcstring_narrow_string_compare
  rw [List.take_left' h1, List.take_left' h2]
  split_ifs with h <;> simp [h]

/-- Comparing more characters than both strings have stops at the terminating
NUL characters and decides whether the strings are equal. -/
theorem narrow_string_compare_with_terminator (string literal : List Char) (size : Nat)
    (h1 : string.length < size) (h2 : literal.length < size) :
    libcstring_narrow_string_compare string literal size = 0 ↔ string = literal := by
  unfold libcstring_narrow_string_compare
  rw [List.take_of_length_le (by simp; omega), List.take_of_length_le (by simp; omega)]
  split_ifs with h
  · simpa using h
  · simp only [List.append_cancel_right_eq] at h
    simp [h]

/-- A string of another length than a literal is not the literal. -/
theorem ne_of_length_ne (string literal : List Char) (h : string.length ≠ literal.length) :
    string ≠ literal := fun h_eq => h (by rw [h_eq])

/-- The result of `info_handle_set_output_format` by the string it is given. -/
theorem info_handle_set_output_format_cases (env : info_handle_env) (handle : info_handle_t)
    (string : List Char) :
    info_handle_set_output_format env (some handle) string
      = if string = "text".toList then
          ⟨1, some { handle with output_format := env.INFO_HANDLE_OUTPUT_FORMAT_TEXT }, []⟩
        else if string = "dfxml".toList then
          ⟨1, some { handle with
            output_format := env.INFO_HANDLE_OUTPUT_FORMAT_DFXML,
            date_format := env.LIBEWF_DATE_FORMAT_ISO8601 }, []⟩
        else ⟨0, some handle, []⟩ := by
  unfold info_handle_set_output_format libcstring_system_string_length
    libcstring_system_string_compare
  by_cases h4 : string.length = 4
  · have e1 := narrow_string_compare_same_length string "text".toList 4 h4 rfl
    have n1 : string ≠ "dfxml".toList := ne_of_length_ne _ _ (by rw [h4]; decide)
    simp only [h4, e1, n1, if_true, if_false, info_handle_set_return]
    split_ifs <;> simp_all
  · by_cases h5 : string.length = 5
    · have e1 := narrow_string_compare_same_length string "dfxml".toList 5 h5 rfl
      have n1 : string ≠ "text".toList := ne_of_length_ne _ _ (by rw [h5]; decide)
      simp only [h4, h5, e1, n1, if_true, if_false, info_handle_set_return]
      split_ifs <;> simp_all
    · have n1 : string ≠ "text".toList := ne_of_length_ne _ _ h4
      have n2 : string ≠ "dfxml".toList := ne_of_length_ne _ _ h5
      simp only [h4, h5, n1, n2, if_false, info_handle_set_return]
      split_ifs <;> simp_all

/-- The result of `info_handle_set_date_format` by the string it is given. -/
theorem info_handle_set_date_format_cases (env : info_handle_env) (handle : info_handle_t)
    (string : List Char) :
    info_handle_set_date_format env (some handle) string
      = if string = "dm".toList then
          ⟨1, some { handle with date_format := env.LIBEWF_DATE_FORMAT_DAYMONTH }, []⟩
        else if string = "md".toList then
          ⟨1, some { handle with date_format := env.LIBEWF_DATE_FORMAT_MONTHDAY }, []⟩
        else if string = "ctime".toList then
          ⟨1, some { handle with date_format := env.LIBEWF_DATE_FORMAT_CTIME }, []⟩
        else if string = "iso8601".toList then
          ⟨1, some { handle with date_format := env.LIBEWF_DATE_FORMAT_ISO8601 }, []⟩
        else ⟨0, some handle, []⟩ := by
  unfold info_handle_set_date_format libcstring_system_string_length
    libcstring_system_string_compare
  by_cases h2 : string.length = 2
  · have e1 := narrow_string_compare_same_length string "dm".toList 2 h2 rfl
    have e2 := narrow_string_compare_with_terminator string "md".toList 3
      (by rw [h2]; decide) (by decide)
    have n1 : string ≠ "ctime".toList := ne_of_length_ne _ _ (by rw [h2]; decide)
    have n2 : string ≠ "iso8601".toList := ne_of_length_ne _ _ (by rw [h2]; decide)
    simp only [h2, e1, e2, n1, n2, if_true, if_false, info_handle_set_return]
    split_ifs <;> simp_all
  · have m1 : string ≠ "dm".toList := ne_of_length_ne _ _ h2
    have m2 : string ≠ "md".toList := ne_of_length_ne _ _ h2
    by_cases h5 : string.length = 5
    · have e1 := narrow_string_compare_same_length string "ctime".toList 5 h5 rfl
      have n2 : string ≠ "iso8601".toList := ne_of_length_ne _ _ (by rw [h5]; decide)
      simp only [h2, h5, e1, m1, m2, n2, if_true, if_false, info_handle_set_return]
      split_ifs <;> simp_all
    · have n1 : string ≠ "ctime".toList := ne_of_length_ne _ _ h5
      by_cases h7 : string.length = 7
      · have e1 := narrow_string_compare_same_length string "iso8601".toList 7 h7 rfl
        simp only [h2, h5, h7, e1, m1, m2, n1, if_true, if_false, info_handle_set_return]
        split_ifs <;> simp_all
      · have n2 : string ≠ "iso8601".toList := ne_of_length_ne _ _ h7
        simp only [h2, h5, h7, m1, m2, n1, n2, if_false, info_handle_set_return]
        split_ifs <;> simp_all

/-! ## C17: the output format of the info handle -/

/-- C17, as stated, fails: for the string "xml", which is neither "text" nor
"dfxml", `info_handle_set_output_format` on the sample info handle returns 0,
not -1, sets no error and leaves the handle as it is. -/
theorem C17_unsupported_output_format_returns_zero :
    "xml".toList ≠ "text".toList ∧ "xml".toList ≠ "dfxml".toList ∧
    info_handle_set_output_format sample_info_handle_env (some sample_info_handle)
        "xml".toList = ⟨0, some sample_info_handle, []⟩ ∧
    (info_handle_set_output_format sample_info_handle_env (some sample_info_handle)
        "xml".toList).result ≠ -1 ∧
    (info_handle_set_output_format sample_info_handle_env (some sample_info_handle)
        "xml".toList).errors = [] := by
  decide

/-- C17, amended: for every info handle and every string,
`info_handle_set_output_format` returns 1 exactly when the string is "text" or
"dfxml", and then the output format is `INFO_HANDLE_OUTPUT_FORMAT_TEXT` or
`INFO_HANDLE_OUTPUT_FORMAT_DFXML` respectively (for "dfxml" the date format
becomes `LIBEWF_DATE_FORMAT_ISO8601` as well); for every other string it
returns 0, sets no error and leaves the handle as it is; it never returns -1
for an info handle, only for `NULL`. -/
theorem C17_output_format_is_set_for_two_strings (env : info_handle_env)
    (handle : info_handle_t) (string : List Char) :
    (string = "text".toList →
      info_handle_set_output_format env (some handle) string
        = ⟨1, some { handle with output_format := env.INFO_HANDLE_OUTPUT_FORMAT_TEXT },
            []⟩) ∧
    (string = "dfxml".toList →
      info_handle_set_output_format env (some handle) string
        = ⟨1, some { handle with
            output_format := env.INFO_HANDLE_OUTPUT_FORMAT_DFXML,
            date_format := env.LIBEWF_DATE_FORMAT_ISO8601 }, []⟩) ∧
    (string ∉ ["text".toList, "dfxml".toList] →
      info_handle_set_output_format env (some handle) string = ⟨0, some handle, []⟩) ∧
    ((info_handle_set_output_format env (some handle) string).result = 1 ↔
      string ∈ ["text".toList, "dfxml".toList]) ∧
    (info_handle_set_output_format env (some handle) string).result ≠ -1 ∧
    (info_handle_set_output_format env (some handle) string).errors = [] ∧
    info_handle_set_output_format env none string
      = ⟨-1, none, [(libcerror_domain.ARGUMENTS, libcerror_code.INVALID_VALUE)]⟩ := by
  rw [info_handle_set_output_format_cases]
  refine ⟨?_, ?_, ?_, ?_, ?_, ?_, rfl⟩
  · rintro rfl; rfl
  · rintro rfl; rfl
  · intro h
    simp only [List.mem_cons, List.mem_singleton, not_or, List.not_mem_nil, or_false] at h
    rw [if_neg h.1, if_neg h.2]
  · simp only [List.mem_cons, List.mem_singleton, List.not_mem_nil, or_false]
    split_ifs with h1 h2 <;> simp_all
  · split_ifs <;> simp
  · split_ifs <;> simp

/-- C17, amended, at samples: "dfxml" and "xml" on a handle with text output. -/
theorem C17_output_format_is_set_for_two_strings_witness :
    info_handle_set_output_format sample_info_handle_env (some sample_text_info_handle)
        "dfxml".toList
      = ⟨1, some { sample_text_info_handle with output_format := 0x64, date_format := 3 },
          []⟩ ∧
    info_handle_set_output_format sample_info_handle_env (some sample_text_info_handle)
        "xml".toList = ⟨0, some sample_text_info_handle, []⟩ :=
  ⟨(C17_output_format_is_set_for_two_strings sample_info_handle_env
      sample_text_info_handle "dfxml".toList).2.1 rfl,
    (C17_output_format_is_set_for_two_strings sample_info_handle_env
      sample_text_info_handle "xml".toList).2.2.1 (by decide)⟩

/-! ## C18: the date format of the info handle -/

/-- C18: for every info handle and every string, `info_handle_set_date_format`
returns 1 exactly when the string is one of "ctime", "iso8601", "dm", "md", and
then the date format is `LIBEWF_DATE_FORMAT_CTIME`, `LIBEWF_DATE_FORMAT_ISO8601`,
`LIBEWF_DATE_FORMAT_DAYMONTH`, `LIBEWF_DATE_FORMAT_MONTHDAY` respectively and the
other fields are as before; for every other string it returns 0 and leaves the
handle as it is; it sets no error and never returns -1. -/
theorem C18_date_format_is_set_for_four_strings (env : info_handle_env)
    (handle : info_handle_t) (string : List Char) :
    (string = "ctime".toList →
      info_handle_set_date_format env (some handle) string
        = ⟨1, some { handle with date_format := env.LIBEWF_DATE_FORMAT_CTIME }, []⟩) ∧
    (string = "iso8601".toList →
      info_handle_set_date_format env (some handle) string
        = ⟨1, some { handle with date_format := env.LIBEWF_DATE_FORMAT_ISO8601 }, []⟩) ∧
    (string = "dm".toList →
      info_handle_set_date_format env (some handle) string
        = ⟨1, some { handle with date_format := env.LIBEWF_DATE_FORMAT_DAYMONTH }, []⟩) ∧
    (string = "md".toList →
      info_handle_set_date_format env (some handle) string
        = ⟨1, some { handle with date_format := env.LIBEWF_DATE_FORMAT_MONTHDAY }, []⟩) ∧
    (string ∉ ["ctime".toList, "iso8601".toList, "dm".toList, "md".toList] →
      info_handle_set_date_format env (some handle) string = ⟨0, some handle, []⟩) ∧
    ((info_handle_set_date_format env (some handle) string).result = 1 ↔
      string ∈ ["ctime".toList, "iso8601".toList, "dm".toList, "md".toList]) ∧
    (info_handle_set_date_format env (some handle) string).result ≠ -1 := by
  rw [info_handle_set_date_format_cases]
  refine ⟨?_, ?_, ?_, ?_, ?_, ?_, ?_⟩
  · rintro rfl; rfl
  · rintro rfl; rfl
  · rintro rfl; rfl
  · rintro rfl; rfl
  · intro h
    simp only [List.mem_cons, List.mem_singleton, not_or, List.not_mem_nil, or_false] at h
    rw [if_neg h.2.2.1, if_neg h.2.2.2, if_neg h.1, if_neg h.2.1]
  · simp only [List.mem_cons, List.mem_singleton, List.not_mem_nil, or_false]
    split_ifs with h1 h2 h3 h4 <;> simp_all
  · split_ifs <;> simp

/-- C18 at samples: "md" sets the month-day format on the sample handle and
"mdy" is not supported. -/
theorem C18_date_format_is_set_for_four_strings_witness :
    info_handle_set_date_format sample_info_handle_env (some sample_info_handle)
        "md".toList = ⟨1, some { sample_info_handle with date_format := 2 }, []⟩ ∧
    info_handle_set_date_format sample_info_handle_env (some sample_info_handle)
        "mdy".toList = ⟨0, some sample_info_handle, []⟩ :=
  ⟨(C18_date_format_is_set_for_four_strings sample_info_handle_env sample_info_handle
      "md".toList).2.2.2.1 rfl,
    (C18_date_format_is_set_for_four_strings sample_info_handle_env sample_info_handle
      "mdy".toList).2.2.2.2.1 (by decide)⟩

/-! ## C19: the print action of the header value keys -/

set_option maxRecDepth 100000 in
/-- C19: every one of the 17 header value keys, given as an identifier whose size
is its length plus one, makes `info_handle_header_values_fprint` select exactly
one print action, and this action is the one expected for the key: the
dedicated printer for "password", "extents" and "compression_level", and for
every other key the generic printer with the key, the length of the key, a
description of its own and the true length of that description. -/
theorem C19_documented_keys_select_one_print_action :
    ∀ key ∈ documented_header_value_keys,
      (info_handle_header_values_fprint_value key.toList (key.length + 1)).length = 1 ∧
      ∀ action ∈ info_handle_header_values_fprint_value key.toList (key.length + 1),
        header_value_print_expected key action = true := by
  decide

set_option maxRecDepth 100000 in
/-- C19 at the keys: the print action selected for each of them. -/
theorem C19_documented_keys_select_one_print_action_witness :
    documented_header_value_keys.length = 17 ∧
    documented_header_value_keys.map
        (fun key => info_handle_header_values_fprint_value key.toList (key.length + 1))
      = [[header_value_print.header_value "case_number".toList 11 "Case number".toList 11],
        [header_value_print.header_value "description".toList 11 "Description".toList 11],
        [header_value_print.header_value "examiner_name".toList 13 "Examiner name".toList 13],
        [header_value_print.header_value "evidence_number".toList 15
          "Evidence number".toList 15],
        [header_value_print.header_value "notes".toList 5 "Notes".toList 5],
        [header_value_print.header_value "acquiry_date".toList 12
          "Acquisition date".toList 16],
        [header_value_print.header_value "system_date".toList 11 "System date".toList 11],
        [header_value_print.header_value "acquiry_operating_system".toList 24
          "Operating system used".toList 21],
        [header_value_print.header_value "acquiry_software".toList 16
          "Software used".toList 13],
        [header_value_print.header_value "acquiry_software_version".toList 24
          "Software version used".toList 21],
        [header_value_print.password],
        [header_value_print.header_value "process_identifier".toList 18
          "Process identifier".toList 18],
        [header_value_print.header_value "unknown_dc".toList 10 "Unknown value dc".toList 16],
        [header_value_print.extents],
        [header_value_print.compression_level],
        [header_value_print.header_value "model".toList 5 "Model".toList 5],
        [header_value_print.header_value "serial_number".toList 13
          "Serial number".toList 13]] ∧
    (info_handle_header_values_fprint_value "notes".toList ("notes".length + 1)).length = 1 :=
  ⟨by decide, by decide,
    (C19_documented_keys_select_one_print_action "notes" (by decide)).1⟩

/-! ## C20: the compare that recognises acquiry_software_version -/

/-- C20, as stated, fails: "acquiry_software_version" has exactly 24 characters,
so with its terminating NUL its size is 25, the size of the bucket, and the
compare over 24 characters covers the whole identifier: the identifier is
recognised in both functions, and an identifier of the same bucket that
differs in the last character only is not. -/
theorem C20_compare_length_is_the_identifier_length :
    libcstring_system_string_length "acquiry_software_version".toList = 24 ∧
    libcstring_system_string_length "acquiry_software_version".toList + 1 = 25 ∧
    libcstring_narrow_string_compare "acquiry_software_version".toList
      "acquiry_software_version".toList 24 = 0 ∧
    libcstring_narrow_string_compare "acquiry_software_versiom".toList
      "acquiry_software_version".toList 24 ≠ 0 ∧
    info_handle_header_values_fprint_value "acquiry_software_version".toList 25
      = [header_value_print.header_value "acquiry_software_version".toList 24
          "Software version used".toList 21] ∧
    info_handle_header_values_fprint_value "acquiry_software_versiom".toList 25
      = [header_value_print.header_value "acquiry_software_versiom".toList 24
          "acquiry_software_versiom".toList 24] ∧
    info_handle_section_value_string_fprint_identifier "acquiry_software_version".toList 24
      = "acquisition_version".toList ∧
    info_handle_section_value_string_fprint_identifier "acquiry_software_versiom".toList 24
      = "acquiry_software_versiom".toList := by
  decide

/-- C20, amended: in the bucket of identifier size 25, whose size counts the
terminating NUL, every identifier has 24 characters, and the compare over 24
characters that recognises "acquiry_software_version" covers exactly the whole
identifier: it finds equality exactly for that identifier, the description
"Software version used" of 21 characters is selected exactly for it, and the
bucket of identifier length 24 of `info_handle_section_value_string_fprint`
renames exactly it to "acquisition_version". -/
theorem C20_compare_covers_the_whole_identifier (identifier : List Char)
    (h_size : libcstring_system_string_length identifier + 1 = 25) :
    libcstring_system_string_length identifier
      = libcstring_system_string_length "acquiry_software_version".toList ∧
    (libcstring_narrow_string_compare identifier "acquiry_software_version".toList 24 = 0 ↔
      identifier = "acquiry_software_version".toList) ∧
    (info_handle_header_values_fprint_description identifier 25
        = some ("Software version used".toList, 21) ↔
      identifier = "acquiry_software_version".toList) ∧
    (info_handle_section_value_string_fprint_identifier identifier
        (libcstring_system_string_length identifier) = "acquisition_version".toList ↔
      identifier = "acquiry_software_version".toList) := by
  unfold libcstring_system_string_length at h_size ⊢
  have h24 : identifier.length = 24 := by omega
  have e1 := narrow_string_compare_same_length identifier
    "acquiry_software_version".toList 24 h24 rfl
  have e2 := narrow_string_compare_same_length identifier
    "acquiry_operating_system".toList 24 h24 rfl
  have n1 : identifier ≠ "acquisition_version".toList :=
    ne_of_length_ne _ _ (by rw [h24]; decide)
  refine ⟨by rw [h24]; rfl, e1, ?_, ?_⟩
  · simp only [info_handle_header_values_fprint_description, e1, e2]
    by_cases h_system : identifier = "acquiry_operating_system".toList
    · rw [h_system]; decide
    · by_cases h_version : identifier = "acquiry_software_version".toList
      · rw [h_version]; decide
      · simp only [show ¬ (25 = 6) by decide, show ¬ (25 = 11) by decide,
          show ¬ (25 = 12) by decide, show ¬ (25 = 13) by decide,
          show ¬ (25 = 14) by decide, show ¬ (25 = 16) by decide,
          show ¬ (25 = 17) by decide, show ¬ (25 = 19) by decide, if_false, if_true]
        rw [if_neg h_system, if_neg h_version]
        exact ⟨fun h => (by cases h), fun h => absurd h h_version⟩
  · rw [h24]
    simp only [info_handle_section_value_string_fprint_identifier, e1, e2]
    by_cases h_system : identifier = "acquiry_operating_system".toList
    · rw [h_system]; decide
    · by_cases h_version : identifier = "acquiry_software_version".toList
      · rw [h_version]; decide
      · simp only [show ¬ (24 = 12) by decide, show ¬ (24 = 16) by decide, if_false,
          if_true]
        rw [if_neg h_system, if_neg h_version]
        exact ⟨fun h => absurd h n1, fun h => absurd h h_version⟩

/-- C20, amended, at the identifier itself. -/
theorem C20_compare_covers_the_whole_identifier_witness :
    libcstring_system_string_length "acquiry_software_version".toList + 1 = 25 ∧
    libcstring_system_string_length "acquiry_software_version".toList
      = libcstring_system_string_length "acquiry_software_version".toList ∧
    (libcstring_narrow_string_compare "acquiry_software_version".toList
        "acquiry_software_version".toList 24 = 0 ↔
      "acquiry_software_version".toList = "acquiry_software_version".toList) ∧
    (info_handle_header_values_fprint_description "acquiry_software_version".toList 25
        = some ("Software version used".toList, 21) ↔
      "acquiry_software_version".toList = "acquiry_software_version".toList) ∧
    (info_handle_section_value_string_fprint_identifier "acquiry_software_version".toList
        (libcstring_system_string_length "acquiry_software_version".toList)
        = "acquisition_version".toList ↔
      "acquiry_software_version".toList = "acquiry_software_version".toList) :=
  ⟨by decide, C20_compare_covers_the_whole_identifier "acquiry_software_version".toList
    (by decide)⟩

/-! ## C21: the identifier lengths of the header value lookups -/

/-- C21: the identifier lengths of the hard-coded header value lookups. The
password printer asks for "password" with length 8 and the extents printer for
"extents" with length 7, the numbers of characters of these identifiers. The
compression level printer asks for "compression_level" with length 16, where
the identifier has 17 characters: the key it asks for is "compression_leve",
not the key the dispatcher matched over 17 characters in the bucket of size
18. With the sample lookup, which finds a value by a key of exactly the
length asked for, the compression level "f" that is stored is found with
length 17 and not with length 16, and the printer prints nothing. -/
theorem C21_compression_level_is_looked_up_with_length_16 :
    (∀ env values handle,
      (info_handle_header_value_password_fprint env values (some handle)).requests
        = [⟨"password".toList, 8⟩]) ∧
    libcstring_system_string_length "password".toList = 8 ∧
    (∀ env values handle,
      (info_handle_header_value_extents_fprint env values (some handle)).requests
        = [⟨"extents".toList, 7⟩]) ∧
    libcstring_system_string_length "extents".toList = 7 ∧
    (∀ env values handle,
      (info_handle_header_value_compression_level_fprint env values (some handle)).requests
        = [⟨"compression_level".toList, 16⟩]) ∧
    libcstring_system_string_length "compression_level".toList = 17 ∧
    "compression_level".toList.take 16 = "compression_leve".toList ∧
    info_handle_header_values_fprint_value "compression_level".toList 18
      = [header_value_print.compression_level] ∧
    libcstring_narrow_string_compare "compression_level".toList "compression_level".toList 17
      = 0 ∧
    sample_header_value_env.get_utf8_header_value sample_text_info_handle.input_handle
      "compression_level".toList 17 sample_header_value_env.INFO_HANDLE_VALUE_SIZE
      = (1, "f".toList) ∧
    sample_header_value_env.get_utf8_header_value sample_text_info_handle.input_handle
      "compression_level".toList 16 sample_header_value_env.INFO_HANDLE_VALUE_SIZE
      = (0, []) ∧
    info_handle_header_value_compression_level_fprint sample_info_handle_env
      sample_header_value_env (some sample_text_info_handle)
      = ⟨1, [⟨"compression_level".toList, 16⟩], [], []⟩ := by
  refine ⟨fun env values handle => ?_, by decide, fun env values handle => ?_, by decide,
    fun env values handle => ?_, by decide, by decide, by decide, by decide, by decide,
    by decide, by decide⟩
  · unfold info_handle_header_value_password_fprint
    simp only []
    split_ifs <;> rfl
  · unfold info_handle_header_value_extents_fprint
    simp only []
    split_ifs
    · rfl
    · split <;> (try split_ifs) <;> rfl
    · rfl
  · unfold info_handle_header_value_compression_level_fprint
    simp only []
    split_ifs <;> rfl

/-! ## Lemmas on the format version 2 write -/

/-- Setting the bits of a mask sets them and leaves the other bits as they
are. -/
theorem or_mask_bits (flags mask : Nat) :
    (flags ||| mask) &&& mask = mask ∧
    ∀ bit, mask.testBit bit = false → (flags ||| mask).testBit bit = flags.testBit bit := by
  constructor
  · apply Nat.eq_of_testBit_eq
    intro bit
    simp only [Nat.testBit_and, Nat.testBit_or]
    cases flags.testBit bit <;> cases mask.testBit bit <;> rfl
  · intro bit h
    simp [Nat.testBit_or, h]

/-- What a successful format version 2 write leaves behind. -/
theorem write_v2_success (env : section_env) (descriptor : Option libewf_section_descriptor_t)
    (io_handle : Option libewf_io_handle_t) (pool : libbfio_pool_t) (entry : Int)
    (section_offset : Int) (section_data : Option uint8_buffer) (section_data_size : Nat)
    (single_files_data : Option Nat) (single_files_data_size : Nat)
    (h_success : (libewf_ltree_section_write_file_io_pool env descriptor io_handle pool
      entry 2 section_offset section_data section_data_size single_files_data
      single_files_data_size).result ≠ -1) :
    ∃ source buffer descriptor_set,
      descriptor = some source ∧
      section_data = some buffer ∧
      single_files_data_size ≤ section_data_size ∧
      env.section_descriptor_set source env.LIBEWF_SECTION_TYPE_SINGLE_FILES_DATA
          [0x6c, 0x74, 0x72, 0x65, 0x65] 5 section_offset
          ((env.sizeof_ewf_section_descriptor_v2_t + single_files_data_size) % SIZE_MODULUS)
          single_files_data_size 0 = some descriptor_set ∧
      libewf_ltree_section_write_file_io_pool env descriptor io_handle pool
          entry 2 section_offset section_data section_data_size single_files_data
          single_files_data_size
        = ⟨(env.section_write_data pool
              { descriptor_set with
                data_flags := descriptor_set.data_flags |||
                  env.LIBEWF_SECTION_DATA_FLAGS_HAS_INTEGRITY_HASH }
              io_handle entry (buffer.bytes.take single_files_data_size)).1
            + (env.section_descriptor_write
                ⟨pool.events ++ [pool_event.write_data entry
                  { descriptor_set with
                    data_flags := descriptor_set.data_flags |||
                      env.LIBEWF_SECTION_DATA_FLAGS_HAS_INTEGRITY_HASH }
                  (buffer.bytes.take single_files_data_size)]⟩
                (env.section_write_data pool
                  { descriptor_set with
                    data_flags := descriptor_set.data_flags |||
                      env.LIBEWF_SECTION_DATA_FLAGS_HAS_INTEGRITY_HASH }
                  io_handle entry (buffer.bytes.take single_files_data_size)).2 entry 2).1,
            some (env.section_descriptor_write
                ⟨pool.events ++ [pool_event.write_data entry
                  { descriptor_set with
                    data_flags := descriptor_set.data_flags |||
                      env.LIBEWF_SECTION_DATA_FLAGS_HAS_INTEGRITY_HASH }
                  (buffer.bytes.take single_files_data_size)]⟩
                (env.section_write_data pool
                  { descriptor_set with
                    data_flags := descriptor_set.data_flags |||
                      env.LIBEWF_SECTION_DATA_FLAGS_HAS_INTEGRITY_HASH }
                  io_handle entry (buffer.bytes.take single_files_data_size)).2 entry 2).2,
            some buffer.bytes,
            ⟨pool.events ++ [pool_event.write_data entry
                { descriptor_set with
                  data_flags := descriptor_set.data_flags |||
                    env.LIBEWF_SECTION_DATA_FLAGS_HAS_INTEGRITY_HASH }
                (buffer.bytes.take single_files_data_size),
              pool_event.write_descriptor entry
                (env.section_write_data pool
                  { descriptor_set with
                    data_flags := descriptor_set.data_flags |||
                      env.LIBEWF_SECTION_DATA_FLAGS_HAS_INTEGRITY_HASH }
                  io_handle entry (buffer.bytes.take single_files_data_size)).2 2]⟩,
            []⟩ := by
  cases descriptor with
  | none => exact absurd (by simp [libewf_ltree_section_write_file_io_pool]) h_success
  | some source =>
    rcases write_v2_cases env source io_handle pool entry section_offset section_data
      section_data_size single_files_data single_files_data_size with
      h | ⟨buffer, descriptor_set, h1, h2, h3, h4⟩
    · exact absurd h h_success
    · rw [h4] at h_success
      rcases write_data_cases_v2 env
        { descriptor_set with
          data_flags := descriptor_set.data_flags |||
            env.LIBEWF_SECTION_DATA_FLAGS_HAS_INTEGRITY_HASH }
        io_handle pool entry buffer.bytes env.sizeof_ewf_section_descriptor_v2_t
        single_files_data_size 0 with h | h
      · exact absurd h h_success
      · refine ⟨source, buffer, descriptor_set, rfl, h1, h2, h3, ?_⟩
        rw [h4, h]
        simp

/-- What a successful format version 1 write leaves behind. -/
theorem write_v1_success_result (env : section_env)
    (descriptor : Option libewf_section_descriptor_t)
    (io_handle : Option libewf_io_handle_t) (pool : libbfio_pool_t) (entry : Int)
    (section_offset : Int) (section_data : Option uint8_buffer) (section_data_size : Nat)
    (single_files_data : Option Nat) (single_files_data_size : Nat)
    (h_success : (libewf_ltree_section_write_file_io_pool env descriptor io_handle pool
      entry 1 section_offset section_data section_data_size single_files_data
      single_files_data_size).result ≠ -1) :
    ∃ source descriptor_set data,
      descriptor = some source ∧
      env.section_descriptor_set source env.LIBEWF_SECTION_TYPE_SINGLE_FILES_DATA
          [0x6c, 0x74, 0x72, 0x65, 0x65] 5 section_offset
          (sizeof_ewf_section_descriptor_v1_t + (sizeof_ewf_ltree_header_t
            + single_files_data_size))
          (sizeof_ewf_ltree_header_t + single_files_data_size) 0 = some descriptor_set ∧
      (libewf_ltree_section_write_file_io_pool env descriptor io_handle pool
        entry 1 section_offset section_data section_data_size single_files_data
        single_files_data_size).section_descriptor
        = some (env.section_write_data
            ⟨pool.events ++ [pool_event.write_descriptor entry descriptor_set 1]⟩
            (env.section_descriptor_write pool descriptor_set entry 1).2 io_handle entry
            data).2 ∧
      (libewf_ltree_section_write_file_io_pool env descriptor io_handle pool
        entry 1 section_offset section_data section_data_size single_files_data
        single_files_data_size).file_io_pool.events
        = pool.events ++ [pool_event.write_descriptor entry descriptor_set 1,
            pool_event.write_data entry
              (env.section_descriptor_write pool descriptor_set entry 1).2 data] := by
  cases descriptor with
  | none => exact absurd (by simp [libewf_ltree_section_write_file_io_pool]) h_success
  | some source =>
    rcases write_v1_cases env source io_handle pool entry section_offset section_data
      section_data_size single_files_data single_files_data_size with
      h | ⟨buffer, descriptor_set, h1, h2, h3, h4, h5, h6, h7⟩
    · exact absurd h h_success
    · rw [h7] at h_success ⊢
      rcases write_data_cases_v1 env
        (libewf_section_descriptor_write_file_io_pool env descriptor_set pool entry 1).2.1
        io_handle
        (libewf_section_descriptor_write_file_io_pool env descriptor_set pool entry 1).2.2
        entry
        (write_file_io_pool_ltree_header env buffer section_data_size
          (buffer.address + sizeof_ewf_ltree_header_t) single_files_data_size
          sizeof_ewf_ltree_header_t).1
        sizeof_ewf_section_descriptor_v1_t
        (sizeof_ewf_ltree_header_t + single_files_data_size)
        (sizeof_ewf_section_descriptor_v1_t : Int) with h | h
      · exact absurd h h_success
      · refine ⟨source, descriptor_set,
          (write_file_io_pool_ltree_header env buffer section_data_size
            (buffer.address + sizeof_ewf_ltree_header_t) single_files_data_size
            sizeof_ewf_ltree_header_t).1.take
            (sizeof_ewf_ltree_header_t + single_files_data_size), rfl, h5, ?_, ?_⟩
        · rw [h]; rfl
        · rw [h]; simp [libewf_section_descriptor_write_file_io_pool]

/-! ## C22: the integrity hash flag of the format version 2 descriptor -/

/-- C22: with a `libewf_section_write_data` and a
`libewf_section_descriptor_write_file_io_pool` that leave the section
descriptor they are given as it is, a successful call of
`libewf_ltree_section_write_file_io_pool` leaves, for format version 2, the
descriptor `libewf_section_descriptor_set` made with the bits of
`LIBEWF_SECTION_DATA_FLAGS_HAS_INTEGRITY_HASH` set in `data_flags` and every
other bit and field as they were set, and this descriptor is the one written
after the data; for format version 1 it leaves the descriptor as
`libewf_section_descriptor_set` made it, `data_flags` included, and that one is
written before the data. -/
theorem C22_v2_sets_the_integrity_hash_flag (env : section_env)
    (descriptor : Option libewf_section_descriptor_t)
    (io_handle : Option libewf_io_handle_t) (file_io_pool : libbfio_pool_t)
    (file_io_pool_entry : Int) (format_version : Nat) (section_offset : Int)
    (section_data : Option uint8_buffer) (section_data_size : Nat)
    (single_files_data : Option Nat) (single_files_data_size : Nat)
    (h_write_data : ∀ pool section_descriptor handle entry data,
      (env.section_write_data pool section_descriptor handle entry data).2
        = section_descriptor)
    (h_descriptor_write : ∀ pool section_descriptor entry version,
      (env.section_descriptor_write pool section_descriptor entry version).2
        = section_descriptor)
    (h_success : (libewf_ltree_section_write_file_io_pool env descriptor io_handle
      file_io_pool file_io_pool_entry format_version section_offset section_data
      section_data_size single_files_data single_files_data_size).result ≠ -1) :
    ∃ source size data_size descriptor_set data,
      descriptor = some source ∧
      env.section_descriptor_set source env.LIBEWF_SECTION_TYPE_SINGLE_FILES_DATA
          [0x6c, 0x74, 0x72, 0x65, 0x65] 5 section_offset size data_size 0
        = some descriptor_set ∧
      (format_version = 1 ∨ format_version = 2) ∧
      (format_version = 2 →
        (libewf_ltree_section_write_file_io_pool env descriptor io_handle
          file_io_pool file_io_pool_entry format_version section_offset section_data
          section_data_size single_files_data single_files_data_size).section_descriptor
          = some { descriptor_set with
              data_flags := descriptor_set.data_flags |||
                env.LIBEWF_SECTION_DATA_FLAGS_HAS_INTEGRITY_HASH } ∧
        (descriptor_set.data_flags ||| env.LIBEWF_SECTION_DATA_FLAGS_HAS_INTEGRITY_HASH)
            &&& env.LIBEWF_SECTION_DATA_FLAGS_HAS_INTEGRITY_HASH
          = env.LIBEWF_SECTION_DATA_FLAGS_HAS_INTEGRITY_HASH ∧
        (∀ bit, env.LIBEWF_SECTION_DATA_FLAGS_HAS_INTEGRITY_HASH.testBit bit = false →
          (descriptor_set.data_flags
              ||| env.LIBEWF_SECTION_DATA_FLAGS_HAS_INTEGRITY_HASH).testBit bit
            = descriptor_set.data_flags.testBit bit) ∧
        (libewf_ltree_section_write_file_io_pool env descriptor io_handle
          file_io_pool file_io_pool_entry format_version section_offset section_data
          section_data_size single_files_data single_files_data_size).file_io_pool.events
          = file_io_pool.events ++ [
              pool_event.write_data file_io_pool_entry
                { descriptor_set with
                  data_flags := descriptor_set.data_flags |||
                    env.LIBEWF_SECTION_DATA_FLAGS_HAS_INTEGRITY_HASH } data,
              pool_event.write_descriptor file_io_pool_entry
                { descriptor_set with
                  data_flags := descriptor_set.data_flags |||
                    env.LIBEWF_SECTION_DATA_FLAGS_HAS_INTEGRITY_HASH } 2]) ∧
      (format_version = 1 →
        (libewf_ltree_section_write_file_io_pool env descriptor io_handle
          file_io_pool file_io_pool_entry format_version section_offset section_data
          section_data_size single_files_data single_files_data_size).section_descriptor
          = some descriptor_set ∧
        (libewf_ltree_section_write_file_io_pool env descriptor io_handle
          file_io_pool file_io_pool_entry format_version section_offset section_data
          section_data_size single_files_data single_files_data_size).file_io_pool.events
          = file_io_pool.events ++ [
              pool_event.write_descriptor file_io_pool_entry descriptor_set 1,
              pool_event.write_data file_io_pool_entry descriptor_set data]) := by
  by_cases h1 : format_version = 1
  · subst h1
    obtain ⟨source, descriptor_set, data, e1, e2, e3, e4⟩ := write_v1_success_result env
      descriptor io_handle file_io_pool file_io_pool_entry section_offset section_data
      section_data_size single_files_data single_files_data_size h_success
    refine ⟨source, _, _, descriptor_set, data, e1, e2, Or.inl rfl,
      fun h => absurd h (by decide), fun _ => ⟨?_, ?_⟩⟩
    · rw [e3, h_write_data, h_descriptor_write]
    · rw [e4, h_descriptor_write]
  · by_cases h2 : format_version = 2
    · subst h2
      obtain ⟨source, buffer, descriptor_set, e1, _, _, e2, e3⟩ := write_v2_success env
        descriptor io_handle file_io_pool file_io_pool_entry section_offset section_data
        section_data_size single_files_data single_files_data_size h_success
      refine ⟨source, _, _, descriptor_set, buffer.bytes.take single_files_data_size, e1, e2,
        Or.inr rfl, fun _ => ⟨?_, (or_mask_bits _ _).1, (or_mask_bits _ _).2, ?_⟩,
        fun h => absurd h (by decide)⟩
      · rw [e3]
        simp only [h_write_data, h_descriptor_write]
      · rw [e3]
        simp only [h_write_data]
    · exfalso
      apply h_success
      cases descriptor with
      | none => simp [libewf_ltree_section_write_file_io_pool]
      | some source => simp [libewf_ltree_section_write_file_io_pool, h1, h2]

/-- C22 at a sample: the descriptor of the sample set to 3 bytes of data at
offset 0 gets data flags 4 in the format version 2 write. -/
theorem C22_v2_sets_the_integrity_hash_flag_witness :
    libewf_ltree_section_write_file_io_pool (sample_section_env [])
        (some sample_section_descriptor) none ⟨[]⟩ 0 2 0 (some sample_section_data_v2) 3
        (some 4096) 3
      = ⟨67, some ⟨0x20, [0x6c, 0x74, 0x72, 0x65, 0x65], 4, 0, 67, 67, 3, 0⟩,
          some [0x61, 0x62, 0x63],
          ⟨[pool_event.write_data 0 ⟨0x20, [0x6c, 0x74, 0x72, 0x65, 0x65], 4, 0, 67, 67, 3, 0⟩
              [0x61, 0x62, 0x63],
            pool_event.write_descriptor 0
              ⟨0x20, [0x6c, 0x74, 0x72, 0x65, 0x65], 4, 0, 67, 67, 3, 0⟩ 2]⟩, []⟩ ∧
    ∃ source size data_size descriptor_set data,
      some sample_section_descriptor = some source ∧
      (sample_section_env []).section_descriptor_set source
          (sample_section_env []).LIBEWF_SECTION_TYPE_SINGLE_FILES_DATA
          [0x6c, 0x74, 0x72, 0x65, 0x65] 5 0 size data_size 0
        = some descriptor_set ∧
      (2 = 1 ∨ 2 = 2) ∧
      (2 = 2 →
        (libewf_ltree_section_write_file_io_pool (sample_section_env [])
          (some sample_section_descriptor) none ⟨[]⟩ 0 2 0 (some sample_section_data_v2) 3
          (some 4096) 3).section_descriptor
          = some { descriptor_set with
              data_flags := descriptor_set.data_flags |||
                (sample_section_env []).LIBEWF_SECTION_DATA_FLAGS_HAS_INTEGRITY_HASH } ∧
        (descriptor_set.data_flags
            ||| (sample_section_env []).LIBEWF_SECTION_DATA_FLAGS_HAS_INTEGRITY_HASH)
            &&& (sample_section_env []).LIBEWF_SECTION_DATA_FLAGS_HAS_INTEGRITY_HASH
          = (sample_section_env []).LIBEWF_SECTION_DATA_FLAGS_HAS_INTEGRITY_HASH ∧
        (∀ bit,
          (sample_section_env []).LIBEWF_SECTION_DATA_FLAGS_HAS_INTEGRITY_HASH.testBit bit
            = false →
          (descriptor_set.data_flags
              ||| (sample_section_env []).LIBEWF_SECTION_DATA_FLAGS_HAS_INTEGRITY_HASH).testBit
              bit
            = descriptor_set.data_flags.testBit bit) ∧
        (libewf_ltree_section_write_file_io_pool (sample_section_env [])
          (some sample_section_descriptor) none ⟨[]⟩ 0 2 0 (some sample_section_data_v2) 3
          (some 4096) 3).file_io_pool.events
          = ([] : List pool_event) ++ [
              pool_event.write_data 0
                { descriptor_set with
                  data_flags := descriptor_set.data_flags |||
                    (sample_section_env []).LIBEWF_SECTION_DATA_FLAGS_HAS_INTEGRITY_HASH } data,
              pool_event.write_descriptor 0
                { descriptor_set with
                  data_flags := descriptor_set.data_flags |||
                    (sample_section_env []).LIBEWF_SECTION_DATA_FLAGS_HAS_INTEGRITY_HASH } 2]) ∧
      (2 = 1 →
        (libewf_ltree_section_write_file_io_pool (sample_section_env [])
          (some sample_section_descriptor) none ⟨[]⟩ 0 2 0 (some sample_section_data_v2) 3
          (some 4096) 3).section_descriptor
          = some descriptor_set ∧
        (libewf_ltree_section_write_file_io_pool (sample_section_env [])
          (some sample_section_descriptor) none ⟨[]⟩ 0 2 0 (some sample_section_data_v2) 3
          (some 4096) 3).file_io_pool.events
          = ([] : List pool_event) ++ [
              pool_event.write_descriptor 0 descriptor_set 1,
              pool_event.write_data 0 descriptor_set data]) :=
  ⟨by decide,
    C22_v2_sets_the_integrity_hash_flag (sample_section_env [])
      (some sample_section_descriptor) none ⟨[]⟩ 0 2 0 (some sample_section_data_v2) 3
      (some 4096) 3 (fun _ _ _ _ _ => rfl) (fun _ _ _ _ => rfl) (by decide)⟩

/-! ## C23: the buffer behind the const data argument -/

set_option maxRecDepth 100000 in
/-- C23: `libewf_ltree_section_read_header_data` changes the buffer behind its
`const` argument `data`. On the sample header, whose checksum field holds the
Adler-32 of the header, the call returns 1 and leaves the four bytes of the
checksum field zero, where they were not zero before; the other 44 bytes are
as before. A second call on the same buffer then returns -1 with a checksum
mismatch. In general, whenever the call gets as far as the checksum, it leaves
the buffer with zero stored in the checksum field. -/
theorem C23_read_header_data_clears_the_checksum_field :
    (libewf_ltree_section_read_header_data (some (sample_ltree_header (md5 [0x61, 0x62, 0x63]) 3))
      48 (some 0)).result = 1 ∧
    ((sample_ltree_header (md5 [0x61, 0x62, 0x63]) 3).drop
      ewf_ltree_header_checksum_offset).take 4 = [0xac, 0x07, 0x4a, 0x33] ∧
    (libewf_ltree_section_read_header_data (some (sample_ltree_header (md5 [0x61, 0x62, 0x63]) 3))
      48 (some 0)).data
      = some (ltree_header_with_zero_checksum (sample_ltree_header (md5 [0x61, 0x62, 0x63]) 3)) ∧
    (libewf_ltree_section_read_header_data (some (sample_ltree_header (md5 [0x61, 0x62, 0x63]) 3))
      48 (some 0)).data
      ≠ some (sample_ltree_header (md5 [0x61, 0x62, 0x63]) 3) ∧
    (libewf_ltree_section_read_header_data
      (libewf_ltree_section_read_header_data
        (some (sample_ltree_header (md5 [0x61, 0x62, 0x63]) 3)) 48 (some 0)).data
      48 (some 0)).result = -1 ∧
    (libewf_ltree_section_read_header_data
      (libewf_ltree_section_read_header_data
        (some (sample_ltree_header (md5 [0x61, 0x62, 0x63]) 3)) 48 (some 0)).data
      48 (some 0)).errors = [(libcerror_domain.INPUT, libcerror_code.CHECKSUM_MISMATCH)] ∧
    (∀ bytes data_size old, sizeof_ewf_ltree_header_t ≤ data_size → data_size ≤ SSIZE_MAX →
      (libewf_ltree_section_read_header_data (some bytes) data_size (some old)).data
        = some (byte_stream_copy_from_uint32_little_endian bytes
            ewf_ltree_header_checksum_offset 0)) := by
  refine ⟨by decide, by decide, by decide, by decide, by decide, by decide, ?_⟩
  intro bytes data_size old h1 h2
  rw [read_header_data_some bytes data_size old h1 h2]
  split <;> rfl

/-! ## C24: the single files data argument in format version 2 -/

/-- C24: for format version 2 the outcome of
`libewf_ltree_section_write_file_io_pool` does not depend on
`single_files_data`: two calls that differ in the (non-`NULL`) address only
leave the same return value, section descriptor, section data, pool history
and errors; the function does not read what is stored there. When the call
succeeds, the bytes handed to `libewf_section_write_data` are the first
`single_files_data_size` bytes of `section_data`, with no ltree header before
them, and the section data buffer is as it was. -/
theorem C24_v2_writes_section_data_only (env : section_env)
    (descriptor : Option libewf_section_descriptor_t)
    (io_handle : Option libewf_io_handle_t) (file_io_pool : libbfio_pool_t)
    (file_io_pool_entry : Int) (section_offset : Int)
    (section_data : Option uint8_buffer) (section_data_size : Nat)
    (first_single_files_data second_single_files_data : Nat)
    (single_files_data_size : Nat) :
    libewf_ltree_section_write_file_io_pool env descriptor io_handle file_io_pool
        file_io_pool_entry 2 section_offset section_data section_data_size
        (some first_single_files_data) single_files_data_size
      = libewf_ltree_section_write_file_io_pool env descriptor io_handle file_io_pool
        file_io_pool_entry 2 section_offset section_data section_data_size
        (some second_single_files_data) single_files_data_size ∧
    ((libewf_ltree_section_write_file_io_pool env descriptor io_handle file_io_pool
        file_io_pool_entry 2 section_offset section_data section_data_size
        (some first_single_files_data) single_files_data_size).result ≠ -1 →
      ∃ buffer leading trailing,
        section_data = some buffer ∧
        single_files_data_size ≤ section_data_size ∧
        (libewf_ltree_section_write_file_io_pool env descriptor io_handle file_io_pool
          file_io_pool_entry 2 section_offset section_data section_data_size
          (some first_single_files_data) single_files_data_size).file_io_pool.events
          = file_io_pool.events ++ [
              pool_event.write_data file_io_pool_entry leading
                (buffer.bytes.take single_files_data_size),
              pool_event.write_descriptor file_io_pool_entry trailing 2] ∧
        (libewf_ltree_section_write_file_io_pool env descriptor io_handle file_io_pool
          file_io_pool_entry 2 section_offset section_data section_data_size
          (some first_single_files_data) single_files_data_size).section_data
          = some buffer.bytes) := by
  refine ⟨?_, fun h_success => ?_⟩
  · cases descriptor with
    | none => rfl
    | some source =>
      cases section_data with
      | none => rfl
      | some buffer => simp [libewf_ltree_section_write_file_io_pool]
  · obtain ⟨source, buffer, descriptor_set, e1, e2, e3, _, e5⟩ := write_v2_success env
      descriptor io_handle file_io_pool file_io_pool_entry section_offset section_data
      section_data_size (some first_single_files_data) single_files_data_size h_success
    exact ⟨buffer, _, _, e2, e3, by rw [e5], by rw [e5]⟩

/-- C24 at a sample: the single files data claimed at two addresses. -/
theorem C24_v2_writes_section_data_only_witness :
    libewf_ltree_section_write_file_io_pool (sample_section_env [])
        (some sample_section_descriptor) none ⟨[]⟩ 0 2 0 (some sample_section_data_v2) 3
        (some 4096) 3
      = libewf_ltree_section_write_file_io_pool (sample_section_env [])
        (some sample_section_descriptor) none ⟨[]⟩ 0 2 0 (some sample_section_data_v2) 3
        (some 123456) 3 ∧
    (libewf_ltree_section_write_file_io_pool (sample_section_env [])
        (some sample_section_descriptor) none ⟨[]⟩ 0 2 0 (some sample_section_data_v2) 3
        (some 123456) 3).file_io_pool.events.map
        (fun event => match event with
          | pool_event.write_data _ _ data => data
          | _ => [])
      = [[0x61, 0x62, 0x63], []] :=
  ⟨(C24_v2_writes_section_data_only (sample_section_env [])
      (some sample_section_descriptor) none ⟨[]⟩ 0 0 (some sample_section_data_v2) 3
      4096 123456 3).1, by decide⟩

/-! ## C25: the pool that is allocated -/

/-- C26: `libewf_segment_file_handle_initialize`, with a `libewf_list_initialize`
that creates an empty list. Called with a pointer that holds a handle it
returns 1 without an error and leaves the handle as it is: neither the
`file_io_pool_entry` nor the section list nor another field changes. Called
with a pointer holding `NULL`, when the allocation and the list creation
succeed, it returns 1 without an error and the pointer holds a new handle
whose `file_io_pool_entry` is the argument, whose section list is the empty
list that was created and whose other fields are zero; it returns 1 only
then. -/
theorem C26_initialize_keeps_a_set_handle (env : segment_file_handle_env)
    (file_io_pool_entry : Int)
    (h_list_create : ∀ list, env.list_create = some list → list.elements = []) :
    (∀ existing,
      libewf_segment_file_handle_initialize env (some (some existing)) file_io_pool_entry
        = ⟨1, some (some existing), []⟩) ∧
    (env.memory_allocate_fails = false → ∀ list, env.list_create = some list →
      libewf_segment_file_handle_initialize env (some none) file_io_pool_entry
        = ⟨1, some (some ⟨file_io_pool_entry, some list,
            List.replicate env.other_fields_size 0⟩), []⟩ ∧
      list.elements = [] ∧
      ∀ byte ∈ List.replicate env.other_fields_size 0, byte = 0) ∧
    (( libewf_segment_file_handle_initialize env (some none) file_io_pool_entry).result = 1 →
      env.memory_allocate_fails = false ∧ ∃ list, env.list_create = some list) := by
  refine ⟨fun _ => rfl, fun h_memory list h_list => ⟨?_, h_list_create list h_list, ?_⟩,
    fun h => ?_⟩
  · simp [ libewf_segment_file_handle_initialize, h_memory, h_list]
  · intro byte h_byte
    exact (List.mem_replicate.mp h_byte).2
  · unfold libewf_segment_file_handle_initialize at h
    cases h_memory : env.memory_allocate_fails with
    | true => simp [h_memory] at h
    | false =>
      cases h_list : env.list_create with
      | none => simp [h_memory, h_list] at h
      | some list => exact ⟨rfl, list, rfl⟩

/-- C26 at a sample: a set handle is kept and a new handle is created. -/
theorem C26_initialize_keeps_a_set_handle_witness :
    libewf_segment_file_handle_initialize sample_segment_file_handle_env
        (some (some sample_segment_file_handle)) 7
      = ⟨1, some (some sample_segment_file_handle), []⟩ ∧
    sample_segment_file_handle.file_io_pool_entry = 3 ∧
    libewf_segment_file_handle_initialize sample_segment_file_handle_env (some none) 7
      = ⟨1, some (some ⟨7, some ⟨4096, []⟩, [0, 0]⟩), []⟩ :=
  ⟨(C26_initialize_keeps_a_set_handle sample_segment_file_handle_env 7 (by
      intro list h
      simp only [sample_segment_file_handle_env, Option.some.injEq] at h
      rw [← h])).1 sample_segment_file_handle,
    by decide, by decide⟩

/-! ## Lemmas on the loops of the printers -/

/-- A remainder of 1 in the division by 4 as C makes it: the number is not
negative and leaves 1. -/
theorem tmod_four_eq_one (n : Int) : n.tmod 4 = 1 ↔ 0 ≤ n ∧ n % 4 = 1 := by
  cases n with
  | ofNat m =>
    simp only [Int.ofNat_eq_coe]
    rw [Int.tmod_eq_emod (by omega) (by omega)]
    omega
  | negSucc m =>
    have h : (Int.negSucc m).tmod 4 = -(((m + 1) % 4 : Nat) : Int) := rfl
    have h_neg : Int.negSucc m < 0 := Int.negSucc_lt_zero m
    rw [h]
    omega

/-- The elements a run of the loop over the extents reads lie below the number
of values, when the iterator starts at a place that leaves 1 in the division
by 4, as the number of values does. -/
theorem extents_loop_reads_in_bounds (dfxml : Bool) (number_of_values : Int) (rounds : Nat)
    (iterator : Int) (h_start : 0 ≤ iterator) (h_iterator : iterator % 4 = 1)
    (h_number : number_of_values % 4 = 1) :
    ∀ call ∈ info_handle_header_value_extents_fprint_loop dfxml number_of_values rounds
        iterator,
      ∀ index, fprintf_argument.extents_element index ∈ call.arguments →
        0 ≤ index ∧ index < number_of_values := by
  induction rounds generalizing iterator with
  | zero => intro call h; simp [info_handle_header_value_extents_fprint_loop] at h
  | succ rounds ih =>
    unfold info_handle_header_value_extents_fprint_loop
    by_cases h_less : iterator < number_of_values
    · rw [if_pos h_less]
      have h_rest := ih (iterator + 4) (by omega) (by omega)
      have h_values : ∀ index,
          fprintf_argument.extents_element index
            ∈ [fprintf_argument.extents_element iterator,
              fprintf_argument.extents_element (iterator + 1),
              fprintf_argument.extents_element (iterator + 2),
              fprintf_argument.extents_element (iterator + 3)] →
          0 ≤ index ∧ index < number_of_values := by
        intro index h_index
        simp only [List.mem_cons, fprintf_argument.extents_element.injEq,
          List.mem_singleton, List.not_mem_nil, or_false] at h_index
        omega
      cases dfxml <;>
        simp only [if_true, if_false, Bool.false_eq_true, List.append_nil,
          List.forall_mem_append, List.forall_mem_singleton, List.not_mem_nil, false_implies,
          implies_true, and_true, true_and] <;>
        exact ⟨h_values, h_rest⟩
    · rw [if_neg h_less]
      intro call h
      simp at h

/-- The number of extents a run of the loop prints, when it is given enough
rounds: a quarter of the distance from the iterator to the number of
values. -/
theorem extents_loop_prints_every_extent (dfxml : Bool) (number_of_values : Int)
    (rounds : Nat) (iterator : Int) (h_iterator : iterator ≤ number_of_values)
    (h_distance : (number_of_values - iterator) % 4 = 0)
    (h_rounds : (number_of_values - iterator) / 4 ≤ rounds) :
    ((info_handle_header_value_extents_fprint_loop dfxml number_of_values rounds
      iterator).filter fprintf_call.is_extent).length
      = ((number_of_values - iterator) / 4).toNat := by
  induction rounds generalizing iterator with
  | zero =>
    have h : (number_of_values - iterator) / 4 = 0 := by omega
    simp [info_handle_header_value_extents_fprint_loop, h]
  | succ rounds ih =>
    unfold info_handle_header_value_extents_fprint_loop
    by_cases h_less : iterator < number_of_values
    · rw [if_pos h_less]
      have h_step : (number_of_values - (iterator + 4)) / 4
          = (number_of_values - iterator) / 4 - 1 := by omega
      have h_next := ih (iterator + 4) (by omega) (by omega) (by rw [h_step]; omega)
      have h_quarter : ((number_of_values - iterator) / 4).toNat
          = ((number_of_values - (iterator + 4)) / 4).toNat + 1 := by omega
      rw [h_quarter, ← h_next]
      cases dfxml <;> simp [List.filter_cons, fprintf_call.is_extent]
    · rw [if_neg h_less]
      have h : (number_of_values - iterator) / 4 = 0 := by omega
      simp [h]

/-- More rounds than the distance from the iterator to the number of values do
not change what the loop over the extents prints. -/
theorem extents_loop_rounds_suffice (dfxml : Bool) (number_of_values : Int)
    (rounds extra : Nat) (iterator : Int)
    (h_rounds : number_of_values - iterator ≤ rounds) :
    info_handle_header_value_extents_fprint_loop dfxml number_of_values (rounds + extra)
        iterator
      = info_handle_header_value_extents_fprint_loop dfxml number_of_values rounds
        iterator := by
  induction rounds generalizing iterator with
  | zero =>
    cases extra with
    | zero => rfl
    | succ extra =>
      have h : ¬ iterator < number_of_values := by omega
      simp [info_handle_header_value_extents_fprint_loop, h]
  | succ rounds ih =>
    rw [Nat.add_right_comm]
    unfold info_handle_header_value_extents_fprint_loop
    rw [ih (iterator + 4) (by omega)]

/-- Three rounds end the loop that prints the tabs after a description. -/
theorem section_value_string_tabs_rounds_suffice (description_length extra : Nat) :
    info_handle_section_value_string_fprint_tabs description_length (3 + extra)
      = info_handle_section_value_string_fprint_tabs description_length 3 := by
  have h_mod : SIZE_MODULUS = 2 ^ 64 := rfl
  rw [Nat.add_comm]
  unfold info_handle_section_value_string_fprint_tabs
  split_ifs with h1
  · congr 1
    rw [Nat.mod_eq_of_lt (by omega)]
    unfold info_handle_section_value_string_fprint_tabs
    split_ifs with h2
    · congr 1
      rw [Nat.mod_eq_of_lt (by omega)]
      unfold info_handle_section_value_string_fprint_tabs
      split_ifs with h3
      · congr 1
        rw [Nat.mod_eq_of_lt (by omega)]
        have h4 : ¬ description_length + 8 + 8 + 8 < 24 := by omega
        cases extra with
        | zero => rfl
        | succ extra => simp [info_handle_section_value_string_fprint_tabs, h4]
      · rfl
    · rfl
  · rfl

/-! ## C27: the elements of the extents header value -/

/-- C27: `info_handle_header_value_extents_fprint` on an info handle whose
extents header value is found and split into `n` elements. The call sets the
unsupported value error exactly when `n % 4`, as C computes it, is not 1, and
then it returns -1 and prints nothing. Otherwise every element
`values[ index ]` it hands to `fprintf` has `0 ≤ index < n`, it prints the
four values of an extent exactly `(n - 1) / 4` times, and it returns 1 unless
freeing the split values fails. -/
theorem C27_extents_are_read_in_bounds (env : info_handle_env) (values : header_value_env)
    (handle : info_handle_t) (extents_elements : libsystem_split_values_t)
    (h_found : (values.get_utf8_header_value handle.input_handle "extents".toList 7
        values.INFO_HANDLE_VALUE_SIZE).1 ≠ -1 ∧
      (values.get_utf8_header_value handle.input_handle "extents".toList 7
        values.INFO_HANDLE_VALUE_SIZE).1 ≠ 0)
    (h_split : values.split_values_parse_string
        (values.get_utf8_header_value handle.input_handle "extents".toList 7
          values.INFO_HANDLE_VALUE_SIZE).2
        (libcstring_system_string_length
          (values.get_utf8_header_value handle.input_handle "extents".toList 7
            values.INFO_HANDLE_VALUE_SIZE).2) ' '
      = some extents_elements) :
    ((libcerror_domain.RUNTIME, libcerror_code.UNSUPPORTED_VALUE)
        ∈ (info_handle_header_value_extents_fprint env values (some handle)).errors ↔
      extents_elements.number_of_values.tmod 4 ≠ 1) ∧
    (extents_elements.number_of_values.tmod 4 ≠ 1 →
      (info_handle_header_value_extents_fprint env values (some handle)).result = -1 ∧
      (info_handle_header_value_extents_fprint env values (some handle)).output = []) ∧
    (extents_elements.number_of_values.tmod 4 = 1 →
      ((info_handle_header_value_extents_fprint env values (some handle)).result = 1 ↔
        values.split_values_free_fails extents_elements = false) ∧
      (∀ call ∈ (info_handle_header_value_extents_fprint env values (some handle)).output,
        ∀ index, fprintf_argument.extents_element index ∈ call.arguments →
          0 ≤ index ∧ index < extents_elements.number_of_values) ∧
      ((info_handle_header_value_extents_fprint env values (some handle)).output.filter
          fprintf_call.is_extent).length
        = ((extents_elements.number_of_values - 1) / 4).toNat) := by
  obtain ⟨h_error, h_none⟩ := h_found
  by_cases h_mod : extents_elements.number_of_values.tmod 4 = 1
  · have h_number := (tmod_four_eq_one _).mp h_mod
    have h_loop := extents_loop_reads_in_bounds
      (decide (handle.output_format = env.INFO_HANDLE_OUTPUT_FORMAT_DFXML))
      extents_elements.number_of_values extents_elements.number_of_values.toNat 1
      (by omega) (by omega) h_number.2
    have h_count := extents_loop_prints_every_extent
      (decide (handle.output_format = env.INFO_HANDLE_OUTPUT_FORMAT_DFXML))
      extents_elements.number_of_values extents_elements.number_of_values.toNat 1
      (by omega) (by omega) (by omega)
    have h_first : ∀ index, fprintf_argument.extents_element index
        ∈ [fprintf_argument.extents_element 0] →
        0 ≤ index ∧ index < extents_elements.number_of_values := by
      intro index h_index
      simp only [List.mem_singleton, fprintf_argument.extents_element.injEq] at h_index
      omega
    have h_output : ∀ call ∈
        info_handle_header_value_extents_fprint_elements env handle extents_elements,
        ∀ index, fprintf_argument.extents_element index ∈ call.arguments →
          0 ≤ index ∧ index < extents_elements.number_of_values := by
      unfold info_handle_header_value_extents_fprint_elements
      simp only [List.forall_mem_append]
      refine ⟨?_, ?_⟩
      · split_ifs
        · simpa only [List.forall_mem_singleton] using h_first
        · simp
      · split_ifs
        · simp only [List.forall_mem_append, List.forall_mem_singleton, List.not_mem_nil,
            false_implies, implies_true, and_true, true_and]
          exact h_loop
        · simp only [List.forall_mem_append, List.not_mem_nil, false_implies, implies_true,
            and_true, true_and]
          exact h_loop
        · simp
    have h_lines : ((info_handle_header_value_extents_fprint_elements env handle
        extents_elements).filter fprintf_call.is_extent).length
        = ((extents_elements.number_of_values - 1) / 4).toNat := by
      unfold info_handle_header_value_extents_fprint_elements
      by_cases h_more : extents_elements.number_of_values > 1
      · simp only [if_pos h_more]
        rw [← h_count]
        split_ifs <;> simp [List.filter_cons, fprintf_call.is_extent]
      · simp only [if_neg h_more]
        have h_zero : (extents_elements.number_of_values - 1) / 4 = 0 := by omega
        rw [h_zero]
        split_ifs <;> simp [List.filter_cons, fprintf_call.is_extent]
    have h_call : info_handle_header_value_extents_fprint env values (some handle)
        = if values.split_values_free_fails extents_elements then
            ⟨-1, [⟨"extents".toList, 7⟩],
              info_handle_header_value_extents_fprint_elements env handle extents_elements,
              [(libcerror_domain.RUNTIME, libcerror_code.FINALIZE_FAILED)]⟩
          else
            ⟨1, [⟨"extents".toList, 7⟩],
              info_handle_header_value_extents_fprint_elements env handle extents_elements,
              []⟩ := by
      simp only [info_handle_header_value_extents_fprint, h_error, h_none, h_split, h_mod,
        if_false, ne_eq, not_true_eq_false, not_false_eq_true, if_true]
    rw [h_call]
    refine ⟨?_, fun h => absurd h_mod h, fun _ => ⟨?_, ?_, ?_⟩⟩
    · cases values.split_values_free_fails extents_elements <;> simp [h_mod]
    · cases values.split_values_free_fails extents_elements <;> simp
    · cases values.split_values_free_fails extents_elements <;> exact h_output
    · cases values.split_values_free_fails extents_elements <;> exact h_lines
  · have h_call : info_handle_header_value_extents_fprint env values (some handle)
        = ⟨-1, [⟨"extents".toList, 7⟩], [],
            [(libcerror_domain.RUNTIME, libcerror_code.UNSUPPORTED_VALUE)]⟩ := by
      simp only [info_handle_header_value_extents_fprint, h_error, h_none, h_split, h_mod,
        if_false, ne_eq, not_true_eq_false, not_false_eq_true, if_true]
    rw [h_call]
    exact ⟨by simp [h_mod], fun _ => ⟨rfl, rfl⟩, fun h => absurd h h_mod⟩

/-- C27 at a sample: an extents value of 9 elements, two extents, printed as
text. -/
theorem C27_extents_are_read_in_bounds_witness :
    info_handle_header_value_extents_fprint sample_info_handle_env sample_header_value_env
        (some sample_text_info_handle)
      = ⟨1, [⟨"extents".toList, 7⟩],
          [⟨"\tExtents:\t\t%s\n", [fprintf_argument.extents_element 0]⟩,
            ⟨"\t\t\t\t", []⟩,
            ⟨"%s %s %s %s", [fprintf_argument.extents_element 1,
              fprintf_argument.extents_element 2, fprintf_argument.extents_element 3,
              fprintf_argument.extents_element 4]⟩,
            ⟨"\n", []⟩,
            ⟨"\t\t\t\t", []⟩,
            ⟨"%s %s %s %s", [fprintf_argument.extents_element 5,
              fprintf_argument.extents_element 6, fprintf_argument.extents_element 7,
              fprintf_argument.extents_element 8]⟩,
            ⟨"\n", []⟩], []⟩ ∧
    ((info_handle_header_value_extents_fprint sample_info_handle_env sample_header_value_env
        (some sample_text_info_handle)).output.filter fprintf_call.is_extent).length
      = (((9 : Int) - 1) / 4).toNat :=
  ⟨by decide,
    ((C27_extents_are_read_in_bounds sample_info_handle_env sample_header_value_env
      sample_text_info_handle
      ⟨9, ["2".toList, "0".toList, "63".toList, "1".toList, "7".toList, "64".toList,
        "100".toList, "2".toList, "9".toList]⟩
      (by decide) (by decide)).2.2 (by decide)).2.2⟩

end Libewf
